import Mathlib

/-!
# tailout: a shallow embedding of the exit-node lifecycle

The Go sources `internal/common.go`, `tailout/connect.go`, `tailout/disconnect.go` and
`tailout/create.go` are embedded as state-passing functions.  Every call that leaves the
program (coordination-service API, local agent, cloud provider, prompts) is a field of
`Env`: a function from the outside world's state to a response and a new state.  Each call
is appended, with its response, to a log, so that "which calls were made, in which order,
with which answers" is a value theorems can talk about.
-/

namespace Tailout

/-! ## Go errors -/

/-- Go `error` values as the program builds and inspects them. -/
inductive GoError where
  /-- `errors.New(msg)` and `fmt.Errorf` without `%w`. -/
  | new (msg : String)
  /-- `fmt.Errorf(pfx + "%w", inner)`. -/
  | wrap (pfx : String) (inner : GoError)
  /-- The package-level sentinel `ErrUserAborted` of `create.go`. -/
  | userAborted
  /-- A `*smithy.GenericAPIError` with its `Code` and `Message`. -/
  | api (code : String) (message : String)
  /-- A run-time panic (index out of range); it is not an error value and no caller wraps it. -/
  | panic (msg : String)
  deriving DecidableEq, Repr, Inhabited

/-- The text of `err.Error()`. -/
def GoError.Error : GoError → String
  | .new msg => msg
  | .wrap pfx inner => pfx ++ inner.Error
  | .userAborted => "user aborted instance creation"
  | .api code message => "api error " ++ code ++ ": " ++ message
  | .panic msg => "panic: " ++ msg

/-- The test `errors.Is(err, ErrUserAborted)`: walks the `%w` chain looking for the sentinel. -/
def GoError.IsUserAborted : GoError → Bool
  | .userAborted => true
  | .wrap _ inner => inner.IsUserAborted
  | _ => false

/-- The lookup `errors.As(err, &dryRunErr)` for `*smithy.GenericAPIError`: the code of the
first API error on the `%w` chain. -/
def GoError.AsAPICode : GoError → Option String
  | .api code _ => some code
  | .wrap _ inner => inner.AsAPICode
  | _ => none

/-! ## Data model -/

/-- A `time.Time`: seconds since the Unix epoch and the zone offset (seconds east of UTC)
of its location.  The sub-second part, which `Minute` never reads, is left out. -/
structure Time where
  unix : Int
  offset : Int
  deriving DecidableEq, Repr, Inhabited

/-- The method `Time.Minute()`: the minute-of-hour, `0..59`, in the time's location. -/
def Time.Minute (t : Time) : Int :=
  Int.ediv (Int.emod (t.unix + t.offset) 3600) 60

/-- The constant `time.Minute` as a `time.Duration`, that is in nanoseconds. -/
def Minute : Int := 60 * 1000000000

/-- The fields of `tsapi.Device` the program reads. -/
structure Device where
  NodeID : String
  Name : String
  Hostname : String
  Tags : List String
  Addresses : List String
  LastSeen : Time
  deriving DecidableEq, Repr, Inhabited

/-- The fields of `tsapi.Client` the program sets. -/
structure TsClient where
  APIKey : String
  Tailnet : String
  BaseURL : String
  deriving DecidableEq, Repr, Inhabited

/-- The type `ipnstate.ExitNodeStatus`. -/
structure ExitNodeStatus where
  ID : String
  Online : Bool
  deriving DecidableEq, Repr, Inhabited

/-- The fields of `ipnstate.Status` the program reads; `none` is the nil pointer. -/
structure Status where
  BackendState : String
  ExitNodeStatus : Option ExitNodeStatus
  deriving DecidableEq, Repr, Inhabited

/-- The exit-node fields of `ipn.Prefs`. -/
structure Prefs where
  ExitNodeID : String
  ExitNodeIP : String
  deriving DecidableEq, Repr, Inhabited

/-- The method `Prefs.ClearExitNode`. -/
def Prefs.ClearExitNode (p : Prefs) : Prefs :=
  { p with ExitNodeID := "", ExitNodeIP := "" }

/-- The type `ipn.MaskedPrefs` as the program fills it. -/
structure MaskedPrefs where
  Prefs : Prefs
  ExitNodeIDSet : Bool
  deriving DecidableEq, Repr, Inhabited

/-- The four nested capability flags of `tsapi.KeyCapabilities`. -/
structure KeyCapabilities where
  Reusable : Bool
  Ephemeral : Bool
  Tags : List String
  Preauthorized : Bool
  deriving DecidableEq, Repr, Inhabited

/-- The type `tsapi.CreateKeyRequest`. -/
structure CreateKeyRequest where
  Description : String
  Capabilities : KeyCapabilities
  deriving DecidableEq, Repr, Inhabited

/-- The options handed to `config.LoadDefaultConfig`. -/
structure LoadOptions where
  Region : String
  RetryMaxAttempts : Option Nat
  RetryMode : Option String
  deriving DecidableEq, Repr, Inhabited

/-- The field of `aws.Config` the program reads. -/
structure AwsConfig where
  Region : String
  deriving DecidableEq, Repr, Inhabited

/-- The type `types.Filter`. -/
structure Filter where
  Name : String
  Values : List String
  deriving DecidableEq, Repr, Inhabited

/-- The type `ec2.DescribeImagesInput`. -/
structure DescribeImagesInput where
  Filters : List Filter
  Owners : List String
  deriving DecidableEq, Repr, Inhabited

/-- The fields of `types.Image` the program reads (the pointers are taken to be non-nil). -/
structure Image where
  ImageId : String
  Name : String
  ImageOwnerAlias : String
  Architecture : String
  CreationDate : String
  deriving DecidableEq, Repr, Inhabited

/-- The type `types.Tag`. -/
structure Tag where
  Key : String
  Value : String
  deriving DecidableEq, Repr, Inhabited

/-- The type `types.TagSpecification`. -/
structure TagSpecification where
  ResourceType : String
  Tags : List Tag
  deriving DecidableEq, Repr, Inhabited

/-- The type `ec2.RunInstancesInput` as `prepareInstance` fills it. -/
structure RunInstancesInput where
  ImageId : String
  InstanceType : String
  MinCount : Int
  MaxCount : Int
  UserData : String
  TagSpecifications : List TagSpecification
  DryRun : Bool
  MarketType : String
  InstanceInterruptionBehavior : String
  deriving DecidableEq, Repr, Inhabited

/-- The fields of `types.Instance` the program reads. -/
structure Ec2Instance where
  InstanceId : String
  PublicIpAddress : Option String
  deriving DecidableEq, Repr, Inhabited

/-- The type `types.Reservation`. -/
structure Reservation where
  Instances : List Ec2Instance
  deriving DecidableEq, Repr, Inhabited

/-- The type `ssm.SendCommandInput`; `Commands` is `Parameters["commands"]`. -/
structure SendCommandInput where
  InstanceIds : List String
  DocumentName : String
  Commands : List String
  deriving DecidableEq, Repr, Inhabited

/-- The fields of `ssm.GetCommandInvocationOutput` the program reads. -/
structure CommandInvocation where
  Status : String
  StandardErrorContent : Option String
  deriving DecidableEq, Repr, Inhabited

/-- The struct `instance` of `create.go`. -/
structure Instance where
  InstanceID : String
  Name : String
  IP : String
  deriving DecidableEq, Repr, Inhabited

/-- The part of `App.Config` the three commands read. -/
structure Config where
  NonInteractive : Bool
  Region : String
  DryRun : Bool
  Connect : Bool
  Shutdown : String
  BaseURL : String
  APIKey : String
  Tailnet : String
  deriving DecidableEq, Repr, Inhabited

/-! ## The outside world -/

/-- One observable step of a run: a line printed, a spinner title set, or a call to a
collaborator together with what it answered. -/
inductive Event where
  | print (text : String)
  | spinTitle (title : String)
  | ctxErr (r : Option GoError)
  | keysCreate (c : TsClient) (req : CreateKeyRequest) (r : Except GoError String)
  | devicesList (c : TsClient) (r : Except GoError (List Device))
  | status (r : Except GoError Status)
  | getPrefs (r : Except GoError Prefs)
  | editPrefs (mp : MaskedPrefs) (r : Except GoError Prefs)
  | loadDefaultConfig (o : LoadOptions) (r : Except GoError AwsConfig)
  | describeRegions (cfg : AwsConfig) (r : Except GoError (List String))
  | describeImages (cfg : AwsConfig) (i : DescribeImagesInput) (r : Except GoError (List Image))
  | getCallerIdentity (cfg : AwsConfig) (r : Except GoError String)
  | runInstances (cfg : AwsConfig) (i : RunInstancesInput) (r : Except GoError (List Ec2Instance))
  | createTags (cfg : AwsConfig) (resources : List String) (tags : List Tag)
      (r : Except GoError Unit)
  | waitInstanceStatusOk (cfg : AwsConfig) (ids : List String) (maxWait : Int)
      (r : Except GoError Unit)
  | describeInstances (cfg : AwsConfig) (ids : List String)
      (r : Except GoError (List Reservation))
  | sendCommand (cfg : AwsConfig) (i : SendCommandInput) (r : Except GoError String)
  | waitCommandExecuted (cfg : AwsConfig) (commandId : String) (instanceId : String)
      (maxWait : Int) (r : Except GoError Unit)
  | getCommandInvocation (cfg : AwsConfig) (commandId : String) (instanceId : String)
      (r : Except GoError CommandInvocation)
  | formConfirm (question : String) (r : Except GoError Bool)
  | formSelectString (title : String) (options : List String) (r : Except GoError String)
  | formSelectInt (title : String) (labels : List String) (r : Except GoError Nat)

/-- The collaborators of the program, over a world state `σ`.  The fields without a world argument are
pure library functions (`url.Parse`, `time.ParseDuration` in nanoseconds,
`base64.StdEncoding.EncodeToString`, `sort.Slice`), `nowPlusRFC3339 s d` is
`time.Now().Add(d).Format(time.RFC3339)`, and the others are service calls. -/
structure Env (σ : Type) where
  urlParse : String → Except GoError String
  parseDuration : String → Except GoError Int
  base64 : String → String
  nowPlusRFC3339 : σ → Int → String
  sortSlice : {α : Type} → (α → α → Bool) → List α → List α
  ctxErr : σ → Option GoError
  keysCreate : TsClient → CreateKeyRequest → σ → Except GoError String × σ
  devicesList : TsClient → σ → Except GoError (List Device) × σ
  status : σ → Except GoError Status × σ
  getPrefs : σ → Except GoError Prefs × σ
  editPrefs : MaskedPrefs → σ → Except GoError Prefs × σ
  loadDefaultConfig : LoadOptions → σ → Except GoError AwsConfig × σ
  describeRegions : AwsConfig → σ → Except GoError (List String) × σ
  describeImages : AwsConfig → DescribeImagesInput → σ → Except GoError (List Image) × σ
  getCallerIdentity : AwsConfig → σ → Except GoError String × σ
  runInstances : AwsConfig → RunInstancesInput → σ → Except GoError (List Ec2Instance) × σ
  createTags : AwsConfig → List String → List Tag → σ → Except GoError Unit × σ
  waitInstanceStatusOk : AwsConfig → List String → Int → σ → Except GoError Unit × σ
  describeInstances : AwsConfig → List String → σ → Except GoError (List Reservation) × σ
  sendCommand : AwsConfig → SendCommandInput → σ → Except GoError String × σ
  waitCommandExecuted : AwsConfig → String → String → Int → σ → Except GoError Unit × σ
  getCommandInvocation :
    AwsConfig → String → String → σ → Except GoError CommandInvocation × σ
  formConfirm : String → σ → Except GoError Bool × σ
  formSelectString : String → List String → σ → Except GoError String × σ
  formSelectInt : String → List String → σ → Except GoError Nat × σ

/-- The outside world's state together with the log of what the run has done so far. -/
structure World (σ : Type) where
  env : σ
  log : List Event

/-- A run starts with an empty log. -/
def World.init {σ : Type} (s : σ) : World σ := ⟨s, []⟩

/-- A Go function with an `error` result: it maps a world to its result and the world it
leaves behind.  An error ends the function, the world is kept. -/
def M (σ : Type) (α : Type) : Type := World σ → Except GoError α × World σ

/-- The statement `return err` (or a panic) with no further effect. -/
def fail {σ α : Type} (e : GoError) : M σ α := fun w => (.error e, w)

/-- The statement `return a, nil` with no further effect. -/
def ret {σ α : Type} (a : α) : M σ α := fun w => (.ok a, w)

/-- Run `m`, then continue with `onErr` on its error or with `onOk` on its result: the
shape `x, err := m(); if err != nil { ... }`. -/
def M.handle {σ α β : Type} (m : M σ α) (onErr : GoError → M σ β) (onOk : α → M σ β) :
    M σ β := fun w =>
  match m w with
  | (.ok a, w1) => onOk a w1
  | (.error e, w1) => onErr e w1

/-- Sequencing: run `m`, return its error if it has one, otherwise continue with `f`. -/
def M.bind {σ α β : Type} (m : M σ α) (f : α → M σ β) : M σ β := M.handle m fail f

instance {σ : Type} : Monad (M σ) where
  pure := ret
  bind := M.bind

/-- A call to a collaborator: the world moves on and the call is logged with its answer. -/
def call {σ α : Type} (f : σ → Except GoError α × σ) (ev : Except GoError α → Event) :
    M σ α := fun w =>
  ((f w.env).1, ⟨(f w.env).2, w.log ++ [ev (f w.env).1]⟩)

/-- A read of the outside world that cannot fail and leaves it as it is; it is logged. -/
def peek {σ α : Type} (f : σ → α) (ev : α → Event) : M σ α := fun w =>
  (.ok (f w.env), ⟨w.env, w.log ++ [ev (f w.env)]⟩)

/-- A step that only shows in the log (`fmt.Println`, `spin.Title`). -/
def emit {σ : Type} (e : Event) : M σ Unit := fun w =>
  (.ok (), ⟨w.env, w.log ++ [e]⟩)

/-- The line `fmt.Errorf(pfx + "%w", err)`; a panic passes through unwrapped. -/
def wrapErr (pfx : String) : GoError → GoError
  | .panic msg => .panic msg
  | e => .wrap pfx e

/-- The idiom `if err != nil { return fmt.Errorf(pfx + "%w", err) }` around `m`. -/
def wrap {σ α : Type} (pfx : String) (m : M σ α) : M σ α :=
  M.handle m (fun e => fail (wrapErr pfx e)) ret

/-- The call `ctx.Err()`. -/
def ctxErr {σ : Type} (api : Env σ) : M σ (Option GoError) := peek api.ctxErr Event.ctxErr

/-- The idiom `if ctxErr := ctx.Err(); ctxErr != nil { return fmt.Errorf(canceled + "%w",
ctxErr) }; return fmt.Errorf(failed + "%w", err)` of the prompt helpers. -/
def canceledOr {σ α : Type} (api : Env σ) (canceled failed : String) (err : GoError) :
    M σ α :=
  M.bind (ctxErr api) fun
    | some ctxE => fail (wrapErr canceled ctxE)
    | none => fail (wrapErr failed err)

/-! ## internal/common.go -/

/-- The function `GetRegions` of `internal/common.go`. -/
def GetRegions {σ : Type} (api : Env σ) : M σ (List String) := do
  let cfg ← wrap "failed to load default config: "
    (call (api.loadDefaultConfig ⟨"us-east-1", none, none⟩)
      (Event.loadDefaultConfig ⟨"us-east-1", none, none⟩))
  let regions ← wrap "failed to describe regions: "
    (call (api.describeRegions cfg) (Event.describeRegions cfg))
  let regionNames := regions.foldl (fun names region => names ++ [region]) []
  pure (api.sortSlice (fun a b => decide (a < b)) regionNames)

/-- The function `SelectRegion` of `internal/common.go`; on both failure paths `ctx.Err()`
decides between the "canceled" and the "failed" wrapping. -/
def SelectRegion {σ : Type} (api : Env σ) : M σ String :=
  M.handle (GetRegions api)
    (fun err => canceledOr api "operation canceled: " "failed to retrieve regions: " err)
    (fun regionNames =>
      M.handle
        (call (api.formSelectString "Select a region" regionNames)
          (Event.formSelectString "Select a region" regionNames))
        (fun err =>
          canceledOr api "region selection canceled: " "failed to select region: " err)
        ret)

/-- The function `PromptYesNo` of `internal/common.go`. -/
def PromptYesNo {σ : Type} (api : Env σ) (question : String) : M σ Bool :=
  M.handle (call (api.formConfirm question) (Event.formConfirm question))
    (fun err => canceledOr api "prompt canceled: " "failed to prompt for yes/no: " err)
    ret

/-- The loop body of `GetActiveNodes` for one device: one append per tag equal to
`tag:tailout` for which `time.Duration(device.LastSeen.Minute()) < 10*time.Minute`. -/
def GetActiveNodes.perDevice (tailoutDevices : List Device) (device : Device) : List Device :=
  device.Tags.foldl (fun acc tag =>
    if tag = "tag:tailout" then
      if device.LastSeen.Minute < 10 * Minute then acc ++ [device] else acc
    else acc) tailoutDevices

/-- The two nested loops of `GetActiveNodes`. -/
def GetActiveNodes.loop (devices : List Device) : List Device :=
  devices.foldl GetActiveNodes.perDevice []

/-- The function `GetActiveNodes` of `internal/common.go`. -/
def GetActiveNodes {σ : Type} (api : Env σ) (c : TsClient) : M σ (List Device) := do
  let devices ← wrap "failed to get devices: " (call (api.devicesList c) (Event.devicesList c))
  pure (GetActiveNodes.loop devices)

/-- The search loop of `UpdateExitNode`: the `Name` of the first device whose `NodeID` is
the current exit node's id, the empty string when there is none. -/
def UpdateExitNode.currentName (devices : List Device) (id : String) : String :=
  match devices.find? (fun device => decide (device.NodeID = id)) with
  | some device => device.Name
  | none => ""

/-- Lines 129-148 of `UpdateExitNode`: when an exit node is set, list the devices and print
the name of the current exit node if one is found. -/
def UpdateExitNode.announce {σ : Type} (api : Env σ) (c : TsClient) :
    Option ExitNodeStatus → M σ Unit
  | none => pure ()
  | some exitNode => do
    let devices ← wrap "failed to get devices: "
      (call (api.devicesList c) (Event.devicesList c))
    if UpdateExitNode.currentName devices exitNode.ID ≠ "" then
      emit (.print ("Currently connected to exit node: "
        ++ UpdateExitNode.currentName devices exitNode.ID ++ "\n"))
    else pure ()

/-- Lines 155-161 of `UpdateExitNode`: set the requested exit node, or clear it. -/
def UpdateExitNode.setTarget {σ : Type} (id : String) (prefs : Prefs) : M σ Prefs :=
  if id ≠ "" then do
    emit (.print ("Setting exit node to " ++ id ++ "...\n"))
    pure { prefs with ExitNodeID := id }
  else do
    emit (.print "Clearing exit node...\n")
    pure prefs.ClearExitNode

/-- Lines 175-179 of `UpdateExitNode`: the test on the status read after the edit. -/
def UpdateExitNode.verify {σ : Type} : Option ExitNodeStatus → M σ Unit
  | none => pure ()
  | some exitNode =>
    if !exitNode.Online then fail (.new "the exit node is not reachable") else pure ()

/-- Lines 129-179 of `UpdateExitNode`, after the agent was found running. -/
def UpdateExitNode.running {σ : Type} (api : Env σ) (c : TsClient) (id : String)
    (status : Status) : M σ Unit := do
  UpdateExitNode.announce api c status.ExitNodeStatus
  let prefs ← wrap "failed to get prefs: " (call api.getPrefs Event.getPrefs)
  let prefs1 ← UpdateExitNode.setTarget id prefs
  let _ ← wrap "failed to set/unset exit node: "
    (call (api.editPrefs ⟨prefs1, true⟩) (Event.editPrefs ⟨prefs1, true⟩))
  let status2 ← wrap "failed to get tailscale status: " (call api.status Event.status)
  UpdateExitNode.verify status2.ExitNodeStatus

/-- The function `UpdateExitNode` of `internal/common.go`. -/
def UpdateExitNode {σ : Type} (api : Env σ) (c : TsClient) (id : String) : M σ Unit := do
  let status ← wrap "failed to get tailscale status: " (call api.status Event.status)
  if status.BackendState ≠ "Running" then
    fail (.new "tailscale is not running")
  else UpdateExitNode.running api c id status

/-! ## tailout/connect.go and tailout/disconnect.go -/

/-- The library function `slices.IndexFunc`: the index of the first element satisfying `f`,
or `-1`. -/
def IndexFunc {α : Type} (f : α → Bool) : List α → Int
  | [] => -1
  | a :: l => if f a then 0 else
    match IndexFunc f l with
    | Int.negSucc _ => -1
    | Int.ofNat i => Int.ofNat (i + 1)

/-- The expression `addr` of `Connect`: the first address, or `no IP`. -/
def Connect.addr (device : Device) : String :=
  match device.Addresses with
  | a :: _ => a
  | [] => "no IP"

/-- The label of one option of the selection form of `Connect`. -/
def Connect.label (device : Device) : String :=
  device.Hostname ++ " (" ++ Connect.addr device ++ ")"

/-- Lines 88-100 of `Connect`, after the target is resolved. -/
def Connect.finish {σ : Type} (api : Env σ) (apiClient : TsClient)
    (deviceToConnectTo : Device) (nodeConnect : String) : M σ Unit := do
  wrap "failed to connect to exit node: " (UpdateExitNode api apiClient nodeConnect)
  emit (.print ("Connected to node " ++ deviceToConnectTo.Hostname ++ " ("
    ++ Connect.addr deviceToConnectTo ++ ") via Tailscale.\n"))

/-- The indexing `tailoutDevices[i]` followed by lines 88-100 of `Connect`. -/
def Connect.toDevice {σ : Type} (api : Env σ) (apiClient : TsClient) :
    Option Device → M σ Unit
  | none => fail (.panic "index out of range")
  | some deviceToConnectTo =>
    Connect.finish api apiClient deviceToConnectTo deviceToConnectTo.NodeID

/-- The case `len(args) != 0` of `Connect`, on the result of `slices.IndexFunc`. -/
def Connect.byName {σ : Type} (api : Env σ) (apiClient : TsClient)
    (tailoutDevices : List Device) (arg0 : String) : Int → M σ Unit
  | Int.negSucc _ => fail (.new ("node " ++ arg0 ++ " not found"))
  | Int.ofNat i => Connect.toDevice api apiClient (tailoutDevices.get? i)

/-- The case `!nonInteractive` of `Connect`: the selection form. -/
def Connect.interactive {σ : Type} (api : Env σ) (apiClient : TsClient)
    (tailoutDevices : List Device) : M σ Unit :=
  if tailoutDevices.length = 0 then
    fail (.new "no tailout node found in your tailnet")
  else do
    let selectedIndex ← wrap "failed to select node: "
      (call (api.formSelectInt "Select a node to connect to"
          (tailoutDevices.map Connect.label))
        (Event.formSelectInt "Select a node to connect to"
          (tailoutDevices.map Connect.label)))
    Connect.toDevice api apiClient (tailoutDevices.get? selectedIndex)

/-- The `switch` of `Connect` (lines 38-86) and what follows it. -/
def Connect.resolve {σ : Type} (api : Env σ) (config : Config) (apiClient : TsClient)
    (tailoutDevices : List Device) : List String → M σ Unit
  | arg0 :: _ =>
    Connect.byName api apiClient tailoutDevices arg0
      (IndexFunc (fun e => decide (e.Hostname = arg0)) tailoutDevices)
  | [] =>
    if !config.NonInteractive then Connect.interactive api apiClient tailoutDevices
    else fail (.new "no node name provided")

/-- The part of `Connect` after the base URL was parsed. -/
def Connect.withClient {σ : Type} (api : Env σ) (config : Config) (args : List String)
    (apiClient : TsClient) : M σ Unit := do
  let tailoutDevices ← wrap "failed to get active nodes: " (GetActiveNodes api apiClient)
  Connect.resolve api config apiClient tailoutDevices args

/-- The method `App.Connect` of `tailout/connect.go`. -/
def Connect {σ : Type} (api : Env σ) (config : Config) (args : List String) : M σ Unit :=
  match api.urlParse config.BaseURL with
  | .error err => fail (wrapErr "failed to parse base URL: " err)
  | .ok baseURL => Connect.withClient api config args ⟨config.APIKey, config.Tailnet, baseURL⟩

/-- The method `App.Disconnect` of `tailout/disconnect.go`. -/
def Disconnect {σ : Type} (api : Env σ) (config : Config) : M σ Unit :=
  match api.urlParse config.BaseURL with
  | .error err => fail (wrapErr "failed to parse base URL: " err)
  | .ok baseURL => do
    wrap "failed to disconnect from exit node: "
      (UpdateExitNode api ⟨config.APIKey, "", baseURL⟩ "")
    emit (.print "Disconnected from exit node.\n")

/-! ## Floating point, for `Duration.Minutes` -/

/-- A finite `float64` value `mant * 2 ^ exp`. -/
structure F64 where
  mant : Int
  exp : Int
  deriving DecidableEq, Repr, Inhabited

/-- The quotient `n / d` rounded to the nearest natural number, ties to even. -/
def roundNearestEven (n d : Nat) : Nat :=
  if 2 * (n % d) < d then n / d
  else if d < 2 * (n % d) then n / d + 1
  else if (n / d) % 2 = 0 then n / d else n / d + 1

/-- The number of binary digits of `n`, by halving at most `fuel` times. -/
def bitLengthAux : Nat → Nat → Nat
  | 0, _ => 0
  | fuel + 1, n => if n = 0 then 0 else bitLengthAux fuel (n / 2) + 1

/-- The position of the leading binary digit of `n`, that is `⌊log₂ n⌋`, and `0` for `0`. -/
def log2Floor (n : Nat) : Nat := bitLengthAux n n - 1

/-- The fraction `a / d` scaled by `2 ^ k`, as numerator and denominator. -/
def F64.scaled (a d : Nat) (k : Int) : Nat × Nat :=
  if 0 ≤ k then (a * 2 ^ k.toNat, d) else (a, d * 2 ^ (-k).toNat)

/-- The `float64` nearest to `num / den` (round to nearest, ties to even, 53 significant
bits); overflow and subnormals do not arise for the magnitudes of a `Duration`. -/
def F64.round (num : Int) (den : Nat) : F64 :=
  if num = 0 then ⟨0, 0⟩ else
    let a := num.natAbs
    let k0 : Int := 52 - (log2Floor a : Int) + (log2Floor den : Int)
    let k : Int :=
      if (F64.scaled a den k0).1 / (F64.scaled a den k0).2 < 2 ^ 52 then k0 + 1 else k0
    let m := roundNearestEven (F64.scaled a den k).1 (F64.scaled a den k).2
    ⟨Int.sign num * m, -k⟩

/-- The value of a `float64` as an exact fraction. -/
def F64.toFrac (x : F64) : Int × Nat :=
  if 0 ≤ x.exp then (x.mant * 2 ^ x.exp.toNat, 1) else (x.mant, 2 ^ (-x.exp).toNat)

/-- The conversion `float64(n)` of an integer. -/
def F64.ofInt (n : Int) : F64 := F64.round n 1

/-- The sum `x + y` in `float64`. -/
def F64.add (x y : F64) : F64 :=
  F64.round (x.toFrac.1 * y.toFrac.2 + y.toFrac.1 * x.toFrac.2) (x.toFrac.2 * y.toFrac.2)

/-- The quotient `x / y` in `float64`, for `y` not zero. -/
def F64.div (x y : F64) : F64 :=
  F64.round (x.toFrac.1 * y.toFrac.2 * Int.sign y.toFrac.1) (x.toFrac.2 * y.toFrac.1.natAbs)

/-- The conversion `int(x)`: the fraction is discarded (truncation toward zero). -/
def F64.toInt (x : F64) : Int := Int.tdiv x.toFrac.1 x.toFrac.2

/-- The method `Duration.Minutes` of the standard library:
`float64(d / Minute) + float64(d % Minute) / (60 * 1e9)`, with Go's truncating `/`, `%`. -/
def Duration.Minutes (d : Int) : F64 :=
  F64.add (F64.ofInt (Int.tdiv d Minute))
    (F64.div (F64.ofInt (Int.tmod d Minute)) (F64.ofInt (60 * 1000000000)))

/-! ## tailout/create.go -/

/-- The comparison handed to `sort.Slice` in `prepareInstance`: `CreationDate` descending. -/
def prepareInstance.less (a b : Image) : Bool := decide (b.CreationDate < a.CreationDate)

/-- The `DescribeImages` request of `prepareInstance`. -/
def prepareInstance.describeInput : DescribeImagesInput :=
  { Filters := [⟨"name", ["al2023-ami-*"]⟩, ⟨"state", ["available"]⟩,
      ⟨"is-public", ["true"]⟩, ⟨"architecture", ["x86_64"]⟩],
    Owners := ["amazon"] }

/-- The user-data script of `prepareInstance`. -/
def prepareInstance.userDataScript (shutdownDuration : String) : String :=
  "#!/bin/bash\n# Allow ip forwarding\n"
  ++ "echo \x27net.ipv4.ip_forward = 1\x27 | sudo tee -a /etc/sysctl.conf\n"
  ++ "echo \x27net.ipv6.conf.all.forwarding = 1\x27 | sudo tee -a /etc/sysctl.conf\n"
  ++ "sudo sysctl -p /etc/sysctl.conf\n"
  ++ "sudo echo \"sudo shutdown\" | at now + " ++ shutdownDuration ++ " minutes"

/-- The parameter summary `prepareInstance` prints before it asks for confirmation. -/
def prepareInstance.summary (account imageID imageName imageOwner imageArchitecture region
    shutdownDuration : String) : String :=
  "Creating tailout node in AWS with the following parameters:\n"
  ++ "- AWS Account ID: " ++ account ++ "\n"
  ++ "- AMI ID: " ++ imageID ++ " (" ++ imageName ++ " by " ++ imageOwner ++ ")\n"
  ++ "- AMI Architecture: " ++ imageArchitecture ++ "\n"
  ++ "- Instance Type: " ++ "t3a.micro" ++ "\n"
  ++ "- Region: " ++ region ++ "\n"
  ++ "- Auto shutdown after: " ++ shutdownDuration ++ "\n"
  ++ "- Network: default VPC / Subnet / Security group of the region\n\t"

/-- The launch request `prepareInstance` builds for an image id (lines 249-273). -/
def prepareInstance.runInput {σ : Type} (api : Env σ) (imageID : String) (dryRun : Bool)
    (shutdownDuration : String) : RunInstancesInput :=
  { ImageId := imageID, InstanceType := "t3a.micro", MinCount := 1, MaxCount := 1,
    UserData := api.base64 (prepareInstance.userDataScript shutdownDuration),
    TagSpecifications := [⟨"instance", [⟨"App", "tailout"⟩]⟩],
    DryRun := dryRun, MarketType := "spot", InstanceInterruptionBehavior := "terminate" }

/-- Lines 292-300 of `prepareInstance`: the confirmation gate. -/
def prepareInstance.confirm {σ : Type} (api : Env σ) (runInput : RunInstancesInput) :
    M σ (Option RunInstancesInput) := do
  let result ← wrap "failed to prompt for confirmation: "
    (PromptYesNo api "Do you want to create this instance?")
  if !result then fail .userAborted else pure (some runInput)

/-- Lines 227-300 of `prepareInstance`, on the sorted image list: take its head, build the
launch request, look up the account, print the summary and ask for confirmation. -/
def prepareInstance.withImages {σ : Type} (api : Env σ) (cfg : AwsConfig) (dryRun : Bool)
    (shutdownDuration : String) : List Image → M σ (Option RunInstancesInput)
  | [] => fail (.panic "index out of range")
  | latestAMI :: _ => do
    let account ← wrap "failed to get account ID: "
      (call (api.getCallerIdentity cfg) (Event.getCallerIdentity cfg))
    emit (.print (prepareInstance.summary account latestAMI.ImageId latestAMI.Name
      latestAMI.ImageOwnerAlias latestAMI.Architecture cfg.Region shutdownDuration))
    prepareInstance.confirm api
      (prepareInstance.runInput api latestAMI.ImageId dryRun shutdownDuration)

/-- The function `prepareInstance` of `tailout/create.go`; `none` is the nil pointer. -/
def prepareInstance {σ : Type} (api : Env σ) (cfg : AwsConfig) (dryRun : Bool)
    (shutdownDuration : String) : M σ (Option RunInstancesInput) := do
  let images ← wrap "failed to describe Amazon Linux images: "
    (call (api.describeImages cfg prepareInstance.describeInput)
      (Event.describeImages cfg prepareInstance.describeInput))
  if images.length = 0 then
    fail (.new "no Amazon Linux images found")
  else
    prepareInstance.withImages api cfg dryRun shutdownDuration
      (api.sortSlice prepareInstance.less images)

/-- The zero value of the struct `instance`, which `createInstance` returns on every path
but the last. -/
def Instance.zero : Instance := ⟨"", "", ""⟩

/-- The node name of `createInstance`: `fmt.Sprintf("tailout-%s-%s", region, instanceId)`. -/
def createInstance.nodeName (region instanceId : String) : String :=
  "tailout-" ++ region ++ "-" ++ instanceId

/-- Lines 360-378 of `createInstance`: read the public address off the description. -/
def createInstance.fromDescription {σ : Type} (nodeName instanceId : String) :
    List Reservation → M σ Instance
  | [] => fail (.new "no reservations found")
  | reservation :: _ =>
    match reservation.Instances with
    | [] => fail (.new "no instances found")
    | instance1 :: _ =>
      match instance1.PublicIpAddress with
      | none => fail (.new "no public IP address found")
      | some ip => pure ⟨instanceId, nodeName, ip⟩

/-- Lines 317-378 of `createInstance`, on the instances of a launch that succeeded. -/
def createInstance.launched {σ : Type} (api : Env σ) (cfg : AwsConfig) :
    List Ec2Instance → M σ Instance
  | [] => do
    emit (.print "No instances created.\n")
    pure Instance.zero
  | createdInstance :: _ => do
    emit (.print ("Instance created: " ++ createdInstance.InstanceId ++ "\n"))
    wrap "failed to add tags to the instance: "
      (call (api.createTags cfg [createdInstance.InstanceId]
          [⟨"Name", createInstance.nodeName cfg.Region createdInstance.InstanceId⟩])
        (Event.createTags cfg [createdInstance.InstanceId]
          [⟨"Name", createInstance.nodeName cfg.Region createdInstance.InstanceId⟩]))
    emit (.spinTitle "Waiting for instance to be running...")
    wrap "failed to wait for instance to be created: "
      (call (api.waitInstanceStatusOk cfg [createdInstance.InstanceId] (Minute * 5))
        (Event.waitInstanceStatusOk cfg [createdInstance.InstanceId] (Minute * 5)))
    let reservations ← wrap "failed to describe EC2 instance: "
      (call (api.describeInstances cfg [createdInstance.InstanceId])
        (Event.describeInstances cfg [createdInstance.InstanceId]))
    createInstance.fromDescription
      (createInstance.nodeName cfg.Region createdInstance.InstanceId)
      createdInstance.InstanceId reservations

/-- Lines 308-315 of `createInstance`, on the error of the launch call. -/
def createInstance.launchFailed {σ : Type} (runErr : GoError) : M σ Instance :=
  if runErr.AsAPICode = some "DryRunOperation" then do
    emit (.print "Dry run successful. Instance can be created.\n")
    pure Instance.zero
  else fail (wrapErr "failed to create EC2 instance: " runErr)

/-- The function `createInstance` of `tailout/create.go`. -/
def createInstance {σ : Type} (api : Env σ) (cfg : AwsConfig) (runInput : RunInstancesInput) :
    M σ Instance :=
  M.handle (call (api.runInstances cfg runInput) (Event.runInstances cfg runInput))
    createInstance.launchFailed
    (createInstance.launched api cfg)

/-- The shell commands `installTailScale` sends. -/
def installTailScale.commands (key nodeName : String) : List String :=
  ["echo \x27Installing Tailscale...\x27",
   "curl -fsSL https://tailscale.com/install.sh | sh",
   "echo \x27Starting Tailscale...\x27",
   "sudo tailscale up --auth-key=" ++ key ++ " --hostname=" ++ nodeName
     ++ " --advertise-exit-node --ssh",
   "echo \x27Tailscale installation and configuration completed.\x27"]

/-- Lines 422-426 of `installTailScale`: `aws.ToString` of a nil pointer is the empty
string. -/
def installTailScale.check {σ : Type} (invocationOutput : CommandInvocation) : M σ Unit :=
  if invocationOutput.Status ≠ "Success" then
    fail (.new ("SSM command failed with status: " ++ invocationOutput.Status ++ ", output: "
      ++ invocationOutput.StandardErrorContent.getD ""))
  else pure ()

/-- The function `installTailScale` of `tailout/create.go`. -/
def installTailScale {σ : Type} (api : Env σ) (cfg : AwsConfig)
    (key nodeName instanceID : String) : M σ Unit := do
  emit (.spinTitle "Installing Tailscale...")
  let commandID ← wrap "failed to send SSM command: "
    (call (api.sendCommand cfg
        ⟨[instanceID], "AWS-RunShellScript", installTailScale.commands key nodeName⟩)
      (Event.sendCommand cfg
        ⟨[instanceID], "AWS-RunShellScript", installTailScale.commands key nodeName⟩))
  wrap "failed to wait for SSM command execution: "
    (call (api.waitCommandExecuted cfg commandID instanceID (5 * Minute))
      (Event.waitCommandExecuted cfg commandID instanceID (5 * Minute)))
  let invocationOutput ← wrap "failed to get SSM command invocation: "
    (call (api.getCommandInvocation cfg commandID instanceID)
      (Event.getCommandInvocation cfg commandID instanceID))
  installTailScale.check invocationOutput

/-- Lines 173-181 of `Create`: chain into `Connect` when asked to. -/
def Create.connect {σ : Type} (api : Env σ) (config : Config) (nodeName : String) :
    M σ Unit :=
  if config.Connect then do
    emit (.print "\n")
    wrap "failed to connect to node: " (Connect api config [nodeName])
  else pure ()

/-- Lines 159-181 of `Create`: look the new node up among the devices. -/
def Create.found {σ : Type} (api : Env σ) (config : Config) (duration : Int)
    (inst : Instance) (nodes : List Device) : M σ Unit :=
  if nodes.any (fun node => decide (node.Hostname = inst.Name)) then do
    emit (.print ("Node " ++ inst.Name ++ " joined tailnet.\n"))
    emit (.print ("Public IP address: " ++ inst.IP ++ "\n"))
    let _ ← peek (fun s => api.nowPlusRFC3339 s duration)
      (fun t => .print ("Planned termination time: " ++ t ++ "\n"))
    Create.connect api config inst.Name
  else fail (.new "failed to find the created node in tailnet")

/-- Lines 126-128 of `Create`: an empty instance id ends the spinner action with an error. -/
def Create.checkInstance {σ : Type} (inst : Instance) : M σ Instance :=
  if inst.InstanceID = "" then fail (.new "instance creation aborted") else pure inst

/-- Lines 117-181 of `Create`, from the first spinner on: launch, install, look up,
connect.  A spinner runs its action and hands back the action's error. -/
def Create.launch {σ : Type} (api : Env σ) (config : Config) (apiClient : TsClient)
    (key : String) (duration : Int) (cfg : AwsConfig) (runInput : RunInstancesInput) :
    M σ Unit := do
  emit (.spinTitle "Creating instance...")
  let inst ← wrap "failed to create instance: "
    (M.bind (createInstance api cfg runInput) Create.checkInstance)
  emit (.spinTitle "Installing Tailscale...")
  wrap "failed to install Tailscale: "
    (installTailScale api cfg key inst.Name inst.InstanceID)
  emit (.print "Tailscale installed.\n")
  let nodes ← wrap "failed to get devices: "
    (call (api.devicesList apiClient) (Event.devicesList apiClient))
  Create.found api config duration inst nodes

/-- Lines 105-111 of `Create`, on the error of `prepareInstance`. -/
def Create.prepareFailed {σ : Type} (errPrep : GoError) : M σ Unit :=
  if errPrep.IsUserAborted then emit (.print "Instance creation aborted.\n")
  else fail (wrapErr "failed to prepare instance: " errPrep)

/-- Lines 112-181 of `Create`, on the launch request `prepareInstance` returned. -/
def Create.prepared {σ : Type} (api : Env σ) (config : Config) (apiClient : TsClient)
    (key : String) (duration : Int) (cfg : AwsConfig) :
    Option RunInstancesInput → M σ Unit
  | none => emit (.print "Instance creation aborted.\n")
  | some runInput => Create.launch api config apiClient key duration cfg runInput

/-- Lines 89-97 of `Create`: the region, asked for when unset and interactive. -/
def Create.region {σ : Type} (api : Env σ) (config : Config) : M σ String :=
  if config.Region = "" ∧ config.NonInteractive = false then
    wrap "failed to select region: " (SelectRegion api)
  else if config.Region = "" ∧ config.NonInteractive = true then
    fail (.new "selected non-interactive mode but no region was explicitly specified")
  else pure config.Region

/-- Lines 84-181 of `Create`, on the parsed shutdown duration (in nanoseconds). -/
def Create.withDuration {σ : Type} (api : Env σ) (config : Config) (apiClient : TsClient)
    (key : String) (duration : Int) : M σ Unit :=
  if (Duration.Minutes duration).toInt < 1 then
    fail (.new "duration must be at least 1 minute")
  else do
    let region ← Create.region api config
    let cfg ← wrap "unable to load SDK config: "
      (call (api.loadDefaultConfig ⟨region, some 5, some "standard"⟩)
        (Event.loadDefaultConfig ⟨region, some 5, some "standard"⟩))
    M.handle
      (prepareInstance api cfg config.DryRun (toString (Duration.Minutes duration).toInt))
      Create.prepareFailed
      (Create.prepared api config apiClient key duration cfg)

/-- Lines 79-181 of `Create`, after the auth key was issued. -/
def Create.withKey {σ : Type} (api : Env σ) (config : Config) (apiClient : TsClient)
    (key : String) : M σ Unit :=
  match api.parseDuration config.Shutdown with
  | .error err => fail (wrapErr "failed to parse duration: " err)
  | .ok duration => Create.withDuration api config apiClient key duration

/-- The auth-key request of `Create`. -/
def Create.keyRequest : CreateKeyRequest :=
  ⟨"tailout", ⟨false, true, ["tag:tailout"], true⟩⟩

/-- The part of `Create` after the base URL was parsed. -/
def Create.withClient {σ : Type} (api : Env σ) (config : Config) (apiClient : TsClient) :
    M σ Unit := do
  let key ← wrap "failed to create auth key: "
    (call (api.keysCreate apiClient Create.keyRequest)
      (Event.keysCreate apiClient Create.keyRequest))
  Create.withKey api config apiClient key

/-- The method `App.Create` of `tailout/create.go`. -/
def Create {σ : Type} (api : Env σ) (config : Config) : M σ Unit :=
  match api.urlParse config.BaseURL with
  | .error err => fail (wrapErr "failed to parse base URL: " err)
  | .ok baseURL => Create.withClient api config ⟨config.APIKey, config.Tailnet, baseURL⟩

/-! ## A concrete world for worked examples -/

/-- An insertion sort standing in for `sort.Slice` in worked examples: the result is
ordered so that no later element is `less` than an earlier one. -/
def insertionSortSlice {α : Type} (less : α → α → Bool) (l : List α) : List α :=
  List.insertionSort (fun a b => less b a = false) l

/-- A world without state in which every collaborator answers successfully: one healthy
instance `i-0abc` is launched, the remote command succeeds, the agent is running with no
exit node; `base64` is left as the identity.  Worked examples override single fields. -/
def demoEnv : Env Unit where
  urlParse := fun u => .ok u
  parseDuration := fun s =>
    if s = "10m" then .ok (10 * Minute) else .error (.new ("time: invalid duration " ++ s))
  base64 := fun s => s
  nowPlusRFC3339 := fun _ _ => "2026-01-01T00:10:00Z"
  sortSlice := insertionSortSlice
  ctxErr := fun _ => none
  keysCreate := fun _ _ s => (.ok "tskey-auth-demo", s)
  devicesList := fun _ s => (.ok [], s)
  status := fun s => (.ok ⟨"Running", none⟩, s)
  getPrefs := fun s => (.ok ⟨"", ""⟩, s)
  editPrefs := fun mp s => (.ok mp.Prefs, s)
  loadDefaultConfig := fun o s => (.ok ⟨o.Region⟩, s)
  describeRegions := fun _ s => (.ok ["us-east-1", "eu-west-1"], s)
  describeImages := fun _ _ s =>
    (.ok [⟨"ami-1", "al2023-ami-a", "amazon", "x86_64", "2024-01-01T00:00:00.000Z"⟩], s)
  getCallerIdentity := fun _ s => (.ok "123456789012", s)
  runInstances := fun _ _ s => (.ok [⟨"i-0abc", none⟩], s)
  createTags := fun _ _ _ s => (.ok (), s)
  waitInstanceStatusOk := fun _ _ _ s => (.ok (), s)
  describeInstances := fun _ _ s => (.ok [⟨[⟨"i-0abc", some "203.0.113.7"⟩]⟩], s)
  sendCommand := fun _ _ s => (.ok "cmd-1", s)
  waitCommandExecuted := fun _ _ _ _ s => (.ok (), s)
  getCommandInvocation := fun _ _ _ s => (.ok ⟨"Success", some ""⟩, s)
  formConfirm := fun _ s => (.ok true, s)
  formSelectString := fun _ _ s => (.ok "us-east-1", s)
  formSelectInt := fun _ _ s => (.ok 0, s)

/-- The configuration of the worked examples. -/
def demoConfig : Config :=
  { NonInteractive := true, Region := "us-east-1", DryRun := false, Connect := false,
    Shutdown := "10m", BaseURL := "https://api.tailscale.com", APIKey := "k",
    Tailnet := "example.com" }

/-- The coordination-service client `Connect` builds from `demoConfig`. -/
def demoClient : TsClient := ⟨"k", "example.com", "https://api.tailscale.com"⟩

/-! ## The recency rule as the specification words it -/

/-- The specification's `ListActiveExitNodes` over an injected clock: the devices whose tag
list contains the exit-node tag and that were last seen less than 10 minutes (600 seconds)
before `now`, each once, in input order. -/
def ListActiveExitNodesSpec (now : Time) (devices : List Device) : List Device :=
  devices.filter (fun device =>
    decide ("tag:tailout" ∈ device.Tags) && decide (now.unix - device.LastSeen.unix < 600))

/-- The clock of the recency scenarios. -/
def scenarioNow : Time := ⟨1700000000, 0⟩

/-- A device tagged as exit node, last seen `age` seconds before `scenarioNow`. -/
def taggedDevice (name : String) (age : Int) : Device :=
  ⟨"n-" ++ name, name ++ ".example.ts.net", name, ["tag:tailout"], ["100.64.0.1"],
    ⟨scenarioNow.unix - age, 0⟩⟩

/-- A device without the exit-node tag, last seen `age` seconds before `scenarioNow`. -/
def untaggedDevice (name : String) (age : Int) : Device :=
  ⟨"n-" ++ name, name ++ ".example.ts.net", name, ["tag:server"], ["100.64.0.2"],
    ⟨scenarioNow.unix - age, 0⟩⟩

/-- The scenario of the specification: two tagged devices aged 3 and 15 minutes and one
untagged device aged 1 minute. -/
def scenarioDevices : List Device :=
  [taggedDevice "a" 180, taggedDevice "b" 900, untaggedDevice "c" 60]

/-- A world whose coordination service lists `devices`. -/
def listingEnv (devices : List Device) : Env Unit :=
  { demoEnv with devicesList := fun _ s => (.ok devices, s) }

/-! ## Statements about runs -/

/-- Every run of `m` appends some events `evs` to the log, and its result and these events
satisfy `P`. -/
def Sat {σ α : Type} (m : M σ α) (P : Except GoError α → List Event → Prop) : Prop :=
  ∀ w, ∃ evs, (m w).2.log = w.log ++ evs ∧ P (m w).1 evs

/-- The phases of the lifecycle an event belongs to. -/
inductive Kind where
  /-- The confirmation form of `PromptYesNo`. -/
  | confirm
  /-- The launch call `RunInstances`. -/
  | launch
  /-- Tag creation, the readiness wait and `DescribeInstances`. -/
  | tagWait
  /-- The installer: `SendCommand`, its waiter and `GetCommandInvocation`. -/
  | install
  /-- Everything else. -/
  | other
  deriving DecidableEq, Repr

/-- The phase of an event. -/
def Event.kind : Event → Kind
  | .formConfirm _ _ => .confirm
  | .runInstances _ _ _ => .launch
  | .createTags _ _ _ _ => .tagWait
  | .waitInstanceStatusOk _ _ _ _ => .tagWait
  | .describeInstances _ _ _ => .tagWait
  | .sendCommand _ _ _ => .install
  | .waitCommandExecuted _ _ _ _ _ => .install
  | .getCommandInvocation _ _ _ _ => .install
  | _ => .other

/-- Every run of `m` logs only events whose phase is in `K`. -/
def Emits {σ α : Type} (m : M σ α) (K : List Kind) : Prop :=
  Sat m (fun _ evs => ∀ e ∈ evs, e.kind ∈ K)

/-- A log ends with a successful preference edit followed by the status `st2`: the status
re-read after the edit. -/
def EndsWithReRead (evs : List Event) (st2 : Status) : Prop :=
  ∃ pre mp p, evs = pre ++ [Event.editPrefs mp (.ok p), Event.status (.ok st2)]

/-- The outcome of lines 175-179 of `UpdateExitNode` as a function of the re-read status. -/
def verifyResult (st2 : Status) : Except GoError Unit :=
  match st2.ExitNodeStatus with
  | none => .ok ()
  | some exitNode =>
    if exitNode.Online then .ok () else .error (.new "the exit node is not reachable")

/-- Every run of `UpdateExitNode` either reaches the re-read and returns what the test on it
says, or fails before a re-read was logged. -/
def ReReadPost (r : Except GoError Unit) (evs : List Event) : Prop :=
  (∃ st2, EndsWithReRead evs st2 ∧ r = verifyResult st2)
  ∨ ((∀ st2, ¬ EndsWithReRead evs st2) ∧ ∃ e, r = .error e)

/-- The contract of `sort.Slice` for the comparison `less`: the result is a rearrangement
of the input in which no element is `less` than one before it. -/
def SortSliceSorts {σ α : Type} (api : Env σ) (less : α → α → Bool) : Prop :=
  ∀ l : List α, (api.sortSlice less l).Perm l
    ∧ (api.sortSlice less l).Pairwise (fun a b => less b a = false)

/-! ## More worked examples -/

/-- A world whose local agent is stopped. -/
def stoppedEnv : Env Unit :=
  { demoEnv with status := fun s => (.ok ⟨"Stopped", none⟩, s) }

/-- A world whose local agent reports the exit node `n-a`, not online. -/
def offlineEnv : Env Unit :=
  { listingEnv [taggedDevice "a" 180] with
    status := fun s => (.ok ⟨"Running", some ⟨"n-a", false⟩⟩, s) }

/-- Three candidate images; the second was created last. -/
def demoImages : List Image :=
  [⟨"ami-1", "al2023-ami-a", "amazon", "x86_64", "2024-01-01T00:00:00.000Z"⟩,
   ⟨"ami-2", "al2023-ami-b", "amazon", "x86_64", "2024-03-01T00:00:00.000Z"⟩,
   ⟨"ami-3", "al2023-ami-c", "amazon", "x86_64", "2024-02-01T00:00:00.000Z"⟩]

/-- A world whose provider offers `images`. -/
def imagesEnv (images : List Image) : Env Unit :=
  { demoEnv with describeImages := fun _ _ s => (.ok images, s) }

/-- What `prepareInstance` guarantees from the account lookup on, for the launch request
`runInput` it has built: nothing of the launch, tagging, waiting or install phases is
called; a "no" at the confirmation form gives `ErrUserAborted`; and a success returns
`runInput` after a form that did not answer "no". -/
def ConfirmPost (runInput : RunInstancesInput) (r : Except GoError (Option RunInstancesInput))
    (evs : List Event) : Prop :=
  (∀ e ∈ evs, e.kind ∈ [Kind.confirm, Kind.other])
  ∧ (∀ q, Event.formConfirm q (.ok false) ∈ evs → r = .error .userAborted)
  ∧ (∀ x, r = .ok x → x = some runInput ∧ ∀ q, Event.formConfirm q (.ok false) ∉ evs)

/-- Two tagged devices with the same hostname `a` and different node ids, after a device
with hostname `b`. -/
def homonymDevices : List Device :=
  [taggedDevice "b" 60, { taggedDevice "a" 120 with NodeID := "n-first" },
   { taggedDevice "a" 30 with NodeID := "n-second" }]

/-- What every run of `prepareInstance` guarantees: nothing of the launch, tagging, waiting
or install phases is called; a "no" at the confirmation form gives `ErrUserAborted`; and a
success returns a launch request after a form that did not answer "no". -/
def PrepPost (r : Except GoError (Option RunInstancesInput)) (evs : List Event) : Prop :=
  (∀ e ∈ evs, e.kind ∈ [Kind.confirm, Kind.other])
  ∧ (∀ q, Event.formConfirm q (.ok false) ∈ evs → r = .error .userAborted)
  ∧ (∀ x, r = .ok x → (∃ runInput, x = some runInput)
      ∧ ∀ q, Event.formConfirm q (.ok false) ∉ evs)

/-- The launch call was answered without an instance: with an error, or with success and
zero instances. -/
def NoInstance (resp : Except GoError (List Ec2Instance)) : Prop :=
  ∀ i rest, resp ≠ .ok (i :: rest)

/-- What `createInstance` returns when the launch call gave no instance (lines 308-320). -/
def createResult : Except GoError (List Ec2Instance) → Except GoError Instance
  | .error runErr =>
    if runErr.AsAPICode = some "DryRunOperation" then .ok Instance.zero
    else .error (wrapErr "failed to create EC2 instance: " runErr)
  | .ok _ => .ok Instance.zero

/-- The error `Create` returns when the launch call gave no instance: the empty instance id
is turned into `instance creation aborted` (line 127), any error is wrapped (line 135). -/
def launchError : Except GoError (List Ec2Instance) → GoError
  | .error runErr =>
    if runErr.AsAPICode = some "DryRunOperation" then
      .wrap "failed to create instance: " (.new "instance creation aborted")
    else wrapErr "failed to create instance: " (wrapErr "failed to create EC2 instance: " runErr)
  | .ok _ => .wrap "failed to create instance: " (.new "instance creation aborted")

/-- What every run of `createInstance` guarantees: it starts with the launch call, goes on
with tagging, waiting and describing only, and when the launch gave no instance it calls
nothing more and returns `createResult`. -/
def CreateInstancePost (cfg : AwsConfig) (runInput : RunInstancesInput)
    (r : Except GoError Instance) (evs : List Event) : Prop :=
  ∃ resp rest, evs = Event.runInstances cfg runInput resp :: rest
    ∧ (∀ e ∈ rest, e.kind ∈ [Kind.tagWait, Kind.other])
    ∧ (NoInstance resp → (∀ e ∈ rest, e.kind = Kind.other) ∧ r = createResult resp)

/-- What every run of `Create` from the first spinner on guarantees: no confirmation form;
and if a launch call was answered without an instance, the run returns `launchError` and
has called nothing of the tagging, waiting or install phases. -/
def LaunchPost (r : Except GoError Unit) (evs : List Event) : Prop :=
  (∀ e ∈ evs, e.kind ≠ Kind.confirm)
  ∧ (∀ cfg runInput resp, Event.runInstances cfg runInput resp ∈ evs → NoInstance resp →
      r = .error (launchError resp) ∧ ∀ e ∈ evs, e.kind ∈ [Kind.launch, Kind.other])

/-- What every run of `Create` guarantees: after a "no" at the confirmation form it returns
`nil` and has called nothing of the launch, tagging, waiting or install phases; after a
launch call answered without an instance it returns `launchError` and has called nothing of
the tagging, waiting or install phases. -/
def CreatePost (r : Except GoError Unit) (evs : List Event) : Prop :=
  (∀ q, Event.formConfirm q (.ok false) ∈ evs →
      r = .ok () ∧ ∀ e ∈ evs, e.kind ∈ [Kind.confirm, Kind.other])
  ∧ (∀ cfg runInput resp, Event.runInstances cfg runInput resp ∈ evs → NoInstance resp →
      r = .error (launchError resp)
        ∧ ∀ e ∈ evs, e.kind ∈ [Kind.confirm, Kind.launch, Kind.other])

/-- What the spinner action of `Create` (lines 121-133: `createInstance`, then the test on
the instance id) guarantees: as `CreateInstancePost`, and when the launch gave no instance
the action fails with an error that line 135 wraps into `launchError`. -/
def CheckedPost (cfg : AwsConfig) (runInput : RunInstancesInput)
    (r : Except GoError Instance) (evs : List Event) : Prop :=
  ∃ resp rest, evs = Event.runInstances cfg runInput resp :: rest
    ∧ (∀ e ∈ rest, e.kind ∈ [Kind.tagWait, Kind.other])
    ∧ (NoInstance resp → (∀ e ∈ rest, e.kind = Kind.other)
        ∧ ∃ e, r = .error e ∧ wrapErr "failed to create instance: " e = launchError resp)

/-- A world whose user answers "no" at the confirmation form. -/
def decliningEnv : Env Unit :=
  { demoEnv with formConfirm := fun _ s => (.ok false, s) }

/-- A world whose provider answers every launch call with `runErr`. -/
def launchErrorEnv (runErr : GoError) : Env Unit :=
  { demoEnv with runInstances := fun _ _ s => (.error runErr, s) }

/-- The provider's answer to a dry run that would have succeeded. -/
def dryRunOperation : GoError :=
  .wrap "operation error EC2: RunInstances, "
    (.api "DryRunOperation" "Request would have succeeded, but DryRun flag is set.")

/-- The provider's answer to a dry run by a caller without the permission to launch. -/
def unauthorizedOperation : GoError :=
  .wrap "operation error EC2: RunInstances, "
    (.api "UnauthorizedOperation" "You are not authorized to perform this operation.")

/-- A world whose provider answers every launch call with success and zero instances. -/
def emptyLaunchEnv : Env Unit :=
  { demoEnv with runInstances := fun _ _ s => (.ok [], s) }

/-- The configuration of the worked examples with `--dry-run`. -/
def dryRunConfig : Config := { demoConfig with DryRun := true }

/-- The launch request `prepareInstance` builds in the worked examples. -/
def demoRunInput (dryRun : Bool) : RunInstancesInput :=
  prepareInstance.runInput demoEnv "ami-1" dryRun "10"

/-! ## Statements about `float64` rounding -/

/-- The natural number `m` is the quotient `N / D` rounded to nearest, and the quotient lies
in the range of a 53-bit significand: `2 ^ 52 ≤ N / D < 2 ^ 53`. -/
def Rounded (N D m : Nat) : Prop :=
  0 < D ∧ 2 ^ 52 * D ≤ N ∧ N < 2 ^ 53 * D ∧ 2 * (m * D) ≤ 2 * N + D ∧ 2 * N ≤ 2 * (m * D) + D

/-- No run of `m` returns the error `duration must be at least 1 minute`. -/
def AvoidsDurationError {σ α : Type} (m : M σ α) : Prop :=
  ∀ w, (m w).1 ≠ .error (.new "duration must be at least 1 minute")

/-- Every launch call in the log carries a request satisfying `P`. -/
def RequestsSatisfy (P : RunInstancesInput → Prop) (evs : List Event) : Prop :=
  ∀ cfg runInput resp, Event.runInstances cfg runInput resp ∈ evs → P runInput

/-- A duration of 262144 minutes and 59.999999999 seconds, in nanoseconds. -/
def longDuration : Int := 262144 * Minute + 59999999999

/-- A world in which `time.ParseDuration` parses `30s`, `90s` and `262144m59.999999999s`. -/
def durationEnv : Env Unit :=
  { demoEnv with
    parseDuration := fun s =>
      if s = "30s" then .ok (30 * 1000000000)
      else if s = "90s" then .ok (90 * 1000000000)
      else if s = "262144m59.999999999s" then .ok longDuration
      else .error (.new ("time: invalid duration " ++ s)) }

/-- The configuration of the worked examples with the shutdown duration `shutdown`. -/
def shutdownConfig (shutdown : String) : Config := { demoConfig with Shutdown := shutdown }

/-! ## The command waiter of the remote installer -/

/-- The answer of the SDK's `CommandExecutedWaiter.Wait` (a library outside this repository)
for a command whose invocation has come to rest at `status`: `Success` ends the wait with
`nil`; `Cancelled`, `TimedOut`, `Failed` and `Cancelling` end it with the error
`waiter state transitioned to Failure`; every other status is polled again until the maximum
wait time has passed. -/
def commandExecutedWaiter (status : String) : Except GoError Unit :=
  if status = "Success" then .ok ()
  else if status ∈ ["Cancelled", "TimedOut", "Failed", "Cancelling"] then
    .error (.new "waiter state transitioned to Failure")
  else .error (.new "exceeded max wait time for CommandExecuted waiter")

/-- The waiter's contract on a world: when the wait for a command ends with `nil`, the
invocation read next has the status `Success`. -/
def WaiterContract {σ : Type} (api : Env σ) : Prop :=
  ∀ cfg commandID instanceID maxWait s s1 invocation s2,
    api.waitCommandExecuted cfg commandID instanceID maxWait s = (.ok (), s1) →
    api.getCommandInvocation cfg commandID instanceID s1 = (.ok invocation, s2) →
    invocation.Status = "Success"

/-- A world in which the command the installer sends comes to rest with the invocation
`invocation`: the waiter answers as `commandExecutedWaiter` on its status, and reading the
invocation returns it. -/
def invocationEnv (invocation : CommandInvocation) : Env Unit :=
  { demoEnv with
    waitCommandExecuted := fun _ _ _ _ s => (commandExecutedWaiter invocation.Status, s)
    getCommandInvocation := fun _ _ _ s => (.ok invocation, s) }

/-- The invocation of the specification's scenario: status `Failed`, standard error
`permission denied`. -/
def failedInvocation : CommandInvocation := ⟨"Failed", some "permission denied"⟩

/-- The text `text` occurs in `msg`, as `strings.Contains(msg, text)`. -/
def ContainsText (msg text : String) : Prop := List.IsInfix text.data msg.data

instance (msg text : String) : Decidable (ContainsText msg text) := by
  unfold ContainsText; infer_instance

/-! ## Rules for reasoning about runs -/

set_option maxRecDepth 100000

section Rules

variable {σ α β : Type}

theorem sat_mono {m : M σ α} {Q P : Except GoError α → List Event → Prop}
    (hm : Sat m Q) (h : ∀ r evs, Q r evs → P r evs) : Sat m P := by
  intro w
  obtain ⟨evs, h1, h2⟩ := hm w
  exact ⟨evs, h1, h _ _ h2⟩

theorem sat_ret {a : α} {P : Except GoError α → List Event → Prop} (h : P (.ok a) []) :
    Sat (ret a : M σ α) P := fun w => ⟨[], by simp [ret], h⟩

theorem sat_pure {a : α} {P : Except GoError α → List Event → Prop} (h : P (.ok a) []) :
    Sat (pure a : M σ α) P := sat_ret h

theorem sat_fail {e : GoError} {P : Except GoError α → List Event → Prop}
    (h : P (.error e) []) : Sat (fail e : M σ α) P :=
  fun w => ⟨[], by simp [fail], h⟩

theorem sat_emit {e : Event} {P : Except GoError Unit → List Event → Prop}
    (h : P (.ok ()) [e]) : Sat (emit e : M σ Unit) P :=
  fun _ => ⟨[e], rfl, h⟩

theorem sat_call {f : σ → Except GoError α × σ} {ev : Except GoError α → Event}
    {P : Except GoError α → List Event → Prop} (h : ∀ r, P r [ev r]) : Sat (call f ev) P :=
  fun _ => ⟨_, rfl, h _⟩

theorem sat_peek {f : σ → α} {ev : α → Event}
    {P : Except GoError α → List Event → Prop} (h : ∀ a, P (.ok a) [ev a]) :
    Sat (peek f ev) P :=
  fun _ => ⟨_, rfl, h _⟩

theorem sat_handle {m : M σ α} {onErr : GoError → M σ β} {onOk : α → M σ β}
    {Q : Except GoError α → List Event → Prop} {P : Except GoError β → List Event → Prop}
    (hm : Sat m Q)
    (hok : ∀ a evs1, Q (.ok a) evs1 → Sat (onOk a) (fun r evs2 => P r (evs1 ++ evs2)))
    (herr : ∀ e evs1, Q (.error e) evs1 → Sat (onErr e) (fun r evs2 => P r (evs1 ++ evs2))) :
    Sat (M.handle m onErr onOk) P := by
  intro w
  obtain ⟨evs1, h1, h2⟩ := hm w
  unfold M.handle
  rcases hmw : m w with ⟨r, w1⟩
  rw [hmw] at h1 h2
  cases r with
  | ok a =>
    obtain ⟨evs2, h3, h4⟩ := hok a evs1 h2 w1
    have h5 : w1.log = w.log ++ evs1 := h1
    exact ⟨evs1 ++ evs2, by simp only [h3, h5, List.append_assoc], h4⟩
  | error e =>
    obtain ⟨evs2, h3, h4⟩ := herr e evs1 h2 w1
    have h5 : w1.log = w.log ++ evs1 := h1
    exact ⟨evs1 ++ evs2, by simp only [h3, h5, List.append_assoc], h4⟩

theorem sat_bind {m : M σ α} {k : α → M σ β}
    {Q : Except GoError α → List Event → Prop} {P : Except GoError β → List Event → Prop}
    (hm : Sat m Q)
    (hok : ∀ a evs1, Q (.ok a) evs1 → Sat (k a) (fun r evs2 => P r (evs1 ++ evs2)))
    (herr : ∀ e evs1, Q (.error e) evs1 → P (.error e) evs1) :
    Sat (m >>= k) P :=
  sat_handle hm hok (fun e evs1 h => sat_fail (by simpa using herr e evs1 h))

theorem sat_wrap {pfx : String} {m : M σ α}
    {Q P : Except GoError α → List Event → Prop} (hm : Sat m Q)
    (hok : ∀ a evs, Q (.ok a) evs → P (.ok a) evs)
    (herr : ∀ e evs, Q (.error e) evs → P (.error (wrapErr pfx e)) evs) :
    Sat (wrap pfx m) P :=
  sat_handle hm (fun a evs1 h => sat_ret (by simpa using hok a evs1 h))
    (fun e evs1 h => sat_fail (by simpa using herr e evs1 h))

theorem sat_wrap_call {pfx : String} {f : σ → Except GoError α × σ}
    {ev : Except GoError α → Event} {P : Except GoError α → List Event → Prop}
    (hok : ∀ a, P (.ok a) [ev (.ok a)])
    (herr : ∀ e, P (.error (wrapErr pfx e)) [ev (.error e)]) :
    Sat (wrap pfx (call f ev)) P :=
  sat_wrap (Q := fun r evs => evs = [ev r]) (sat_call fun _ => rfl)
    (fun a _ h => h ▸ hok a) (fun e _ h => h ▸ herr e)

theorem sat_bind_wrap_call {pfx : String} {f : σ → Except GoError α × σ}
    {ev : Except GoError α → Event} {k : α → M σ β}
    {P : Except GoError β → List Event → Prop}
    (hok : ∀ a, Sat (k a) (fun r evs2 => P r (ev (.ok a) :: evs2)))
    (herr : ∀ e, P (.error (wrapErr pfx e)) [ev (.error e)]) :
    Sat (wrap pfx (call f ev) >>= k) P :=
  sat_bind (Q := fun r evs => (∃ a, r = .ok a ∧ evs = [ev (.ok a)])
      ∨ ∃ e, r = .error (wrapErr pfx e) ∧ evs = [ev (.error e)])
    (sat_wrap_call (fun a => Or.inl ⟨a, rfl, rfl⟩) (fun e => Or.inr ⟨e, rfl, rfl⟩))
    (fun a evs1 h => by
      rcases h with ⟨a1, h1, rfl⟩ | ⟨e, h1, _⟩
      · cases h1; exact hok a
      · cases h1)
    (fun e evs1 h => by
      rcases h with ⟨a1, h1, _⟩ | ⟨e1, h1, rfl⟩
      · cases h1
      · cases h1; exact herr e1)

theorem sat_bind_wrap {pfx : String} {m : M σ α} {k : α → M σ β}
    {Q : Except GoError α → List Event → Prop} {P : Except GoError β → List Event → Prop}
    (hm : Sat m Q)
    (hok : ∀ a evs1, Q (.ok a) evs1 → Sat (k a) (fun r evs2 => P r (evs1 ++ evs2)))
    (herr : ∀ e evs1, Q (.error e) evs1 → P (.error (wrapErr pfx e)) evs1) :
    Sat (wrap pfx m >>= k) P :=
  sat_bind (Q := fun r evs => (∃ a, r = .ok a ∧ Q (.ok a) evs)
      ∨ ∃ e, r = .error (wrapErr pfx e) ∧ Q (.error e) evs)
    (sat_wrap hm (fun a evs h => Or.inl ⟨a, rfl, h⟩) (fun e evs h => Or.inr ⟨e, rfl, h⟩))
    (fun a evs1 h => by
      rcases h with ⟨a1, h1, h2⟩ | ⟨e, h1, _⟩
      · cases h1; exact hok a evs1 h2
      · cases h1)
    (fun e evs1 h => by
      rcases h with ⟨a1, h1, _⟩ | ⟨e1, h1, h2⟩
      · cases h1
      · cases h1; exact herr e1 evs1 h2)

theorem sat_bind_emit {e : Event} {k : Unit → M σ β}
    {P : Except GoError β → List Event → Prop}
    (h : Sat (k ()) (fun r evs2 => P r (e :: evs2))) :
    Sat (emit e >>= k) P :=
  sat_bind (Q := fun r evs => r = .ok () ∧ evs = [e]) (sat_emit ⟨rfl, rfl⟩)
    (fun a evs1 h1 => by obtain ⟨_, rfl⟩ := h1; exact h)
    (fun e1 evs1 h1 => by cases h1.1)

theorem sat_ite {c : Prop} [Decidable c] {m1 m2 : M σ α}
    {P : Except GoError α → List Event → Prop}
    (h1 : c → Sat m1 P) (h2 : ¬ c → Sat m2 P) : Sat (if c then m1 else m2) P := by
  by_cases hc : c
  · simpa [hc] using h1 hc
  · simpa [hc] using h2 hc

/-- What a run from an empty log says about its final log. -/
theorem sat_init {m : M σ α} {P : Except GoError α → List Event → Prop} (h : Sat m P)
    (s : σ) : P (m (World.init s)).1 (m (World.init s)).2.log := by
  obtain ⟨evs, h1, h2⟩ := h (World.init s)
  have : (m (World.init s)).2.log = evs := by simpa [World.init] using h1
  rw [this]; exact h2

end Rules

/-! ## Which phases a function touches -/

section EmitsRules

variable {σ α β : Type}

theorem emits_mono {m : M σ α} {K L : List Kind} (h : Emits m K) (hsub : ∀ k ∈ K, k ∈ L) :
    Emits m L :=
  sat_mono h (fun _ _ h1 e he => hsub _ (h1 e he))

theorem emits_ret {a : α} {K : List Kind} : Emits (ret a : M σ α) K :=
  sat_ret (by simp)

theorem emits_pure {a : α} {K : List Kind} : Emits (pure a : M σ α) K :=
  sat_pure (by simp)

theorem emits_fail {e : GoError} {K : List Kind} : Emits (fail e : M σ α) K :=
  sat_fail (by simp)

theorem emits_emit {e : Event} {K : List Kind} (h : e.kind ∈ K) : Emits (emit e : M σ Unit) K :=
  sat_emit (by simpa using h)

theorem emits_call {f : σ → Except GoError α × σ} {ev : Except GoError α → Event}
    {K : List Kind} (h : ∀ r, (ev r).kind ∈ K) : Emits (call f ev) K :=
  sat_call (fun r => by simpa using h r)

theorem emits_peek {f : σ → α} {ev : α → Event} {K : List Kind} (h : ∀ a, (ev a).kind ∈ K) :
    Emits (peek f ev) K :=
  sat_peek (fun a => by simpa using h a)

theorem emits_handle {m : M σ α} {onErr : GoError → M σ β} {onOk : α → M σ β} {K : List Kind}
    (hm : Emits m K) (herr : ∀ e, Emits (onErr e) K) (hok : ∀ a, Emits (onOk a) K) :
    Emits (M.handle m onErr onOk) K :=
  sat_handle hm
    (fun a evs1 h1 => sat_mono (hok a) (fun _ evs2 h2 e he => by
      rcases List.mem_append.1 he with h | h
      · exact h1 e h
      · exact h2 e h))
    (fun e0 evs1 h1 => sat_mono (herr e0) (fun _ evs2 h2 e he => by
      rcases List.mem_append.1 he with h | h
      · exact h1 e h
      · exact h2 e h))

theorem emits_bind {m : M σ α} {k : α → M σ β} {K : List Kind}
    (hm : Emits m K) (hk : ∀ a, Emits (k a) K) : Emits (m >>= k) K :=
  emits_handle hm (fun _ => emits_fail) hk

theorem emits_wrap {pfx : String} {m : M σ α} {K : List Kind} (hm : Emits m K) :
    Emits (wrap pfx m) K :=
  emits_handle hm (fun _ => emits_fail) (fun _ => emits_ret)

theorem emits_ite {c : Prop} [Decidable c] {m1 m2 : M σ α} {K : List Kind}
    (h1 : Emits m1 K) (h2 : Emits m2 K) : Emits (if c then m1 else m2) K :=
  sat_ite (fun _ => h1) (fun _ => h2)

end EmitsRules

theorem canceledOr_emits {σ α : Type} (api : Env σ) (canceled failed : String) (err : GoError) :
    Emits (canceledOr api canceled failed err : M σ α) [Kind.other] := by
  unfold canceledOr M.bind ctxErr
  refine emits_handle (emits_peek fun _ => by simp [Event.kind]) (fun _ => emits_fail) ?_
  intro a
  cases a <;> exact emits_fail

theorem GetRegions_emits {σ : Type} (api : Env σ) : Emits (GetRegions api) [Kind.other] := by
  unfold GetRegions
  refine emits_bind (emits_wrap (emits_call fun _ => by simp [Event.kind])) (fun _ => ?_)
  exact emits_bind (emits_wrap (emits_call fun _ => by simp [Event.kind])) (fun _ => emits_pure)

theorem SelectRegion_emits {σ : Type} (api : Env σ) : Emits (SelectRegion api) [Kind.other] := by
  unfold SelectRegion
  refine emits_handle (GetRegions_emits api) (fun _ => canceledOr_emits api _ _ _) (fun _ => ?_)
  exact emits_handle (emits_call fun _ => by simp [Event.kind])
    (fun _ => canceledOr_emits api _ _ _) (fun _ => emits_ret)

theorem GetActiveNodes_emits {σ : Type} (api : Env σ) (c : TsClient) :
    Emits (GetActiveNodes api c) [Kind.other] := by
  unfold GetActiveNodes
  exact emits_bind (emits_wrap (emits_call fun _ => by simp [Event.kind])) (fun _ => emits_pure)

theorem UpdateExitNode_emits {σ : Type} (api : Env σ) (c : TsClient) (id : String) :
    Emits (UpdateExitNode api c id) [Kind.other] := by
  unfold UpdateExitNode
  refine emits_bind (emits_wrap (emits_call fun _ => by simp [Event.kind])) (fun status => ?_)
  refine emits_ite emits_fail ?_
  unfold UpdateExitNode.running
  refine emits_bind ?_ (fun _ => ?_)
  · cases status.ExitNodeStatus with
    | none => exact emits_pure
    | some exitNode =>
      unfold UpdateExitNode.announce
      refine emits_bind (emits_wrap (emits_call fun _ => by simp [Event.kind])) (fun _ => ?_)
      exact emits_ite (emits_emit (by simp [Event.kind])) emits_pure
  · refine emits_bind (emits_wrap (emits_call fun _ => by simp [Event.kind])) (fun _ => ?_)
    refine emits_bind ?_ (fun _ => ?_)
    · unfold UpdateExitNode.setTarget
      exact emits_ite
        (emits_bind (emits_emit (by simp [Event.kind])) (fun _ => emits_pure))
        (emits_bind (emits_emit (by simp [Event.kind])) (fun _ => emits_pure))
    · refine emits_bind (emits_wrap (emits_call fun _ => by simp [Event.kind])) (fun _ => ?_)
      refine emits_bind (emits_wrap (emits_call fun _ => by simp [Event.kind])) (fun st2 => ?_)
      cases st2.ExitNodeStatus with
      | none => exact emits_pure
      | some exitNode =>
        unfold UpdateExitNode.verify
        exact emits_ite emits_fail emits_pure

theorem Connect_toDevice_emits {σ : Type} (api : Env σ) (c : TsClient) (d : Option Device) :
    Emits (Connect.toDevice api c d) [Kind.other] := by
  cases d with
  | none => exact emits_fail
  | some device =>
    unfold Connect.toDevice Connect.finish
    exact emits_bind (emits_wrap (UpdateExitNode_emits api c _))
      (fun _ => emits_emit (by simp [Event.kind]))

theorem Connect_emits {σ : Type} (api : Env σ) (config : Config) (args : List String) :
    Emits (Connect api config args) [Kind.other] := by
  unfold Connect
  cases api.urlParse config.BaseURL with
  | error err => exact emits_fail
  | ok baseURL =>
    unfold Connect.withClient
    refine emits_bind (emits_wrap (GetActiveNodes_emits api _)) (fun tailoutDevices => ?_)
    cases args with
    | nil =>
      unfold Connect.resolve
      refine emits_ite ?_ emits_fail
      unfold Connect.interactive
      refine emits_ite emits_fail ?_
      exact emits_bind (emits_wrap (emits_call fun _ => by simp [Event.kind]))
        (fun _ => Connect_toDevice_emits api _ _)
    | cons arg0 rest =>
      simp only [Connect.resolve]
      cases IndexFunc (fun e => decide (e.Hostname = arg0)) tailoutDevices with
      | ofNat i => exact Connect_toDevice_emits api _ _
      | negSucc n => exact emits_fail

theorem Create_found_emits {σ : Type} (api : Env σ) (config : Config) (duration : Int)
    (inst : Instance) (nodes : List Device) :
    Emits (Create.found api config duration inst nodes) [Kind.other] := by
  unfold Create.found
  refine emits_ite ?_ emits_fail
  refine emits_bind (emits_emit (by simp [Event.kind])) (fun _ => ?_)
  refine emits_bind (emits_emit (by simp [Event.kind])) (fun _ => ?_)
  refine emits_bind (emits_peek fun _ => by simp [Event.kind]) (fun _ => ?_)
  unfold Create.connect
  refine emits_ite ?_ emits_pure
  exact emits_bind (emits_emit (by simp [Event.kind]))
    (fun _ => emits_wrap (Connect_emits api config _))

theorem installTailScale_emits {σ : Type} (api : Env σ) (cfg : AwsConfig)
    (key nodeName instanceID : String) :
    Emits (installTailScale api cfg key nodeName instanceID) [Kind.install, Kind.other] := by
  unfold installTailScale
  refine emits_bind (emits_emit (by simp [Event.kind])) (fun _ => ?_)
  refine emits_bind (emits_wrap (emits_call fun _ => by simp [Event.kind])) (fun _ => ?_)
  refine emits_bind (emits_wrap (emits_call fun _ => by simp [Event.kind])) (fun _ => ?_)
  refine emits_bind (emits_wrap (emits_call fun _ => by simp [Event.kind])) (fun _ => ?_)
  unfold installTailScale.check
  exact emits_ite emits_fail emits_pure

theorem Create_region_emits {σ : Type} (api : Env σ) (config : Config) :
    Emits (Create.region api config) [Kind.other] := by
  unfold Create.region
  exact emits_ite (emits_wrap (SelectRegion_emits api)) (emits_ite emits_fail emits_pure)

theorem createInstance_launched_emits {σ : Type} (api : Env σ) (cfg : AwsConfig)
    (createdInstance : Ec2Instance) (rest : List Ec2Instance) :
    Emits (createInstance.launched api cfg (createdInstance :: rest))
      [Kind.tagWait, Kind.other] := by
  unfold createInstance.launched
  refine emits_bind (emits_emit (by simp [Event.kind])) (fun _ => ?_)
  refine emits_bind (emits_wrap (emits_call fun _ => by simp [Event.kind])) (fun _ => ?_)
  refine emits_bind (emits_emit (by simp [Event.kind])) (fun _ => ?_)
  refine emits_bind (emits_wrap (emits_call fun _ => by simp [Event.kind])) (fun _ => ?_)
  refine emits_bind (emits_wrap (emits_call fun _ => by simp [Event.kind])) (fun rs => ?_)
  cases rs with
  | nil => exact emits_fail
  | cons reservation _ =>
    simp only [createInstance.fromDescription]
    cases reservation.Instances with
    | nil => exact emits_fail
    | cons instance1 _ =>
      dsimp only
      cases instance1.PublicIpAddress with
      | none => exact emits_fail
      | some ip => exact emits_pure

/-! ## The active-node filter -/

/-- C1 (the code departs from the claim). On the specification's scenario the rule "tagged
and last seen less than 10 minutes ago" keeps only the 3-minute device, but
`GetActiveNodes` returns the 15-minute device as well; a tagged device 10:01 stale is kept
like one 9:59 stale; and a device that carries the tag twice is returned twice. -/
theorem GetActiveNodes_keeps_stale_devices :
    ListActiveExitNodesSpec scenarioNow scenarioDevices = [taggedDevice "a" 180]
    ∧ (GetActiveNodes (listingEnv scenarioDevices) demoClient (World.init ())).1
        = .ok [taggedDevice "a" 180, taggedDevice "b" 900]
    ∧ ListActiveExitNodesSpec scenarioNow [taggedDevice "d" 599, taggedDevice "e" 601]
        = [taggedDevice "d" 599]
    ∧ (GetActiveNodes (listingEnv [taggedDevice "d" 599, taggedDevice "e" 601]) demoClient
        (World.init ())).1 = .ok [taggedDevice "d" 599, taggedDevice "e" 601]
    ∧ (GetActiveNodes
        (listingEnv [{ taggedDevice "f" 60 with Tags := ["tag:tailout", "tag:tailout"] }])
        demoClient (World.init ())).1
        = .ok [{ taggedDevice "f" 60 with Tags := ["tag:tailout", "tag:tailout"] },
               { taggedDevice "f" 60 with Tags := ["tag:tailout", "tag:tailout"] }] := by
  refine ⟨by decide, ?_, by decide, ?_, ?_⟩ <;> rfl

/-! ## The exit-node switch -/

/-- C2. When the agent's `BackendState` is not `Running`, `UpdateExitNode` returns the error
`tailscale is not running`, for every target id; the run consists of the one status read:
no device listing, no preference read, no preference edit, and the world is the one the
status read left. -/
theorem UpdateExitNode_not_running {σ : Type} (api : Env σ) (c : TsClient) (id : String)
    (s s1 : σ) (st : Status) (hs : api.status s = (.ok st, s1))
    (hr : st.BackendState ≠ "Running") :
    UpdateExitNode api c id (World.init s)
      = (.error (.new "tailscale is not running"), ⟨s1, [Event.status (.ok st)]⟩) := by
  simp [UpdateExitNode, bind, M.bind, M.handle, wrap, call, ret, World.init, hs, hr, fail]

/-- C2, worked example: `SetExitNode("node-42")` with `backendState = Stopped`. -/
theorem UpdateExitNode_not_running_witness :
    ("Stopped" ≠ "Running")
    ∧ UpdateExitNode stoppedEnv demoClient "node-42" (World.init ())
      = (.error (.new "tailscale is not running"),
          ⟨(), [Event.status (.ok ⟨"Stopped", none⟩)]⟩) :=
  ⟨by decide,
    UpdateExitNode_not_running stoppedEnv demoClient "node-42" () () ⟨"Stopped", none⟩ rfl
      (by decide)⟩

theorem endsWithReRead_iff (evs : List Event) (st2 : Status) :
    EndsWithReRead evs st2 ↔
      ∃ mp p rest, evs.reverse = Event.status (.ok st2) :: Event.editPrefs mp (.ok p) :: rest := by
  constructor
  · rintro ⟨pre, mp, p, rfl⟩
    exact ⟨mp, p, pre.reverse, by simp⟩
  · rintro ⟨mp, p, rest, h⟩
    refine ⟨rest.reverse, mp, p, ?_⟩
    have := congrArg List.reverse h
    simpa using this

theorem not_endsWithReRead_single (e : Event) (st2 : Status) : ¬ EndsWithReRead [e] st2 := by
  rw [endsWithReRead_iff]
  rintro ⟨mp, p, rest, h⟩
  simp at h

theorem not_endsWithReRead_last (pre : List Event) (e : Event) (st2 : Status)
    (h : e ≠ Event.status (.ok st2)) : ¬ EndsWithReRead (pre ++ [e]) st2 := by
  rw [endsWithReRead_iff]
  rintro ⟨mp, p, rest, h1⟩
  simp at h1
  exact h h1.1

theorem announce_sat {σ : Type} (api : Env σ) (c : TsClient) (x : Option ExitNodeStatus) :
    Sat (UpdateExitNode.announce api c x) (fun r evs =>
      r = .ok () ∨ ∃ err, r = .error (wrapErr "failed to get devices: " err)
        ∧ evs = [Event.devicesList c (.error err)]) := by
  cases x with
  | none => exact sat_pure (Or.inl rfl)
  | some exitNode =>
    unfold UpdateExitNode.announce
    refine sat_bind_wrap_call (fun devices => ?_) (fun err => Or.inr ⟨err, rfl, rfl⟩)
    exact sat_ite (fun _ => sat_emit (Or.inl rfl)) (fun _ => sat_pure (Or.inl rfl))

theorem setTarget_sat {σ : Type} (id : String) (prefs : Prefs) :
    Sat (UpdateExitNode.setTarget id prefs : M σ Prefs) (fun r evs =>
      ∃ p text, r = .ok p ∧ evs = [Event.print text]) := by
  unfold UpdateExitNode.setTarget
  exact sat_ite (fun _ => sat_bind_emit (sat_pure ⟨_, _, rfl, rfl⟩))
    (fun _ => sat_bind_emit (sat_pure ⟨_, _, rfl, rfl⟩))

theorem verify_sat {σ : Type} (st2 : Status) :
    Sat (UpdateExitNode.verify st2.ExitNodeStatus : M σ Unit) (fun r evs =>
      evs = [] ∧ r = verifyResult st2) := by
  unfold verifyResult
  cases st2.ExitNodeStatus with
  | none => exact sat_pure ⟨rfl, rfl⟩
  | some exitNode =>
    unfold UpdateExitNode.verify
    cases h : exitNode.Online
    · exact sat_ite (fun _ => sat_fail (by simp [h])) (fun hc => absurd hc (by simp [h]))
    · exact sat_ite (fun hc => absurd hc (by simp [h])) (fun _ => sat_pure (by simp [h]))

theorem running_sat {σ : Type} (api : Env σ) (c : TsClient) (id : String) (status : Status) :
    Sat (UpdateExitNode.running api c id status) (fun r evs => ∀ e0 : Event,
      ReReadPost r (e0 :: evs)) := by
  unfold UpdateExitNode.running
  refine sat_bind (announce_sat api c _) (fun _ evsA _ => ?_) (fun e evsA hA => ?_)
  · refine sat_bind_wrap_call (fun prefs => ?_) (fun e e0 => Or.inr ⟨fun st2 => ?_, _, rfl⟩)
    · refine sat_bind (setTarget_sat id prefs) (fun prefs1 evsT hT => ?_) (fun e evsT hT => ?_)
      · obtain ⟨p, text, -, rfl⟩ := hT
        refine sat_bind_wrap_call (fun p1 => ?_) (fun e e0 => Or.inr ⟨fun st2 => ?_, _, rfl⟩)
        · refine sat_bind_wrap_call (fun status2 => ?_)
            (fun e e0 => Or.inr ⟨fun st2 => ?_, _, rfl⟩)
          · refine sat_mono (verify_sat status2) ?_
            rintro r evs ⟨rfl, rfl⟩ e0
            exact Or.inl ⟨status2, ⟨e0 :: (evsA ++ [Event.getPrefs (.ok prefs),
              Event.print text]), ⟨prefs1, true⟩, p1, by simp⟩, rfl⟩
          · have := not_endsWithReRead_last (e0 :: (evsA ++ [Event.getPrefs (.ok prefs),
              Event.print text, Event.editPrefs ⟨prefs1, true⟩ (.ok p1)]))
              (Event.status (.error e)) st2 (by simp)
            simpa using this
        · have := not_endsWithReRead_last (e0 :: (evsA ++ [Event.getPrefs (.ok prefs),
            Event.print text])) (Event.editPrefs ⟨prefs1, true⟩ (.error e)) st2 (by simp)
          simpa using this
      · obtain ⟨p, text, h, -⟩ := hT
        cases h
    · have := not_endsWithReRead_last (e0 :: evsA) (Event.getPrefs (.error e)) st2 (by simp)
      simpa using this
  · rcases hA with h | ⟨err, h, rfl⟩
    · cases h
    · intro e0
      refine Or.inr ⟨fun st2 => ?_, _, rfl⟩
      have := not_endsWithReRead_last [e0] (Event.devicesList c (.error err)) st2 (by simp)
      simpa using this

theorem UpdateExitNode_sat {σ : Type} (api : Env σ) (c : TsClient) (id : String) :
    Sat (UpdateExitNode api c id) ReReadPost := by
  unfold UpdateExitNode
  refine sat_bind_wrap_call (fun status => ?_)
    (fun e => Or.inr ⟨fun st2 => not_endsWithReRead_single _ st2, _, rfl⟩)
  refine sat_ite (fun _ => sat_fail (Or.inr ⟨fun st2 => not_endsWithReRead_single _ st2, _, rfl⟩))
    (fun _ => ?_)
  exact sat_mono (running_sat api c id status) (fun r evs h => h _)

theorem endsWithReRead_unique {evs : List Event} {st2 st3 : Status}
    (h2 : EndsWithReRead evs st2) (h3 : EndsWithReRead evs st3) : st2 = st3 := by
  rw [endsWithReRead_iff] at h2 h3
  obtain ⟨_, _, _, h2⟩ := h2
  obtain ⟨_, _, _, h3⟩ := h3
  rw [h2] at h3
  simp at h3
  exact h3.1

/-- C3. Every run of `UpdateExitNode` that returns success ends with the status re-read
after the preference edit, and that status has no exit node set or one that is online; and
every run whose re-read status has an exit node set that is not online returns the error
`the exit node is not reachable`. -/
theorem UpdateExitNode_success_verified {σ : Type} (api : Env σ) (c : TsClient) (id : String) (s : σ) :
    ((UpdateExitNode api c id (World.init s)).1 = .ok () →
      ∃ st2, EndsWithReRead (UpdateExitNode api c id (World.init s)).2.log st2
        ∧ (st2.ExitNodeStatus = none
            ∨ ∃ exitNode, st2.ExitNodeStatus = some exitNode ∧ exitNode.Online = true))
    ∧ (∀ st2 exitNode, EndsWithReRead (UpdateExitNode api c id (World.init s)).2.log st2 →
        st2.ExitNodeStatus = some exitNode → exitNode.Online = false →
        (UpdateExitNode api c id (World.init s)).1
          = .error (.new "the exit node is not reachable")) := by
  have h := sat_init (UpdateExitNode_sat api c id) s
  constructor
  · intro hr
    rcases h with ⟨st2, hE, hv⟩ | ⟨-, e, he⟩
    · refine ⟨st2, hE, ?_⟩
      rw [hr] at hv
      unfold verifyResult at hv
      cases hx : st2.ExitNodeStatus with
      | none => exact Or.inl rfl
      | some exitNode =>
        rw [hx] at hv
        cases ho : exitNode.Online
        · simp [ho] at hv
        · exact Or.inr ⟨exitNode, rfl, ho⟩
    · rw [hr] at he; cases he
  · intro st2 exitNode hE hx ho
    rcases h with ⟨st3, hE3, hv⟩ | ⟨hno, -⟩
    · have := endsWithReRead_unique hE hE3
      subst this
      rw [hv]
      simp [verifyResult, hx, ho]
    · exact absurd hE (hno st2)

/-- C3, worked examples: a successful switch, and a switch to a node that is not online. -/
theorem UpdateExitNode_success_verified_witness :
    (∃ st2, EndsWithReRead (UpdateExitNode demoEnv demoClient "n-a" (World.init ())).2.log st2
        ∧ (st2.ExitNodeStatus = none
            ∨ ∃ exitNode, st2.ExitNodeStatus = some exitNode ∧ exitNode.Online = true))
    ∧ (UpdateExitNode offlineEnv demoClient "n-a" (World.init ())).1
        = .error (.new "the exit node is not reachable") :=
  ⟨(UpdateExitNode_success_verified demoEnv demoClient "n-a" ()).1 rfl,
    (UpdateExitNode_success_verified offlineEnv demoClient "n-a" ()).2
      ⟨"Running", some ⟨"n-a", false⟩⟩ ⟨"n-a", false⟩
      ⟨[Event.status (.ok ⟨"Running", some ⟨"n-a", false⟩⟩),
        Event.devicesList demoClient (.ok [taggedDevice "a" 180]),
        Event.print "Currently connected to exit node: a.example.ts.net\n",
        Event.getPrefs (.ok ⟨"", ""⟩),
        Event.print "Setting exit node to n-a...\n"],
        ⟨⟨"n-a", ""⟩, true⟩, ⟨"n-a", ""⟩, rfl⟩ rfl rfl⟩

/-! ## Image selection and the confirmation gate -/

theorem canceledOr_sat {σ α : Type} (api : Env σ) (canceled failed : String) (err : GoError) :
    Sat (canceledOr api canceled failed err : M σ α) (fun r evs =>
      (∃ e, r = .error e ∧ e ≠ .userAborted) ∧ ∃ c, evs = [Event.ctxErr c]) := by
  unfold canceledOr M.bind ctxErr
  refine sat_handle (Q := fun r evs => ∃ c, r = .ok c ∧ evs = [Event.ctxErr c])
    (sat_peek fun a => ⟨a, rfl, rfl⟩) (fun a evs1 h => ?_) (fun e evs1 h => ?_)
  · obtain ⟨c, h1, rfl⟩ := h
    cases a with
    | none =>
      refine sat_fail ⟨⟨_, rfl, ?_⟩, c, by simp⟩
      cases err <;> simp [wrapErr]
    | some ctxE =>
      refine sat_fail ⟨⟨_, rfl, ?_⟩, c, by simp⟩
      cases ctxE <;> simp [wrapErr]
  · obtain ⟨c, h1, -⟩ := h
    cases h1

theorem PromptYesNo_sat {σ : Type} (api : Env σ) (question : String) :
    Sat (PromptYesNo api question) (fun r evs =>
      (∃ b, r = .ok b ∧ evs = [Event.formConfirm question (.ok b)])
      ∨ (∃ e err c, r = .error e ∧ e ≠ .userAborted
          ∧ evs = [Event.formConfirm question (.error err), Event.ctxErr c])) := by
  unfold PromptYesNo
  refine sat_handle (Q := fun r evs => evs = [Event.formConfirm question r])
    (sat_call fun _ => rfl) (fun a evs1 h => ?_) (fun e evs1 h => ?_)
  · subst h
    exact sat_ret (Or.inl ⟨a, rfl, by simp⟩)
  · subst h
    refine sat_mono (canceledOr_sat api _ _ e) ?_
    rintro r evs ⟨⟨e1, rfl, hne⟩, c, rfl⟩
    exact Or.inr ⟨e1, e, c, rfl, hne, by simp⟩

theorem wrapErr_ne_userAborted (pfx : String) (e : GoError) : wrapErr pfx e ≠ .userAborted := by
  cases e <;> simp [wrapErr]

theorem confirm_sat {σ : Type} (api : Env σ) (runInput : RunInstancesInput) :
    Sat (prepareInstance.confirm api runInput) (ConfirmPost runInput) := by
  unfold prepareInstance.confirm
  refine sat_bind_wrap (PromptYesNo_sat api _) (fun a evs1 h => ?_) (fun e evs1 h => ?_)
  · rcases h with ⟨b, h, rfl⟩ | ⟨e, err, c, h, -⟩
    · cases h
      cases a
      · exact sat_ite (fun _ => sat_fail ⟨by simp [Event.kind], by simp, by simp⟩)
          (fun hc => absurd hc (by simp))
      · exact sat_ite (fun hc => absurd hc (by simp))
          (fun _ => sat_pure ⟨by simp [Event.kind], by simp, by simp⟩)
    · cases h
  · rcases h with ⟨b, h, -⟩ | ⟨e1, err, c, h, hne, rfl⟩
    · cases h
    · exact ⟨by simp [Event.kind], by simp, by simp⟩

theorem withImages_sat {σ : Type} (api : Env σ) (cfg : AwsConfig) (dryRun : Bool)
    (shutdownDuration : String) (latestAMI : Image) (rest : List Image) :
    Sat (prepareInstance.withImages api cfg dryRun shutdownDuration (latestAMI :: rest))
      (ConfirmPost (prepareInstance.runInput api latestAMI.ImageId dryRun shutdownDuration)) := by
  unfold prepareInstance.withImages
  refine sat_bind_wrap_call (fun account => ?_) (fun e => ⟨by simp [Event.kind], by simp, by simp⟩)
  refine sat_bind_emit ?_
  refine sat_mono (confirm_sat api _) ?_
  rintro r evs ⟨h1, h2, h3⟩
  refine ⟨?_, ?_, ?_⟩
  · intro e he
    simp only [List.mem_cons] at he
    rcases he with rfl | rfl | he
    · simp [Event.kind]
    · simp [Event.kind]
    · exact h1 e he
  · intro q hq
    simp only [List.mem_cons] at hq
    rcases hq with hq | hq | hq
    · cases hq
    · cases hq
    · exact h2 q hq
  · intro x hx
    refine ⟨(h3 x hx).1, fun q hq => ?_⟩
    simp only [List.mem_cons] at hq
    rcases hq with hq | hq | hq
    · cases hq
    · cases hq
    · exact (h3 x hx).2 q hq

theorem insertionSortSlice_sorts_images {σ : Type} (api : Env σ)
    (h : ∀ l : List Image, api.sortSlice prepareInstance.less l
      = insertionSortSlice prepareInstance.less l) :
    SortSliceSorts api prepareInstance.less := by
  intro l
  rw [h]
  unfold insertionSortSlice
  haveI : IsTotal Image (fun a b => prepareInstance.less b a = false) :=
    ⟨fun a b => by
      simp only [prepareInstance.less, decide_eq_false_iff_not, not_lt]
      exact le_total _ _⟩
  haveI : IsTrans Image (fun a b => prepareInstance.less b a = false) :=
    ⟨fun a b c hab hbc => by
      simp only [prepareInstance.less, decide_eq_false_iff_not, not_lt] at hab hbc ⊢
      exact le_trans hbc hab⟩
  exact ⟨List.perm_insertionSort _ l, List.sorted_insertionSort _ l⟩

theorem sorted_head_latest {images rest : List Image} {latestAMI : Image}
    {sorted : List Image} (hperm : sorted.Perm images)
    (hpair : sorted.Pairwise (fun a b => prepareInstance.less b a = false))
    (hs : sorted = latestAMI :: rest) :
    latestAMI ∈ images ∧ ∀ c ∈ images, c.CreationDate ≤ latestAMI.CreationDate := by
  subst hs
  refine ⟨hperm.subset (List.mem_cons_self _ _), fun c hc => ?_⟩
  have hc1 : c ∈ latestAMI :: rest := hperm.symm.subset hc
  rcases List.mem_cons.1 hc1 with rfl | hc2
  · exact le_refl _
  · have := List.rel_of_pairwise_cons hpair hc2
    simpa [prepareInstance.less] using this

/-- C4. Given the contract of `sort.Slice`: for the empty candidate list `prepareInstance`
fails with `no Amazon Linux images found` right after the listing and returns no launch
request; for a non-empty list there is a candidate whose creation timestamp is
lexicographically greater than or equal to that of every candidate and whose id is the
`ImageId` of every launch request `prepareInstance` returns. -/
theorem prepareInstance_selects_latest {σ : Type} (api : Env σ) (cfg : AwsConfig)
    (dryRun : Bool) (shutdownDuration : String) (s s1 : σ) (images : List Image)
    (hsort : SortSliceSorts api prepareInstance.less)
    (hd : api.describeImages cfg prepareInstance.describeInput s = (.ok images, s1)) :
    (images = [] →
      prepareInstance api cfg dryRun shutdownDuration (World.init s)
        = (.error (.new "no Amazon Linux images found"),
            ⟨s1, [Event.describeImages cfg prepareInstance.describeInput (.ok [])]⟩))
    ∧ (images ≠ [] →
      ∃ img ∈ images, (∀ c ∈ images, c.CreationDate ≤ img.CreationDate)
        ∧ ∀ runInput,
          (prepareInstance api cfg dryRun shutdownDuration (World.init s)).1
            = .ok (some runInput) → runInput.ImageId = img.ImageId) := by
  constructor
  · intro h
    subst h
    simp [prepareInstance, bind, M.bind, M.handle, wrap, call, ret, World.init, hd, fail]
  · intro hne
    have hlen : ¬ images.length = 0 := by simpa using hne
    have hrun : prepareInstance api cfg dryRun shutdownDuration (World.init s)
        = prepareInstance.withImages api cfg dryRun shutdownDuration
            (api.sortSlice prepareInstance.less images)
            ⟨s1, [Event.describeImages cfg prepareInstance.describeInput (.ok images)]⟩ := by
      simp [prepareInstance, bind, M.bind, M.handle, wrap, call, ret, World.init, hd, hlen]
    obtain ⟨hperm, hpair⟩ := hsort images
    cases hs : api.sortSlice prepareInstance.less images with
    | nil =>
      rw [hs] at hperm
      exact absurd hperm.symm.eq_nil hne
    | cons latestAMI rest =>
      obtain ⟨hmem, hmax⟩ := sorted_head_latest hperm hpair hs
      refine ⟨latestAMI, hmem, hmax, fun runInput hr => ?_⟩
      rw [hrun, hs] at hr
      obtain ⟨evs, -, -, -, h3⟩ := withImages_sat api cfg dryRun shutdownDuration latestAMI rest
        ⟨s1, [Event.describeImages cfg prepareInstance.describeInput (.ok images)]⟩
      have := (h3 _ hr).1
      simp only [Option.some.injEq] at this
      rw [this]
      rfl

/-- C4, worked example: of three candidates the one created last, `ami-2`, is launched; an
empty candidate list gives the not-found error. -/
theorem prepareInstance_selects_latest_witness :
    (prepareInstance (imagesEnv demoImages) ⟨"us-east-1"⟩ false "10" (World.init ())).1
        = .ok (some (prepareInstance.runInput (imagesEnv demoImages) "ami-2" false "10"))
    ∧ (∃ img ∈ demoImages, (∀ c ∈ demoImages, c.CreationDate ≤ img.CreationDate)
        ∧ ∀ runInput,
          (prepareInstance (imagesEnv demoImages) ⟨"us-east-1"⟩ false "10"
            (World.init ())).1 = .ok (some runInput) → runInput.ImageId = img.ImageId)
    ∧ prepareInstance (imagesEnv []) ⟨"us-east-1"⟩ false "10" (World.init ())
        = (.error (.new "no Amazon Linux images found"),
            ⟨(), [Event.describeImages ⟨"us-east-1"⟩ prepareInstance.describeInput (.ok [])]⟩) :=
  ⟨by simp +decide [prepareInstance, prepareInstance.withImages, prepareInstance.confirm,
      PromptYesNo, imagesEnv, demoEnv, demoImages, insertionSortSlice, prepareInstance.less,
      bind, M.bind, M.handle, wrap, call, ret, emit, World.init, pure, fail,
      prepareInstance.runInput],
    (prepareInstance_selects_latest (imagesEnv demoImages) ⟨"us-east-1"⟩ false "10" () ()
      demoImages (insertionSortSlice_sorts_images _ fun _ => rfl) rfl).2 (by decide),
    (prepareInstance_selects_latest (imagesEnv []) ⟨"us-east-1"⟩ false "10" () ()
      [] (insertionSortSlice_sorts_images _ fun _ => rfl) rfl).1 rfl⟩

/-! ## Connect -/

theorem IndexFunc_of_none {α : Type} (f : α → Bool) (l : List α)
    (h : ∀ a ∈ l, f a = false) : IndexFunc f l = Int.negSucc 0 := by
  induction l with
  | nil => rfl
  | cons a l ih =>
    have ha : f a = false := h a (List.mem_cons_self _ _)
    have hl := ih (fun b hb => h b (List.mem_cons_of_mem _ hb))
    unfold IndexFunc
    rw [ha, hl]
    rfl

theorem IndexFunc_of_find {α : Type} (f : α → Bool) (l : List α) (d : α)
    (h : l.find? f = some d) : ∃ i, IndexFunc f l = Int.ofNat i ∧ l.get? i = some d := by
  induction l with
  | nil => simp at h
  | cons a l ih =>
    cases ha : f a with
    | true =>
      have : a = d := by simpa [List.find?, ha] using h
      exact ⟨0, by simp [IndexFunc, ha], by simp [this]⟩
    | false =>
      have hl : l.find? f = some d := by simpa [List.find?, ha] using h
      obtain ⟨i, hi, hg⟩ := ih hl
      refine ⟨i + 1, ?_, by simpa using hg⟩
      unfold IndexFunc
      rw [ha, hi]
      rfl

/-- C5. With a positional hostname `arg0` and the device list the coordination service
returned: if no active node has that `Hostname`, `Connect` fails with `node arg0 not found`
and the run consists of the device listing alone (no status read, no preference read or
edit: `UpdateExitNode` is not called); if some active node has it, the rest of the run is
`UpdateExitNode` called with the `NodeID` of the first such node, then the final message. -/
theorem Connect_by_hostname {σ : Type} (api : Env σ) (config : Config) (arg0 : String)
    (rest : List String) (s s1 : σ) (baseURL : String) (devices : List Device)
    (hu : api.urlParse config.BaseURL = .ok baseURL)
    (hd : api.devicesList ⟨config.APIKey, config.Tailnet, baseURL⟩ s = (.ok devices, s1)) :
    ((∀ d ∈ GetActiveNodes.loop devices, d.Hostname ≠ arg0) →
      Connect api config (arg0 :: rest) (World.init s)
        = (.error (.new ("node " ++ arg0 ++ " not found")),
            ⟨s1, [Event.devicesList ⟨config.APIKey, config.Tailnet, baseURL⟩ (.ok devices)]⟩))
    ∧ (∀ d, (GetActiveNodes.loop devices).find? (fun e => decide (e.Hostname = arg0)) = some d →
      Connect api config (arg0 :: rest) (World.init s)
        = (wrap "failed to connect to exit node: "
              (UpdateExitNode api ⟨config.APIKey, config.Tailnet, baseURL⟩ d.NodeID)
            >>= fun _ => emit (.print ("Connected to node " ++ d.Hostname ++ " ("
              ++ Connect.addr d ++ ") via Tailscale.\n")))
            ⟨s1, [Event.devicesList ⟨config.APIKey, config.Tailnet, baseURL⟩ (.ok devices)]⟩) := by
  have hrun : Connect api config (arg0 :: rest) (World.init s)
      = Connect.byName api ⟨config.APIKey, config.Tailnet, baseURL⟩
          (GetActiveNodes.loop devices) arg0
          (IndexFunc (fun e => decide (e.Hostname = arg0)) (GetActiveNodes.loop devices))
          ⟨s1, [Event.devicesList ⟨config.APIKey, config.Tailnet, baseURL⟩ (.ok devices)]⟩ := by
    simp [Connect, Connect.withClient, Connect.resolve, GetActiveNodes, bind, M.bind, M.handle,
      wrap, call, ret, pure, World.init, hu, hd]
  constructor
  · intro h
    rw [hrun, IndexFunc_of_none _ _ (fun a ha => by simpa using h a ha)]
    rfl
  · intro d h
    obtain ⟨i, hi, hg⟩ := IndexFunc_of_find _ _ d h
    rw [hrun, hi]
    simp only [Connect.byName, hg, Connect.toDevice]
    rfl

/-- C5, worked examples: hostname `zz` is not among the active nodes; hostname `a` is borne
by two of them and the first one's id, `n-first`, is used. -/
theorem Connect_by_hostname_witness :
    Connect (listingEnv homonymDevices) demoConfig ["zz"] (World.init ())
        = (.error (.new "node zz not found"),
            ⟨(), [Event.devicesList demoClient (.ok homonymDevices)]⟩)
    ∧ Connect (listingEnv homonymDevices) demoConfig ["a"] (World.init ())
        = (wrap "failed to connect to exit node: "
              (UpdateExitNode (listingEnv homonymDevices) demoClient "n-first")
            >>= fun _ => emit (.print ("Connected to node a (100.64.0.1) via Tailscale.\n")))
            ⟨(), [Event.devicesList demoClient (.ok homonymDevices)]⟩ :=
  ⟨(Connect_by_hostname (listingEnv homonymDevices) demoConfig "zz" [] () ()
      "https://api.tailscale.com" homonymDevices rfl rfl).1 (by decide),
    (Connect_by_hostname (listingEnv homonymDevices) demoConfig "a" [] () ()
      "https://api.tailscale.com" homonymDevices rfl rfl).2
      { taggedDevice "a" 120 with NodeID := "n-first" } (by decide)⟩

/-! ## Every run of `Create` -/

theorem prepareInstance_sat {σ : Type} (api : Env σ) (cfg : AwsConfig) (dryRun : Bool)
    (shutdownDuration : String) :
    Sat (prepareInstance api cfg dryRun shutdownDuration) PrepPost := by
  unfold prepareInstance
  refine sat_bind_wrap_call (fun images => ?_)
    (fun e => ⟨by simp [Event.kind], by simp, by simp⟩)
  refine sat_ite (fun _ => sat_fail ⟨by simp [Event.kind], by simp, by simp⟩) (fun _ => ?_)
  cases api.sortSlice prepareInstance.less images with
  | nil => exact sat_fail ⟨by simp [Event.kind], by simp, by simp⟩
  | cons latestAMI rest =>
    refine sat_mono (withImages_sat api cfg dryRun shutdownDuration latestAMI rest) ?_
    rintro r evs ⟨h1, h2, h3⟩
    refine ⟨?_, ?_, ?_⟩
    · intro e he
      rcases List.mem_cons.1 he with rfl | he
      · simp [Event.kind]
      · exact h1 e he
    · intro q hq
      rcases List.mem_cons.1 hq with hq | hq
      · cases hq
      · exact h2 q hq
    · intro x hx
      refine ⟨⟨_, (h3 x hx).1⟩, fun q hq => ?_⟩
      rcases List.mem_cons.1 hq with hq | hq
      · cases hq
      · exact (h3 x hx).2 q hq

theorem createInstance_sat {σ : Type} (api : Env σ) (cfg : AwsConfig)
    (runInput : RunInstancesInput) :
    Sat (createInstance api cfg runInput) (CreateInstancePost cfg runInput) := by
  unfold createInstance
  refine sat_handle (Q := fun r evs => evs = [Event.runInstances cfg runInput r])
    (sat_call fun _ => rfl) (fun instances evs1 h => ?_) (fun runErr evs1 h => ?_)
  · subst h
    cases instances with
    | nil =>
      unfold createInstance.launched
      refine sat_bind_emit (sat_pure ?_)
      exact ⟨_, _, rfl, by simp [Event.kind], fun _ => ⟨by simp [Event.kind], rfl⟩⟩
    | cons createdInstance rest =>
      refine sat_mono (createInstance_launched_emits api cfg createdInstance rest) ?_
      intro r evs h
      exact ⟨_, evs, rfl, h, fun hno => absurd rfl (hno createdInstance rest)⟩
  · subst h
    unfold createInstance.launchFailed
    refine sat_ite (fun hc => sat_bind_emit (sat_pure ?_)) (fun hc => sat_fail ?_)
    · exact ⟨_, _, rfl, by simp [Event.kind],
        fun _ => ⟨by simp [Event.kind], by simp [createResult, hc]⟩⟩
    · exact ⟨_, _, rfl, by simp, fun _ => ⟨by simp, by simp [createResult, hc]⟩⟩

theorem checked_sat {σ : Type} (api : Env σ) (cfg : AwsConfig) (runInput : RunInstancesInput) :
    Sat (M.bind (createInstance api cfg runInput) Create.checkInstance)
      (CheckedPost cfg runInput) := by
  unfold M.bind
  refine sat_handle (createInstance_sat api cfg runInput) (fun inst evs1 h => ?_)
    (fun e evs1 h => ?_)
  · obtain ⟨resp, rest, rfl, hk, hno⟩ := h
    unfold Create.checkInstance
    refine sat_ite (fun hc => sat_fail ?_) (fun hc => sat_pure ?_)
    · refine ⟨resp, rest, by simp, hk, fun hn => ⟨(hno hn).1, _, rfl, ?_⟩⟩
      have h2 := (hno hn).2
      cases resp with
      | ok l => rfl
      | error runErr =>
        by_cases hd : runErr.AsAPICode = some "DryRunOperation"
        · simp [launchError, hd, wrapErr]
        · simp [createResult, hd] at h2
    · refine ⟨resp, rest, by simp, hk, fun hn => ?_⟩
      have h2 := (hno hn).2
      cases resp with
      | ok l =>
        simp only [createResult, Except.ok.injEq] at h2
        rw [h2] at hc
        exact absurd rfl hc
      | error runErr =>
        by_cases hd : runErr.AsAPICode = some "DryRunOperation"
        · simp only [createResult, hd, if_true, Except.ok.injEq] at h2
          rw [h2] at hc
          exact absurd rfl hc
        · simp [createResult, hd] at h2
  · obtain ⟨resp, rest, rfl, hk, hno⟩ := h
    refine sat_fail ⟨resp, rest, by simp, hk, fun hn => ⟨(hno hn).1, _, rfl, ?_⟩⟩
    have h2 := (hno hn).2
    cases resp with
    | ok l => simp [createResult] at h2
    | error runErr =>
      by_cases hd : runErr.AsAPICode = some "DryRunOperation"
      · simp [createResult, hd] at h2
      · simp only [createResult, hd, if_false, Except.error.injEq] at h2
        simp [launchError, hd, h2]

theorem launch_sat {σ : Type} (api : Env σ) (config : Config) (apiClient : TsClient)
    (key : String) (duration : Int) (cfg : AwsConfig) (runInput : RunInstancesInput) :
    Sat (Create.launch api config apiClient key duration cfg runInput) LaunchPost := by
  unfold Create.launch
  refine sat_bind_emit ?_
  refine sat_bind_wrap (checked_sat api cfg runInput) (fun inst evs1 h => ?_)
    (fun e evs1 h => ?_)
  · obtain ⟨resp, rest, rfl, hk, hno⟩ := h
    have hyes : ¬ NoInstance resp := fun hn => by
      obtain ⟨-, e, he, -⟩ := hno hn
      cases he
    have htail : Emits (do
        emit (.spinTitle "Installing Tailscale...")
        wrap "failed to install Tailscale: "
          (installTailScale api cfg key inst.Name inst.InstanceID)
        emit (.print "Tailscale installed.\n")
        let nodes ← wrap "failed to get devices: "
          (call (api.devicesList apiClient) (Event.devicesList apiClient))
        Create.found api config duration inst nodes) [Kind.install, Kind.other] := by
      refine emits_bind (emits_emit (by simp [Event.kind])) (fun _ => ?_)
      refine emits_bind (emits_wrap (installTailScale_emits api cfg _ _ _)) (fun _ => ?_)
      refine emits_bind (emits_emit (by simp [Event.kind])) (fun _ => ?_)
      refine emits_bind (emits_wrap (emits_call fun _ => by simp [Event.kind])) (fun _ => ?_)
      exact emits_mono (Create_found_emits api config duration inst _) (by simp)
    refine sat_mono htail ?_
    intro r evs2 h2
    have hkinds : ∀ e ∈ rest ++ evs2, e.kind ∈ [Kind.tagWait, Kind.install, Kind.other] := by
      intro e he
      rcases List.mem_append.1 he with h | h
      · have := hk e h
        simp only [List.mem_cons, List.mem_singleton, List.not_mem_nil, or_false] at this ⊢
        rcases this with h | h <;> simp [h]
      · have := h2 e h
        simp only [List.mem_cons, List.mem_singleton, List.not_mem_nil, or_false] at this ⊢
        rcases this with h | h <;> simp [h]
    constructor
    · intro e he
      simp only [List.mem_cons, List.cons_append] at he
      rcases he with rfl | rfl | he
      · simp [Event.kind]
      · simp [Event.kind]
      · have := hkinds e he
        simp only [List.mem_cons, List.mem_singleton, List.not_mem_nil, or_false] at this
        rcases this with h | h | h <;> simp [h]
    · intro cfg1 ri1 resp1 hmem hn
      simp only [List.mem_cons, List.cons_append] at hmem
      rcases hmem with hmem | hmem | hmem
      · cases hmem
      · cases hmem
        exact absurd hn hyes
      · have := hkinds _ hmem
        simp [Event.kind] at this
  · obtain ⟨resp, rest, rfl, hk, hno⟩ := h
    constructor
    · intro e0 he
      simp only [List.mem_cons] at he
      rcases he with rfl | rfl | he
      · simp [Event.kind]
      · simp [Event.kind]
      · have := hk e0 he
        simp only [List.mem_cons, List.mem_singleton, List.not_mem_nil, or_false] at this
        rcases this with h | h <;> simp [h]
    · intro cfg1 ri1 resp1 hmem hn
      simp only [List.mem_cons] at hmem
      rcases hmem with hmem | hmem | hmem
      · cases hmem
      · cases hmem
        obtain ⟨hother, e1, he1, hw⟩ := hno hn
        cases he1
        refine ⟨by rw [hw], fun e0 he0 => ?_⟩
        simp only [List.mem_cons] at he0
        rcases he0 with rfl | rfl | he0
        · simp [Event.kind]
        · simp [Event.kind]
        · simp [hother e0 he0]
      · have := hk _ hmem
        simp [Event.kind] at this

theorem createPost_of_other {r : Except GoError Unit} {evs : List Event}
    (h : ∀ e ∈ evs, e.kind = Kind.other) : CreatePost r evs := by
  constructor
  · intro q hq
    have := h _ hq
    simp [Event.kind] at this
  · intro cfg ri resp hmem
    have := h _ hmem
    simp [Event.kind] at this

theorem createPost_prepend {r : Except GoError Unit} {evs1 evs2 : List Event}
    (h1 : ∀ e ∈ evs1, e.kind = Kind.other) (h2 : CreatePost r evs2) :
    CreatePost r (evs1 ++ evs2) := by
  constructor
  · intro q hq
    rcases List.mem_append.1 hq with hq | hq
    · have := h1 _ hq
      simp [Event.kind] at this
    · refine ⟨(h2.1 q hq).1, fun e he => ?_⟩
      rcases List.mem_append.1 he with he | he
      · simp [h1 e he]
      · exact (h2.1 q hq).2 e he
  · intro cfg ri resp hmem hn
    rcases List.mem_append.1 hmem with hmem | hmem
    · have := h1 _ hmem
      simp [Event.kind] at this
    · refine ⟨(h2.2 cfg ri resp hmem hn).1, fun e he => ?_⟩
      rcases List.mem_append.1 he with he | he
      · simp [h1 e he]
      · exact (h2.2 cfg ri resp hmem hn).2 e he

theorem sat_bind_other {σ α : Type} {m : M σ α} {k : α → M σ Unit}
    (hm : Emits m [Kind.other]) (hk : ∀ a, Sat (k a) CreatePost) :
    Sat (m >>= k) CreatePost :=
  sat_bind hm
    (fun a evs1 h1 => sat_mono (hk a) (fun r evs2 h2 =>
      createPost_prepend (fun e he => by simpa using h1 e he) h2))
    (fun e evs1 h1 => createPost_of_other (fun e he => by simpa using h1 e he))

theorem prepared_sat {σ : Type} (api : Env σ) (config : Config) (apiClient : TsClient)
    (key : String) (duration : Int) (cfg : AwsConfig) (shutdownDuration : String) :
    Sat (M.handle (prepareInstance api cfg config.DryRun shutdownDuration)
      Create.prepareFailed (Create.prepared api config apiClient key duration cfg))
      CreatePost := by
  refine sat_handle (prepareInstance_sat api cfg config.DryRun shutdownDuration)
    (fun x evs1 h => ?_) (fun e evs1 h => ?_)
  · obtain ⟨hk, -, h3⟩ := h
    obtain ⟨⟨runInput, rfl⟩, hnoq⟩ := h3 x rfl
    simp only [Create.prepared]
    refine sat_mono (launch_sat api config apiClient key duration cfg runInput) ?_
    rintro r evs2 ⟨hl1, hl2⟩
    constructor
    · intro q hq
      rcases List.mem_append.1 hq with hq | hq
      · exact absurd hq (hnoq q)
      · exact absurd rfl (hl1 _ hq)
    · intro cfg1 ri1 resp1 hmem hn
      rcases List.mem_append.1 hmem with hmem | hmem
      · have := hk _ hmem
        simp [Event.kind] at this
      · refine ⟨(hl2 cfg1 ri1 resp1 hmem hn).1, fun e he => ?_⟩
        rcases List.mem_append.1 he with he | he
        · have := hk e he
          simp only [List.mem_cons, List.mem_singleton, List.not_mem_nil, or_false] at this
          rcases this with h | h <;> simp [h]
        · have := (hl2 cfg1 ri1 resp1 hmem hn).2 e he
          simp only [List.mem_cons, List.mem_singleton, List.not_mem_nil, or_false] at this
          rcases this with h | h <;> simp [h]
  · obtain ⟨hk, h2, -⟩ := h
    unfold Create.prepareFailed
    refine sat_ite (fun hc => sat_emit ?_) (fun hc => sat_fail ?_)
    · constructor
      · intro q _
        refine ⟨rfl, fun e0 he => ?_⟩
        rcases List.mem_append.1 he with he | he
        · exact hk e0 he
        · simp only [List.mem_singleton] at he
          subst he
          simp [Event.kind]
      · intro cfg1 ri1 resp1 hmem
        rcases List.mem_append.1 hmem with hmem | hmem
        · have := hk _ hmem
          simp [Event.kind] at this
        · simp at hmem
    · constructor
      · intro q hq
        simp only [List.append_nil] at hq
        have := h2 q hq
        simp only [Except.error.injEq] at this
        subst this
        exact absurd rfl hc
      · intro cfg1 ri1 resp1 hmem
        simp only [List.append_nil] at hmem
        have := hk _ hmem
        simp [Event.kind] at this

theorem Create_sat {σ : Type} (api : Env σ) (config : Config) :
    Sat (Create api config) CreatePost := by
  unfold Create
  cases api.urlParse config.BaseURL with
  | error err => exact sat_fail (createPost_of_other (by simp))
  | ok baseURL =>
    unfold Create.withClient
    refine sat_bind_other (emits_wrap (emits_call fun _ => by simp [Event.kind])) (fun key => ?_)
    unfold Create.withKey
    cases api.parseDuration config.Shutdown with
    | error err => exact sat_fail (createPost_of_other (by simp))
    | ok duration =>
      unfold Create.withDuration
      refine sat_ite (fun _ => sat_fail (createPost_of_other (by simp))) (fun _ => ?_)
      refine sat_bind_other (Create_region_emits api config) (fun region => ?_)
      refine sat_bind_other (emits_wrap (emits_call fun _ => by simp [Event.kind]))
        (fun cfg => ?_)
      exact prepared_sat api config _ key duration cfg _

/-! ## The confirmation gate, the dry run and the empty launch -/

/-- C6. In every run of `prepareInstance` in which the confirmation form answers "no", the
result is the sentinel `ErrUserAborted` itself; and in every run of `Create` in which the
form answers "no", `Create` returns `nil` and the log holds no launch, tag, readiness-wait,
describe or install call. -/
theorem Create_user_abort {σ : Type} (api : Env σ) (config : Config) (cfg : AwsConfig)
    (dryRun : Bool) (shutdownDuration : String) (s : σ) (q : String) :
    (Event.formConfirm q (.ok false)
        ∈ (prepareInstance api cfg dryRun shutdownDuration (World.init s)).2.log →
      (prepareInstance api cfg dryRun shutdownDuration (World.init s)).1
        = .error .userAborted)
    ∧ (Event.formConfirm q (.ok false) ∈ (Create api config (World.init s)).2.log →
      (Create api config (World.init s)).1 = .ok ()
      ∧ ∀ e ∈ (Create api config (World.init s)).2.log,
          e.kind ≠ Kind.launch ∧ e.kind ≠ Kind.tagWait ∧ e.kind ≠ Kind.install) := by
  constructor
  · intro h
    exact (sat_init (prepareInstance_sat api cfg dryRun shutdownDuration) s).2.1 q h
  · intro h
    obtain ⟨hr, hk⟩ := (sat_init (Create_sat api config) s).1 q h
    refine ⟨hr, fun e he => ?_⟩
    have := hk e he
    simp only [List.mem_cons, List.mem_singleton, List.not_mem_nil, or_false] at this
    rcases this with h | h <;> simp [h]

/-- C6, worked example: the user answers "no"; `Create` ends with `nil` after the listing of
images, the account lookup, the summary and the form. -/
theorem Create_user_abort_witness :
    (prepareInstance decliningEnv ⟨"us-east-1"⟩ false "10" (World.init ())).1
        = .error .userAborted
    ∧ (Create decliningEnv demoConfig (World.init ())).1 = .ok ()
    ∧ ∀ e ∈ (Create decliningEnv demoConfig (World.init ())).2.log,
        e.kind ≠ Kind.launch ∧ e.kind ≠ Kind.tagWait ∧ e.kind ≠ Kind.install :=
  ⟨(Create_user_abort decliningEnv demoConfig ⟨"us-east-1"⟩ false "10" ()
      "Do you want to create this instance?").1 (List.get?_mem (n := 3) rfl),
    (Create_user_abort decliningEnv demoConfig ⟨"us-east-1"⟩ false "10" ()
      "Do you want to create this instance?").2 (List.get?_mem (n := 5) rfl)⟩

/-- C7 as stated fails: a launch request with `dryRun = true` that the provider answers
with `UnauthorizedOperation` makes `createInstance` return an error, not the empty-instance
sentinel without error. -/
theorem createInstance_dry_run_unauthorized :
    (demoRunInput true).DryRun = true
    ∧ (createInstance (launchErrorEnv unauthorizedOperation) ⟨"us-east-1"⟩ (demoRunInput true)
        (World.init ())).1
      = .error (.wrap "failed to create EC2 instance: " unauthorizedOperation)
    ∧ (createInstance (launchErrorEnv unauthorizedOperation) ⟨"us-east-1"⟩ (demoRunInput true)
        (World.init ())).1 ≠ .ok Instance.zero := by
  refine ⟨rfl, rfl, ?_⟩
  intro h
  have h2 : (createInstance (launchErrorEnv unauthorizedOperation) ⟨"us-east-1"⟩
      (demoRunInput true) (World.init ())).1
      = .error (.wrap "failed to create EC2 instance: " unauthorizedOperation) := rfl
  rw [h2] at h
  cases h

/-- C7, amended. When the provider answers the launch request (in particular one with
`dryRun = true`) with an error, `createInstance` makes no tag-creation, readiness-wait or
describe-instances call: with the API error code `DryRunOperation` it prints the dry-run
message and returns the empty-instance sentinel without error, with any other error it
returns that error wrapped.  And in every run of `Create` in which a launch call was
answered with an error, the log holds no tag, readiness-wait, describe or install call:
`Create` never calls the installer. -/
theorem createInstance_launch_error {σ : Type} (api : Env σ) (cfg : AwsConfig)
    (runInput : RunInstancesInput) (s s1 : σ) (runErr : GoError) (config : Config) (s0 : σ) :
    (api.runInstances cfg runInput s = (.error runErr, s1) →
      (runErr.AsAPICode = some "DryRunOperation" →
        createInstance api cfg runInput (World.init s)
          = (.ok Instance.zero, ⟨s1, [Event.runInstances cfg runInput (.error runErr),
              Event.print "Dry run successful. Instance can be created.\n"]⟩))
      ∧ (runErr.AsAPICode ≠ some "DryRunOperation" →
        createInstance api cfg runInput (World.init s)
          = (.error (wrapErr "failed to create EC2 instance: " runErr),
              ⟨s1, [Event.runInstances cfg runInput (.error runErr)]⟩)))
    ∧ (Event.runInstances cfg runInput (.error runErr)
          ∈ (Create api config (World.init s0)).2.log →
      ∀ e ∈ (Create api config (World.init s0)).2.log,
          e.kind ≠ Kind.tagWait ∧ e.kind ≠ Kind.install) := by
  constructor
  · intro hr
    constructor
    · intro hd
      simp [createInstance, createInstance.launchFailed, bind, M.bind, M.handle, call, emit,
        pure, ret, World.init, hr, hd]
    · intro hd
      simp [createInstance, createInstance.launchFailed, M.handle, call, fail, World.init, hr,
        hd]
  · intro h
    obtain ⟨-, hk⟩ := (sat_init (Create_sat api config) s0).2 cfg runInput _ h
      (fun i rest hne => by cases hne)
    intro e he
    have := hk e he
    simp only [List.mem_cons, List.mem_singleton, List.not_mem_nil, or_false] at this
    rcases this with h | h | h <;> simp [h]

/-- C7, worked example: a dry run that would succeed.  `createInstance` returns the
sentinel (and, for `UnauthorizedOperation`, the wrapped error); `Create` never reaches the
installer. -/
theorem createInstance_launch_error_witness :
    createInstance (launchErrorEnv dryRunOperation) ⟨"us-east-1"⟩ (demoRunInput true)
        (World.init ())
      = (.ok Instance.zero,
          ⟨(), [Event.runInstances ⟨"us-east-1"⟩ (demoRunInput true) (.error dryRunOperation),
            Event.print "Dry run successful. Instance can be created.\n"]⟩)
    ∧ createInstance (launchErrorEnv unauthorizedOperation) ⟨"us-east-1"⟩ (demoRunInput true)
        (World.init ())
      = (.error (.wrap "failed to create EC2 instance: " unauthorizedOperation),
          ⟨(), [Event.runInstances ⟨"us-east-1"⟩ (demoRunInput true)
            (.error unauthorizedOperation)]⟩)
    ∧ ∀ e ∈ (Create (launchErrorEnv dryRunOperation) dryRunConfig (World.init ())).2.log,
        e.kind ≠ Kind.tagWait ∧ e.kind ≠ Kind.install :=
  ⟨((createInstance_launch_error (launchErrorEnv dryRunOperation) ⟨"us-east-1"⟩
      (demoRunInput true) () () dryRunOperation dryRunConfig ()).1 rfl).1 rfl,
    ((createInstance_launch_error (launchErrorEnv unauthorizedOperation) ⟨"us-east-1"⟩
      (demoRunInput true) () () unauthorizedOperation dryRunConfig ()).1 rfl).2 (by decide),
    (createInstance_launch_error (launchErrorEnv dryRunOperation) ⟨"us-east-1"⟩
      (demoRunInput true) () () dryRunOperation dryRunConfig ()).2
      (List.get?_mem (n := 7) rfl)⟩

/-! ## The remote installer -/

/-- Lines 422-426: the status test returns `nil` exactly on `Success`, and for every other
status an error whose message ends with the captured standard-error text (the empty text when
none was captured). -/
theorem installTailScale_check_reports {σ : Type} (invocation : CommandInvocation)
    (w : World σ) :
    ((installTailScale.check invocation w).1 = .ok () ↔ invocation.Status = "Success")
    ∧ (invocation.Status ≠ "Success" →
      (installTailScale.check invocation w).1
        = .error (.new ("SSM command failed with status: " ++ invocation.Status ++ ", output: "
            ++ invocation.StandardErrorContent.getD ""))) := by
  by_cases hst : invocation.Status = "Success"
  · simp [installTailScale.check, hst, pure, ret]
  · simp [installTailScale.check, hst, fail]

/-- The worlds `invocationEnv` keep the waiter's contract. -/
theorem invocationEnv_contract (invocation : CommandInvocation) :
    WaiterContract (invocationEnv invocation) := by
  intro cfg commandID instanceID maxWait s s1 inv s2 hwait hget
  simp only [invocationEnv, Prod.mk.injEq, Except.ok.injEq] at hwait hget
  obtain ⟨hw, -⟩ := hwait
  obtain ⟨rfl, -⟩ := hget
  by_contra hst
  simp only [commandExecutedWaiter, hst, if_false] at hw
  split at hw <;> exact absurd hw (by simp)

/-- An error behind `wrapErr` is a panic or carries the prefix. -/
theorem wrapErr_cases (pfx : String) (e : GoError) :
    (∃ msg, wrapErr pfx e = .panic msg) ∨ wrapErr pfx e = .wrap pfx e := by
  cases e <;> simp [wrapErr]

/-- Under the waiter's contract the status test of lines 422-424 never fails: every error of
`installTailScale` is a panic or one of the three wrapped call errors, none of which carries
the standard-error text of the invocation. -/
theorem installTailScale_errors {σ : Type} (api : Env σ) (hapi : WaiterContract api)
    (cfg : AwsConfig) (key nodeName instanceID : String) (w : World σ) (e : GoError)
    (he : (installTailScale api cfg key nodeName instanceID w).1 = .error e) :
    (∃ msg, e = .panic msg) ∨ ∃ pfx inner, e = .wrap pfx inner
      ∧ pfx ∈ ["failed to send SSM command: ", "failed to wait for SSM command execution: ",
          "failed to get SSM command invocation: "] := by
  rcases hs : api.sendCommand cfg
    ⟨[instanceID], "AWS-RunShellScript", installTailScale.commands key nodeName⟩ w.env
    with ⟨r1, s1⟩
  cases r1 with
  | error e1 =>
    have hrun : (installTailScale api cfg key nodeName instanceID w).1
        = .error (wrapErr "failed to send SSM command: " e1) := by
      simp [installTailScale, bind, M.bind, M.handle, wrap, call, emit, ret, fail, hs]
    rw [hrun] at he
    injection he with he
    subst he
    rcases wrapErr_cases "failed to send SSM command: " e1 with h | h
    · exact .inl h
    · exact .inr ⟨_, _, h, by simp⟩
  | ok commandID =>
    rcases hw : api.waitCommandExecuted cfg commandID instanceID (5 * Minute) s1
      with ⟨r2, s2⟩
    cases r2 with
    | error e2 =>
      have hrun : (installTailScale api cfg key nodeName instanceID w).1
          = .error (wrapErr "failed to wait for SSM command execution: " e2) := by
        simp [installTailScale, bind, M.bind, M.handle, wrap, call, emit, ret, fail, hs, hw]
      rw [hrun] at he
      injection he with he
      subst he
      rcases wrapErr_cases "failed to wait for SSM command execution: " e2 with h | h
      · exact .inl h
      · exact .inr ⟨_, _, h, by simp⟩
    | ok u =>
      rcases hg : api.getCommandInvocation cfg commandID instanceID s2 with ⟨r3, s3⟩
      cases r3 with
      | error e3 =>
        have hrun : (installTailScale api cfg key nodeName instanceID w).1
            = .error (wrapErr "failed to get SSM command invocation: " e3) := by
          simp [installTailScale, bind, M.bind, M.handle, wrap, call, emit, ret, fail, hs, hw,
            hg]
        rw [hrun] at he
        injection he with he
        subst he
        rcases wrapErr_cases "failed to get SSM command invocation: " e3 with h | h
        · exact .inl h
        · exact .inr ⟨_, _, h, by simp⟩
      | ok invocation =>
        have hst : invocation.Status = "Success" := hapi _ _ _ _ _ _ _ _ hw hg
        have hrun : (installTailScale api cfg key nodeName instanceID w).1 = .ok () := by
          simp [installTailScale, installTailScale.check, bind, M.bind, M.handle, wrap, call,
            emit, ret, fail, pure, hs, hw, hg, hst]
        rw [hrun] at he
        exact absurd he (by simp)

/-- In the world of an invocation at rest, `installTailScale` returns `nil` exactly when the
status is `Success`; for every other status it returns the waiter's error behind the prefix
`failed to wait for SSM command execution: `, and the log ends at the waiter call: the
invocation is not read. -/
theorem installTailScale_at_rest (invocation : CommandInvocation) (cfg : AwsConfig)
    (key nodeName instanceID : String) :
    ((installTailScale (invocationEnv invocation) cfg key nodeName instanceID
        (World.init ())).1 = .ok () ↔ invocation.Status = "Success")
    ∧ (invocation.Status ≠ "Success" →
      ∃ e, commandExecutedWaiter invocation.Status = .error e
        ∧ installTailScale (invocationEnv invocation) cfg key nodeName instanceID
            (World.init ())
          = (.error (.wrap "failed to wait for SSM command execution: " e),
            ⟨(), [Event.spinTitle "Installing Tailscale...",
              Event.sendCommand cfg
                ⟨[instanceID], "AWS-RunShellScript", installTailScale.commands key nodeName⟩
                (.ok "cmd-1"),
              Event.waitCommandExecuted cfg "cmd-1" instanceID (5 * Minute) (.error e)]⟩)) := by
  by_cases hst : invocation.Status = "Success"
  · simp [installTailScale, installTailScale.check, invocationEnv, demoEnv,
      commandExecutedWaiter, bind, M.bind, M.handle, wrap, call, emit, ret, fail, pure,
      World.init, hst]
  · by_cases hfail : invocation.Status ∈ ["Cancelled", "TimedOut", "Failed", "Cancelling"]
    · refine ⟨?_, fun _ => ⟨.new "waiter state transitioned to Failure", ?_, ?_⟩⟩
      · simp [installTailScale, installTailScale.check, invocationEnv, demoEnv,
          commandExecutedWaiter, bind, M.bind, M.handle, wrap, call, emit, ret, fail, pure,
          World.init, hst, hfail]
      · simp [commandExecutedWaiter, hst, hfail]
      · simp [installTailScale, installTailScale.check, invocationEnv, demoEnv,
          commandExecutedWaiter, bind, M.bind, M.handle, wrap, wrapErr, call, emit, ret, fail,
          pure, World.init, hst, hfail]
    · refine ⟨?_, fun _ =>
        ⟨.new "exceeded max wait time for CommandExecuted waiter", ?_, ?_⟩⟩
      · simp [installTailScale, installTailScale.check, invocationEnv, demoEnv,
          commandExecutedWaiter, bind, M.bind, M.handle, wrap, call, emit, ret, fail, pure,
          World.init, hst, hfail]
      · simp [commandExecutedWaiter, hst, hfail]
      · simp [installTailScale, installTailScale.check, invocationEnv, demoEnv,
          commandExecutedWaiter, bind, M.bind, M.handle, wrap, wrapErr, call, emit, ret, fail,
          pure, World.init, hst, hfail]

/-- C8, the defect. When the command comes to rest with status `Failed` and standard error
`permission denied`, `installTailScale` returns at the failed wait (lines 410-412): its error
reads `failed to wait for SSM command execution: waiter state transitioned to Failure`, which
does not contain `permission denied`, and the invocation is never read, so the status test of
lines 422-424 that would report the standard-error text is not reached. -/
theorem installTailScale_failed_hides_stderr :
    (installTailScale (invocationEnv failedInvocation) ⟨"us-east-1"⟩ "tskey"
        "tailout-us-east-1-i-0abc" "i-0abc" (World.init ())).1
      = .error (.wrap "failed to wait for SSM command execution: "
          (.new "waiter state transitioned to Failure"))
    ∧ (GoError.wrap "failed to wait for SSM command execution: "
          (.new "waiter state transitioned to Failure")).Error
      = "failed to wait for SSM command execution: waiter state transitioned to Failure"
    ∧ ¬ ContainsText
        "failed to wait for SSM command execution: waiter state transitioned to Failure"
        "permission denied"
    ∧ (installTailScale (invocationEnv failedInvocation) ⟨"us-east-1"⟩ "tskey"
        "tailout-us-east-1-i-0abc" "i-0abc" (World.init ())).2.log
      = [Event.spinTitle "Installing Tailscale...",
          Event.sendCommand ⟨"us-east-1"⟩
            ⟨["i-0abc"], "AWS-RunShellScript",
              installTailScale.commands "tskey" "tailout-us-east-1-i-0abc"⟩ (.ok "cmd-1"),
          Event.waitCommandExecuted ⟨"us-east-1"⟩ "cmd-1" "i-0abc" (5 * Minute)
            (.error (.new "waiter state transitioned to Failure"))]
    ∧ (installTailScale.check failedInvocation (World.init ())).1
      = .error (.new "SSM command failed with status: Failed, output: permission denied") := by
  refine ⟨rfl, rfl, by decide, rfl, rfl⟩

/-! ## The empty launch -/

/-- C9 as stated fails: on a launch that succeeds with zero instances `createInstance`
returns the empty instance with a `nil` error, a successful result. -/
theorem createInstance_zero_instances_succeeds :
    (createInstance emptyLaunchEnv ⟨"us-east-1"⟩ (demoRunInput false) (World.init ())).1
      = .ok Instance.zero := rfl

/-- C9, amended. On a launch that succeeds with zero instances `createInstance` prints
`No instances created.` and returns the empty instance without error, making no tag,
readiness-wait or describe call; and in every run of `Create` in which a launch call was
answered so, `Create` returns the error
`failed to create instance: instance creation aborted` and the log holds no tag,
readiness-wait, describe or install call. -/
theorem createInstance_zero_instances {σ : Type} (api : Env σ) (cfg : AwsConfig)
    (runInput : RunInstancesInput) (s s1 : σ) (config : Config) (s0 : σ) :
    (api.runInstances cfg runInput s = (.ok [], s1) →
      createInstance api cfg runInput (World.init s)
        = (.ok Instance.zero, ⟨s1, [Event.runInstances cfg runInput (.ok []),
            Event.print "No instances created.\n"]⟩))
    ∧ (Event.runInstances cfg runInput (.ok []) ∈ (Create api config (World.init s0)).2.log →
      (Create api config (World.init s0)).1
        = .error (.wrap "failed to create instance: " (.new "instance creation aborted"))
      ∧ ∀ e ∈ (Create api config (World.init s0)).2.log,
          e.kind ≠ Kind.tagWait ∧ e.kind ≠ Kind.install) := by
  constructor
  · intro hr
    simp [createInstance, createInstance.launched, bind, M.bind, M.handle, call, emit, pure,
      ret, World.init, hr]
  · intro h
    obtain ⟨hres, hk⟩ := (sat_init (Create_sat api config) s0).2 cfg runInput _ h
      (fun i rest hne => by cases hne)
    refine ⟨hres, fun e he => ?_⟩
    have := hk e he
    simp only [List.mem_cons, List.mem_singleton, List.not_mem_nil, or_false] at this
    rcases this with h | h | h <;> simp [h]

/-- C9, worked example: the provider launches nothing. -/
theorem createInstance_zero_instances_witness :
    createInstance emptyLaunchEnv ⟨"us-east-1"⟩ (demoRunInput false) (World.init ())
      = (.ok Instance.zero,
          ⟨(), [Event.runInstances ⟨"us-east-1"⟩ (demoRunInput false) (.ok []),
            Event.print "No instances created.\n"]⟩)
    ∧ (Create emptyLaunchEnv demoConfig (World.init ())).1
        = .error (.wrap "failed to create instance: " (.new "instance creation aborted"))
    ∧ ∀ e ∈ (Create emptyLaunchEnv demoConfig (World.init ())).2.log,
        e.kind ≠ Kind.tagWait ∧ e.kind ≠ Kind.install :=
  ⟨(createInstance_zero_instances emptyLaunchEnv ⟨"us-east-1"⟩ (demoRunInput false) () ()
      demoConfig ()).1 rfl,
    (createInstance_zero_instances emptyLaunchEnv ⟨"us-east-1"⟩ (demoRunInput false) () ()
      demoConfig ()).2 (List.get?_mem (n := 7) rfl)⟩

/-! ## The node name -/

theorem append_cons_inj_of_not_mem {α : Type} {c : α} :
    ∀ {x y a b : List α}, c ∉ a → c ∉ b → x ++ c :: a = y ++ c :: b → x = y ∧ a = b
  | [], [], a, b, _, _, h => by simpa using h
  | [], d :: y, a, b, ha, _, h => by
    simp only [List.nil_append, List.cons_append, List.cons.injEq] at h
    exact absurd (h.2 ▸ List.mem_append_right y (List.mem_cons_self c b)) ha
  | d :: x, [], a, b, _, hb, h => by
    simp only [List.nil_append, List.cons_append, List.cons.injEq] at h
    exact absurd (h.2 ▸ List.mem_append_right x (List.mem_cons_self c a)) hb
  | d :: x, e :: y, a, b, ha, hb, h => by
    simp only [List.cons_append, List.cons.injEq] at h
    obtain ⟨h1, h2⟩ := append_cons_inj_of_not_mem ha hb h.2
    exact ⟨by rw [h.1, h1], h2⟩

/-- C10 as stated fails: the regions `us-east-1` and `us-east` with the instance ids
`i-0abc` and `1-i-0abc` give the same node name. -/
theorem nodeName_not_injective :
    createInstance.nodeName "us-east-1" "i-0abc" = createInstance.nodeName "us-east" "1-i-0abc"
    ∧ ("us-east-1", "i-0abc") ≠ ("us-east", "1-i-0abc") := by
  decide

/-- C10, amended. The node name is a function of region and instance id, and it determines
both whenever the instance ids have the provider's shape, `i-` followed by characters other
than `-`: equal names then imply equal regions and equal ids. -/
theorem nodeName_injective (region1 region2 hex1 hex2 : String)
    (h1 : '-' ∉ hex1.data) (h2 : '-' ∉ hex2.data)
    (h : createInstance.nodeName region1 ("i-" ++ hex1)
      = createInstance.nodeName region2 ("i-" ++ hex2)) :
    region1 = region2 ∧ "i-" ++ hex1 = "i-" ++ hex2 := by
  have hd := congrArg String.data h
  simp only [createInstance.nodeName, String.data_append] at hd
  have hd2 : (region1.data ++ ['-', 'i']) ++ '-' :: hex1.data
      = (region2.data ++ ['-', 'i']) ++ '-' :: hex2.data := by
    have := List.append_cancel_left
      (by simpa [List.append_assoc] using hd :
        "tailout-".data ++ ((region1.data ++ ['-', 'i']) ++ '-' :: hex1.data)
          = "tailout-".data ++ ((region2.data ++ ['-', 'i']) ++ '-' :: hex2.data))
    exact this
  obtain ⟨hr, hh⟩ := append_cons_inj_of_not_mem h1 h2 hd2
  have hr2 : region1.data = region2.data := List.append_cancel_right hr
  have e1 : region1 = region2 := String.ext hr2
  have e2 : hex1 = hex2 := String.ext hh
  exact ⟨e1, by rw [e2]⟩

/-- C10, worked example: two ids of the provider's shape in one region. -/
theorem nodeName_injective_witness :
    createInstance.nodeName "us-east-1" ("i-" ++ "0abc")
      = createInstance.nodeName "us-east-1" ("i-" ++ "0abc")
    ∧ ("us-east-1" = "us-east-1" ∧ "i-" ++ "0abc" = "i-" ++ "0abc") :=
  ⟨rfl, nodeName_injective "us-east-1" "us-east-1" "0abc" "0abc" (by decide) (by decide) rfl⟩

/-! ## `float64` rounding and `Duration.Minutes` -/

theorem bitLengthAux_spec : ∀ (fuel n : Nat), n ≤ fuel → 0 < n →
    0 < bitLengthAux fuel n ∧ 2 ^ (bitLengthAux fuel n - 1) ≤ n ∧ n < 2 ^ bitLengthAux fuel n
  | 0, n, h1, h2 => by omega
  | fuel + 1, n, h1, h2 => by
    have hn : n ≠ 0 := by omega
    simp only [bitLengthAux, hn, if_false]
    by_cases h : n / 2 = 0
    · have h1 : n = 1 := by omega
      subst h1
      have h0 : bitLengthAux fuel (1 / 2) = 0 := by cases fuel <;> simp [bitLengthAux]
      simp [h0]
    · obtain ⟨h3, h4, h5⟩ := bitLengthAux_spec fuel (n / 2) (by omega) (by omega)
      refine ⟨by omega, ?_, ?_⟩
      · have e : bitLengthAux fuel (n / 2) + 1 - 1 = (bitLengthAux fuel (n / 2) - 1) + 1 := by
          omega
        rw [e, pow_succ]
        omega
      · rw [pow_succ]
        omega

theorem log2Floor_spec (n : Nat) (h : 0 < n) :
    2 ^ log2Floor n ≤ n ∧ n < 2 ^ (log2Floor n + 1) := by
  obtain ⟨h1, h2, h3⟩ := bitLengthAux_spec n n (le_refl n) h
  unfold log2Floor
  have e : bitLengthAux n n - 1 + 1 = bitLengthAux n n := by omega
  rw [e]
  exact ⟨h2, h3⟩

theorem roundNearestEven_spec (n d : Nat) (hd : 0 < d) :
    n / d ≤ roundNearestEven n d
    ∧ 2 * (roundNearestEven n d * d) ≤ 2 * n + d
    ∧ 2 * n ≤ 2 * (roundNearestEven n d * d) + d := by
  have h1 : d * (n / d) + n % d = n := Nat.div_add_mod n d
  have h2 : n % d < d := Nat.mod_lt n hd
  have h3 : n / d * d = d * (n / d) := Nat.mul_comm _ _
  have h4 : (n / d + 1) * d = d * (n / d) + d := by rw [Nat.add_mul, h3, Nat.one_mul]
  unfold roundNearestEven
  split
  · rw [h3]; omega
  · split
    · rw [h4]; omega
    · split
      · rw [h3]; omega
      · rw [h4]; omega

theorem scaled_succ (a d : Nat) (k : Int) :
    ((F64.scaled a d (k + 1)).1 = 2 * (F64.scaled a d k).1
      ∧ (F64.scaled a d (k + 1)).2 = (F64.scaled a d k).2)
    ∨ ((F64.scaled a d (k + 1)).1 = (F64.scaled a d k).1
      ∧ (F64.scaled a d k).2 = 2 * (F64.scaled a d (k + 1)).2) := by
  unfold F64.scaled
  by_cases h : 0 ≤ k
  · left
    have h1 : 0 ≤ k + 1 := by omega
    have e : (k + 1).toNat = k.toNat + 1 := by omega
    simp only [h, h1, if_true, e, pow_succ]
    exact ⟨by ring, trivial⟩
  · right
    by_cases h1 : 0 ≤ k + 1
    · have e : k = -1 := by omega
      subst e
      simp [Nat.mul_comm]
    · have e : (-k).toNat = (-(k + 1)).toNat + 1 := by omega
      simp only [h, h1, if_false, e, pow_succ]
      exact ⟨trivial, by ring⟩

theorem scaled_k0 (a d : Nat) (ha : 0 < a) (hd : 0 < d) :
    2 ^ 51 * (F64.scaled a d (52 - (log2Floor a : Int) + (log2Floor d : Int))).2
      < (F64.scaled a d (52 - (log2Floor a : Int) + (log2Floor d : Int))).1
    ∧ (F64.scaled a d (52 - (log2Floor a : Int) + (log2Floor d : Int))).1
      < 2 ^ 53 * (F64.scaled a d (52 - (log2Floor a : Int) + (log2Floor d : Int))).2 := by
  obtain ⟨ha1, ha2⟩ := log2Floor_spec a ha
  obtain ⟨hd1, hd2⟩ := log2Floor_spec d hd
  generalize log2Floor a = E at ha1 ha2 ⊢
  generalize log2Floor d = F at hd1 hd2 ⊢
  rw [pow_succ] at ha2 hd2
  unfold F64.scaled
  by_cases h : 0 ≤ (52 - (E : Int) + (F : Int))
  · simp only [h, if_true]
    obtain ⟨j, hj⟩ : ∃ j : Nat, (52 - (E : Int) + (F : Int)).toNat = j := ⟨_, rfl⟩
    have hjE : j + E = 52 + F := by omega
    rw [hj]
    have hp : 2 ^ j * 2 ^ E = 2 ^ 52 * 2 ^ F := by rw [← pow_add, ← pow_add, hjE]
    have hJ : 0 < 2 ^ j := Nat.two_pow_pos j
    generalize 2 ^ j = J at hp hJ
    generalize 2 ^ E = A at hp ha1 ha2
    generalize 2 ^ F = B at hp hd1 hd2
    constructor <;> nlinarith
  · simp only [h, if_false]
    obtain ⟨j, hj⟩ : ∃ j : Nat, (-(52 - (E : Int) + (F : Int))).toNat = j := ⟨_, rfl⟩
    have hjE : E = j + 52 + F := by omega
    rw [hj]
    have hp : 2 ^ E = 2 ^ j * 2 ^ 52 * 2 ^ F := by rw [← pow_add, ← pow_add, hjE]
    have hJ : 0 < 2 ^ j := Nat.two_pow_pos j
    generalize 2 ^ j = J at hp hJ
    generalize 2 ^ E = A at hp ha1 ha2
    generalize 2 ^ F = B at hp hd1 hd2
    constructor <;> nlinarith

theorem scaled_snd_pos (a d : Nat) (k : Int) (hd : 0 < d) : 0 < (F64.scaled a d k).2 := by
  unfold F64.scaled
  split
  · exact hd
  · exact Nat.mul_pos hd (Nat.two_pow_pos _)

theorem round_pos_spec (num den : Nat) (hn : 0 < num) (hd : 0 < den) :
    ∃ (k : Int) (m : Nat), F64.round (num : Int) den = ⟨(m : Int), -k⟩
      ∧ Rounded (F64.scaled num den k).1 (F64.scaled num den k).2 m := by
  have hne : (num : Int) ≠ 0 := by omega
  have hsign : Int.sign (num : Int) = 1 := Int.sign_eq_one_of_pos (by omega)
  obtain ⟨hlo, hhi⟩ := scaled_k0 num den hn hd
  unfold F64.round
  simp only [hne, if_false, Int.natAbs_ofNat, hsign, one_mul]
  generalize 52 - (log2Floor num : Int) + (log2Floor den : Int) = k0 at hlo hhi ⊢
  have hD0 := scaled_snd_pos num den k0 hd
  by_cases ht : (F64.scaled num den k0).1 / (F64.scaled num den k0).2 < 2 ^ 52
  · simp only [ht, if_true]
    have hlt : (F64.scaled num den k0).1 < 2 ^ 52 * (F64.scaled num den k0).2 :=
      (Nat.div_lt_iff_lt_mul hD0).1 ht
    have hD1 := scaled_snd_pos num den (k0 + 1) hd
    obtain ⟨-, h2, h3⟩ := roundNearestEven_spec (F64.scaled num den (k0 + 1)).1
      (F64.scaled num den (k0 + 1)).2 hD1
    refine ⟨k0 + 1, _, rfl, hD1, ?_, ?_, h2, h3⟩
    · rcases scaled_succ num den k0 with ⟨e1, e2⟩ | ⟨e1, e2⟩
      · rw [e1, e2]; omega
      · rw [e1]; rw [e2] at hlo; omega
    · rcases scaled_succ num den k0 with ⟨e1, e2⟩ | ⟨e1, e2⟩
      · rw [e1, e2]; omega
      · rw [e1]; rw [e2] at hlt; omega
  · simp only [ht, if_false]
    have hge : 2 ^ 52 * (F64.scaled num den k0).2 ≤ (F64.scaled num den k0).1 := by
      have := (Nat.div_lt_iff_lt_mul hD0).not.1 ht
      omega
    obtain ⟨-, h2, h3⟩ := roundNearestEven_spec (F64.scaled num den k0).1
      (F64.scaled num den k0).2 hD0
    exact ⟨k0, _, rfl, hD0, hge, hhi, h2, h3⟩

theorem toFrac_snd_pos (x : F64) : 0 < x.toFrac.2 := by
  unfold F64.toFrac
  split
  · exact Nat.one_pos
  · exact Nat.two_pow_pos _

/-- The result of rounding a positive fraction, in a uniform shape: the value is
`m * Q / P` for powers of two `P`, `Q`, one of which is `1`. -/
theorem round_pos_frac (num den : Nat) (hn : 0 < num) (hd : 0 < den) :
    ∃ (m p q : Nat), (F64.round (num : Int) den).toFrac = (((m * 2 ^ q : Nat) : Int), 2 ^ p)
      ∧ Rounded (num * 2 ^ p) (den * 2 ^ q) m ∧ (p = 0 ∨ q = 0) := by
  obtain ⟨k, m, hr, hR⟩ := round_pos_spec num den hn hd
  rw [hr]
  unfold F64.toFrac F64.scaled at *
  by_cases hk : 0 ≤ k
  · simp only [hk, if_true] at hR
    by_cases hk0 : 0 ≤ -k
    · have e : k = 0 := by omega
      subst e
      refine ⟨m, 0, 0, ?_, by simpa using hR, Or.inl rfl⟩
      simp
    · refine ⟨m, k.toNat, 0, ?_, by simpa using hR, Or.inr rfl⟩
      simp only [hk0, if_false, neg_neg]
      simp
  · have hk0 : 0 ≤ -k := by omega
    simp only [hk, if_false] at hR
    refine ⟨m, 0, (-k).toNat, ?_, by simpa using hR, Or.inl rfl⟩
    simp only [hk0, if_true]
    simp

theorem round_ge_one (num den : Nat) (hd : 0 < den) (h : den ≤ num) :
    ((F64.round (num : Int) den).toFrac.2 : Int) ≤ (F64.round (num : Int) den).toFrac.1 := by
  obtain ⟨m, p, q, ht, ⟨hD, h1, -, -, h4⟩, hpq⟩ := round_pos_frac num den (by omega) hd
  rw [ht]
  show ((2 ^ p : Nat) : Int) ≤ ((m * 2 ^ q : Nat) : Int)
  norm_cast
  have hP : 0 < 2 ^ p := Nat.two_pow_pos p
  have hQ : 0 < 2 ^ q := Nat.two_pow_pos q
  rcases hpq with rfl | rfl
  · simp only [pow_zero, mul_one] at h1 h4 ⊢
    generalize 2 ^ q = Q at *
    have hm : 0 < m := by
      rcases Nat.eq_zero_or_pos m with h0 | h0
      · subst h0
        simp only [zero_mul, mul_zero, zero_add] at h4
        omega
      · exact h0
    exact Nat.mul_pos hm hQ
  · simp only [pow_zero, mul_one] at h1 h4 ⊢
    generalize 2 ^ p = P at *
    have h5 : den * (2 * P) ≤ den * (2 * m + 1) := by nlinarith
    have h6 := Nat.le_of_mul_le_mul_left h5 hd
    omega

theorem toFrac_fst_nonpos (x : F64) (h : x.mant ≤ 0) : x.toFrac.1 ≤ 0 := by
  unfold F64.toFrac
  split
  · exact mul_nonpos_of_nonpos_of_nonneg h (by positivity)
  · exact h

theorem round_nonpos (num : Int) (den : Nat) (h : num ≤ 0) :
    (F64.round num den).toFrac.1 ≤ 0 := by
  apply toFrac_fst_nonpos
  unfold F64.round
  by_cases h0 : num = 0
  · simp [h0]
  · have hs : Int.sign num = -1 := Int.sign_eq_neg_one_of_neg (by omega)
    simp only [h0, if_false, hs]
    simp

theorem ofInt_exact (n : Nat) (h : n < 2 ^ 53) :
    ∃ p : Nat, (F64.ofInt (n : Int)).toFrac = (((n * 2 ^ p : Nat) : Int), 2 ^ p) := by
  unfold F64.ofInt
  rcases Nat.eq_zero_or_pos n with h0 | h0
  · subst h0
    exact ⟨0, by simp [F64.round, F64.toFrac]⟩
  · obtain ⟨m, p, q, ht, ⟨hD, h1, h2, h3, h4⟩, hpq⟩ := round_pos_frac n 1 h0 Nat.one_pos
    have hq : q = 0 := by
      rcases hpq with rfl | rfl
      · simp only [pow_zero, mul_one, one_mul] at h1 h2
        rcases Nat.eq_zero_or_pos q with hq | hq
        · exact hq
        · have : 2 ^ 1 ≤ 2 ^ q := Nat.pow_le_pow_right (by decide) hq
          omega
      · rfl
    subst hq
    simp only [pow_zero, mul_one, one_mul] at h3 h4 ht
    refine ⟨p, ?_⟩
    rw [ht]
    have : m = n * 2 ^ p := by omega
    rw [this]

theorem two_pow_bound (P Pf : Nat) (hP : 2 ^ 35 ≤ P) (hPf : 2 ^ 53 ≤ Pf) :
    60000000000 * P + 60000000000 * Pf < 2 * (P * Pf) := by
  have h1 : 2 ^ 35 * Pf ≤ P * Pf := Nat.mul_le_mul_right Pf hP
  have h2 : P * 2 ^ 53 ≤ P * Pf := Nat.mul_le_mul_left P hPf
  omega

/-- The fraction `float64(r) / (60 * 1e9)` of `Duration.Minutes`, for `0 ≤ r < 60e9`: it is
`mf / 2 ^ pf`, and so far below `1` that adding it to a whole number below `2 ^ 18` and
rounding cannot reach the next whole number. -/
theorem frac_spec (r : Nat) (hr : r < 60000000000) :
    ∃ mf pf : Nat,
      (F64.div (F64.ofInt (r : Int)) (F64.ofInt (60 * 1000000000))).toFrac = ((mf : Int), 2 ^ pf)
      ∧ ∀ P : Nat, 2 ^ 35 ≤ P → 2 * (mf * P) + 2 ^ pf < 2 * (P * 2 ^ pf) := by
  obtain ⟨pr, hpr⟩ := ofInt_exact r (by omega)
  obtain ⟨py, hpy⟩ := ofInt_exact 60000000000 (by decide)
  have e60 : ((60000000000 : Nat) : Int) = 60 * 1000000000 := by norm_num
  rw [e60] at hpy
  unfold F64.div
  rw [hpr, hpy]
  have hC : 0 < 2 ^ pr * 2 ^ py := Nat.mul_pos (Nat.two_pow_pos _) (Nat.two_pow_pos _)
  have hnum : ((r * 2 ^ pr : Nat) : Int) * ((2 ^ py : Nat) : Int)
      * Int.sign ((60000000000 * 2 ^ py : Nat) : Int) = ((r * (2 ^ pr * 2 ^ py) : Nat) : Int) := by
    have hpos : (0 : Int) < ((60000000000 * 2 ^ py : Nat) : Int) := by
      have := Nat.mul_pos (by decide : 0 < 60000000000) (Nat.two_pow_pos py)
      exact_mod_cast this
    rw [Int.sign_eq_one_of_pos hpos]
    push_cast
    ring
  have hden : 2 ^ pr * Int.natAbs ((60000000000 * 2 ^ py : Nat) : Int)
      = 60000000000 * (2 ^ pr * 2 ^ py) := by
    rw [Int.natAbs_ofNat]
    ring
  simp only [hnum, hden]
  generalize 2 ^ pr * 2 ^ py = C at hC
  rcases Nat.eq_zero_or_pos r with h0 | h0
  · subst h0
    refine ⟨0, 0, by simp [F64.round, F64.toFrac], fun P hP => ?_⟩
    simp
    omega
  · obtain ⟨m, p, q, ht, ⟨hD, h1, -, h3, -⟩, hpq⟩ := round_pos_frac (r * C)
      (60000000000 * C) (Nat.mul_pos h0 hC) (Nat.mul_pos (by decide) hC)
    have hlt : 2 ^ (52 + q) < 2 ^ p := by
      rw [pow_add]
      have hCq : 0 < C * 2 ^ q := Nat.mul_pos hC (Nat.two_pow_pos q)
      have h5 : 2 ^ 52 * (60000000000 * C * 2 ^ q) < 60000000000 * C * 2 ^ p := by
        have : r * C * 2 ^ p < 60000000000 * C * 2 ^ p :=
          Nat.mul_lt_mul_of_pos_right (Nat.mul_lt_mul_of_pos_right hr hC) (Nat.two_pow_pos p)
        omega
      have h6 : 60000000000 * C * (2 ^ 52 * 2 ^ q) < 60000000000 * C * 2 ^ p := by
        calc 60000000000 * C * (2 ^ 52 * 2 ^ q) = 2 ^ 52 * (60000000000 * C * 2 ^ q) := by ring
          _ < 60000000000 * C * 2 ^ p := h5
      exact Nat.lt_of_mul_lt_mul_left h6
    have hpq2 : 52 + q < p := (Nat.pow_lt_pow_iff_right (by decide)).1 hlt
    have hq : q = 0 := by omega
    subst hq
    have hp53 : 2 ^ 53 ≤ 2 ^ p := Nat.pow_le_pow_right (by decide) (by omega)
    simp only [pow_zero, mul_one] at ht h3
    refine ⟨m, p, ht, fun P hP => ?_⟩
    have h7 : C * (2 * (m * 60000000000)) ≤ C * (2 * (r * 2 ^ p) + 60000000000) := by
      calc C * (2 * (m * 60000000000)) = 2 * (m * (60000000000 * C)) := by ring
        _ ≤ 2 * (r * C * 2 ^ p) + 60000000000 * C := h3
        _ = C * (2 * (r * 2 ^ p) + 60000000000) := by ring
    have h8 : 2 * (m * 60000000000) ≤ 2 * (r * 2 ^ p) + 60000000000 :=
      Nat.le_of_mul_le_mul_left h7 hC
    have h9 := two_pow_bound P (2 ^ p) hP hp53
    generalize 2 ^ p = Pf at *
    have h10 : r * Pf ≤ 59999999999 * Pf := Nat.mul_le_mul_right Pf (by omega)
    have h11 : 60000000000 * (2 * (m * P) + Pf) < 60000000000 * (2 * (P * Pf)) := by
      have e1 : 60000000000 * (2 * (m * P) + Pf)
          = 2 * (m * 60000000000) * P + 60000000000 * Pf := by ring
      have h12 : 2 * (m * 60000000000) * P ≤ (2 * (r * Pf) + 60000000000) * P :=
        Nat.mul_le_mul_right P h8
      have h13 : (2 * (r * Pf) + 60000000000) * P
          ≤ (2 * (59999999999 * Pf) + 60000000000) * P :=
        Nat.mul_le_mul_right P (by omega)
      have e2 : (2 * (59999999999 * Pf) + 60000000000) * P
          = 119999999998 * (P * Pf) + 60000000000 * P := by ring
      have e3 : 60000000000 * (2 * (P * Pf)) = 120000000000 * (P * Pf) := by ring
      rw [e1, e3]
      rw [e2] at h13
      omega
    exact Nat.lt_of_mul_lt_mul_left h11

theorem minute_eq : Minute = ((60000000000 : Nat) : Int) := by decide

/-- For a duration of `n ≥ 0` nanoseconds below `2 ^ 18` minutes, `int(d.Minutes())` is the
whole number of minutes. -/
theorem minutes_trunc_nat (n : Nat) (hq : n / 60000000000 < 2 ^ 18) :
    (Duration.Minutes (n : Int)).toInt = ((n / 60000000000 : Nat) : Int) := by
  unfold Duration.Minutes
  rw [minute_eq, ← Int.ofNat_tdiv, ← Int.ofNat_tmod]
  obtain ⟨pq, hq1⟩ := ofInt_exact (n / 60000000000) (by omega)
  obtain ⟨mf, pf, hf, hFB⟩ := frac_spec (n % 60000000000) (Nat.mod_lt _ (by decide))
  generalize n / 60000000000 = q at hq hq1 ⊢
  unfold F64.add F64.toInt
  rw [hq1, hf]
  have hnum : ((q * 2 ^ pq : Nat) : Int) * ((2 ^ pf : Nat) : Int)
      + (mf : Int) * ((2 ^ pq : Nat) : Int) = (((q * 2 ^ pf + mf) * 2 ^ pq : Nat) : Int) := by
    push_cast
    ring
  simp only [hnum]
  have hPq : 0 < 2 ^ pq := Nat.two_pow_pos pq
  have hPf : 0 < 2 ^ pf := Nat.two_pow_pos pf
  have hmf : mf < 2 ^ pf := by
    have := hFB (2 ^ 35) (le_refl _)
    have e : 2 * (mf * 2 ^ 35) + 2 ^ pf < 2 * (2 ^ 35 * 2 ^ pf) := this
    by_contra hc
    have : 2 ^ pf ≤ mf := by omega
    have := Nat.mul_le_mul_right (2 ^ 35) this
    have e2 : 2 ^ 35 * 2 ^ pf = 2 ^ pf * 2 ^ 35 := Nat.mul_comm _ _
    omega
  rcases Nat.eq_zero_or_pos (q * 2 ^ pf + mf) with h0 | h0
  · have hq0 : q = 0 := by
      rcases Nat.eq_zero_or_pos q with h | h
      · exact h
      · have := Nat.mul_pos h hPf
        omega
    rw [h0, hq0]
    simp [F64.round, F64.toFrac]
  · obtain ⟨m, p, q1, ht, ⟨hD, h1, -, h3, h4⟩, hpq⟩ :=
      round_pos_frac ((q * 2 ^ pf + mf) * 2 ^ pq) (2 ^ pq * 2 ^ pf)
        (Nat.mul_pos h0 hPq) (Nat.mul_pos hPq hPf)
    rw [ht]
    show Int.tdiv ((m * 2 ^ q1 : Nat) : Int) ((2 ^ p : Nat) : Int) = (q : Int)
    rw [← Int.ofNat_tdiv]
    -- the scale: `p ≥ 35` and `q1 = 0`
    have hC : 0 < 2 ^ pq * 2 ^ pf := Nat.mul_pos hPq hPf
    have hlt : 2 ^ (52 + q1) < 2 ^ (18 + p) := by
      rw [pow_add, pow_add]
      have h5 : (q * 2 ^ pf + mf) < 2 ^ 18 * 2 ^ pf := by
        have : (q + 1) * 2 ^ pf ≤ 2 ^ 18 * 2 ^ pf := Nat.mul_le_mul_right _ (by omega)
        have e : (q + 1) * 2 ^ pf = q * 2 ^ pf + 2 ^ pf := by ring
        omega
      have h6 : (q * 2 ^ pf + mf) * 2 ^ pq * 2 ^ p < 2 ^ 18 * 2 ^ pf * 2 ^ pq * 2 ^ p :=
        Nat.mul_lt_mul_of_pos_right (Nat.mul_lt_mul_of_pos_right h5 hPq) (Nat.two_pow_pos p)
      have h7 : 2 ^ pq * 2 ^ pf * (2 ^ 52 * 2 ^ q1) < 2 ^ pq * 2 ^ pf * (2 ^ 18 * 2 ^ p) := by
        calc 2 ^ pq * 2 ^ pf * (2 ^ 52 * 2 ^ q1)
            = 2 ^ 52 * (2 ^ pq * 2 ^ pf * 2 ^ q1) := by ring
          _ ≤ (q * 2 ^ pf + mf) * 2 ^ pq * 2 ^ p := h1
          _ < 2 ^ 18 * 2 ^ pf * 2 ^ pq * 2 ^ p := h6
          _ = 2 ^ pq * 2 ^ pf * (2 ^ 18 * 2 ^ p) := by ring
      exact Nat.lt_of_mul_lt_mul_left h7
    have hpq2 : 52 + q1 < 18 + p := (Nat.pow_lt_pow_iff_right (by decide)).1 hlt
    have hq1 : q1 = 0 := by omega
    subst hq1
    have hp35 : 2 ^ 35 ≤ 2 ^ p := Nat.pow_le_pow_right (by decide) (by omega)
    have hFBp := hFB (2 ^ p) hp35
    simp only [pow_zero, mul_one] at h3 h4 ⊢
    -- cancel the common factor `2 ^ pq`
    have h3' : 2 ^ pq * (2 * (m * 2 ^ pf)) ≤ 2 ^ pq * (2 * ((q * 2 ^ pf + mf) * 2 ^ p) + 2 ^ pf) := by
      calc 2 ^ pq * (2 * (m * 2 ^ pf)) = 2 * (m * (2 ^ pq * 2 ^ pf)) := by ring
        _ ≤ 2 * ((q * 2 ^ pf + mf) * 2 ^ pq * 2 ^ p) + 2 ^ pq * 2 ^ pf := h3
        _ = 2 ^ pq * (2 * ((q * 2 ^ pf + mf) * 2 ^ p) + 2 ^ pf) := by ring
    have h4' : 2 ^ pq * (2 * ((q * 2 ^ pf + mf) * 2 ^ p)) ≤ 2 ^ pq * (2 * (m * 2 ^ pf) + 2 ^ pf) := by
      calc 2 ^ pq * (2 * ((q * 2 ^ pf + mf) * 2 ^ p))
          = 2 * ((q * 2 ^ pf + mf) * 2 ^ pq * 2 ^ p) := by ring
        _ ≤ 2 * (m * (2 ^ pq * 2 ^ pf)) + 2 ^ pq * 2 ^ pf := h4
        _ = 2 ^ pq * (2 * (m * 2 ^ pf) + 2 ^ pf) := by ring
    have h3'' := Nat.le_of_mul_le_mul_left h3' hPq
    have h4'' := Nat.le_of_mul_le_mul_left h4' hPq
    generalize 2 ^ p = P at *
    generalize 2 ^ pf = Pf at *
    have hlo : q * P ≤ m := by
      have e1 : 2 * ((q * Pf + mf) * P) = Pf * (2 * (q * P)) + 2 * (mf * P) := by ring
      have e2 : 2 * (m * Pf) + Pf = Pf * (2 * m + 1) := by ring
      have h8 : Pf * (2 * (q * P)) ≤ Pf * (2 * m + 1) := by omega
      have := Nat.le_of_mul_le_mul_left h8 hPf
      omega
    have hhi : m < (q + 1) * P := by
      have e1 : 2 * ((q * Pf + mf) * P) = 2 * (q * P * Pf) + 2 * (mf * P) := by ring
      have e2 : Pf * (2 * ((q + 1) * P)) = 2 * (q * P * Pf) + 2 * (P * Pf) := by ring
      have e3 : Pf * (2 * m) = 2 * (m * Pf) := by ring
      have h8 : Pf * (2 * m) < Pf * (2 * ((q + 1) * P)) := by omega
      have := Nat.lt_of_mul_lt_mul_left h8
      omega
    have := Nat.div_eq_of_lt_le hlo hhi
    exact_mod_cast this

theorem tdiv_nonpos_of_nonpos (a : Int) (b : Nat) (ha : a ≤ 0) : Int.tdiv a (b : Int) ≤ 0 := by
  obtain ⟨n, rfl⟩ : ∃ n : Nat, a = -(n : Int) := ⟨a.natAbs, by omega⟩
  rw [Int.neg_tdiv]
  have := Int.tdiv_nonneg (Int.ofNat_nonneg n) (Int.ofNat_nonneg b)
  omega

theorem tmod_nonpos_of_nonpos (a : Int) (b : Nat) (ha : a ≤ 0) : Int.tmod a (b : Int) ≤ 0 := by
  obtain ⟨n, rfl⟩ : ∃ n : Nat, a = -(n : Int) := ⟨a.natAbs, by omega⟩
  rw [Int.tmod_def, Int.neg_tdiv, ← Int.ofNat_tdiv]
  have h1 : b * (n / b) + n % b = n := Nat.div_add_mod n b
  have h2 : (b : Int) * ((n / b : Nat) : Int) + ((n % b : Nat) : Int) = (n : Int) := by
    rw [← h1]
    simp only [Nat.cast_add, Nat.cast_mul]
    rw [h1]
  have h3 : (0 : Int) ≤ ((n % b : Nat) : Int) := Int.ofNat_nonneg _
  linarith

/-- For a negative duration `int(d.Minutes())` is not positive. -/
theorem minutes_nonpos (d : Int) (h : d ≤ 0) : (Duration.Minutes d).toInt ≤ 0 := by
  unfold Duration.Minutes
  rw [minute_eq]
  have hq := tdiv_nonpos_of_nonpos d 60000000000 h
  have hr := tmod_nonpos_of_nonpos d 60000000000 h
  have hx := round_nonpos (Int.tdiv d ((60000000000 : Nat) : Int)) 1 hq
  have hr1 := round_nonpos (Int.tmod d ((60000000000 : Nat) : Int)) 1 hr
  obtain ⟨py, hpy⟩ := ofInt_exact 60000000000 (by decide)
  have e60 : ((60000000000 : Nat) : Int) = 60 * 1000000000 := by norm_num
  rw [e60] at hpy
  have hfrac : (F64.div (F64.ofInt (Int.tmod d ((60000000000 : Nat) : Int)))
      (F64.ofInt (60 * 1000000000))).toFrac.1 ≤ 0 := by
    unfold F64.div
    apply round_nonpos
    rw [hpy]
    have hpos : (0 : Int) < ((60000000000 * 2 ^ py : Nat) : Int) := by
      have := Nat.mul_pos (by decide : 0 < 60000000000) (Nat.two_pow_pos py)
      exact_mod_cast this
    simp only [Int.sign_eq_one_of_pos hpos, mul_one]
    exact mul_nonpos_of_nonpos_of_nonneg hr1 (Int.ofNat_nonneg _)
  unfold F64.toInt
  apply tdiv_nonpos_of_nonpos
  unfold F64.add
  apply round_nonpos
  have h1 := mul_nonpos_of_nonpos_of_nonneg hx (Int.ofNat_nonneg
    (F64.div (F64.ofInt (Int.tmod d ((60000000000 : Nat) : Int)))
      (F64.ofInt (60 * 1000000000))).toFrac.2)
  have h2 := mul_nonpos_of_nonpos_of_nonneg hfrac (Int.ofNat_nonneg
    (F64.ofInt (Int.tdiv d ((60000000000 : Nat) : Int))).toFrac.2)
  exact add_nonpos h1 h2

/-- For a duration of at least one minute `int(d.Minutes())` is at least `1`. -/
theorem minutes_ge_one (n : Nat) (h : 60000000000 ≤ n) :
    1 ≤ (Duration.Minutes (n : Int)).toInt := by
  unfold Duration.Minutes
  rw [minute_eq, ← Int.ofNat_tdiv, ← Int.ofNat_tmod]
  have hq : 1 ≤ n / 60000000000 := (Nat.le_div_iff_mul_le (by decide)).2 (by omega)
  obtain ⟨mf, pf, hf, -⟩ := frac_spec (n % 60000000000) (Nat.mod_lt _ (by decide))
  generalize n / 60000000000 = q at hq ⊢
  have hx := round_ge_one q 1 Nat.one_pos hq
  have hx2 := toFrac_snd_pos (F64.round (q : Int) 1)
  unfold F64.add F64.toInt
  rw [hf]
  unfold F64.ofInt
  generalize (F64.round (q : Int) 1).toFrac = x at hx hx2 ⊢
  obtain ⟨x1, x2⟩ := x
  simp only at hx hx2 ⊢
  obtain ⟨a1, rfl⟩ : ∃ a1 : Nat, x1 = (a1 : Int) := ⟨x1.toNat, by omega⟩
  have hnum : (a1 : Int) * ((2 ^ pf : Nat) : Int) + (mf : Int) * (x2 : Int)
      = ((a1 * 2 ^ pf + mf * x2 : Nat) : Int) := by push_cast; ring
  rw [hnum]
  have hle : x2 * 2 ^ pf ≤ a1 * 2 ^ pf + mf * x2 := by
    have h1 : x2 ≤ a1 := by exact_mod_cast hx
    have := Nat.mul_le_mul_right (2 ^ pf) h1
    omega
  have hres := round_ge_one (a1 * 2 ^ pf + mf * x2) (x2 * 2 ^ pf)
    (Nat.mul_pos hx2 (Nat.two_pow_pos pf)) hle
  have hpos := toFrac_snd_pos (F64.round ((a1 * 2 ^ pf + mf * x2 : Nat) : Int) (x2 * 2 ^ pf))
  generalize (F64.round ((a1 * 2 ^ pf + mf * x2 : Nat) : Int) (x2 * 2 ^ pf)).toFrac = t at hres hpos ⊢
  obtain ⟨t1, t2⟩ := t
  simp only at hres hpos ⊢
  have ht1 : (0 : Int) ≤ t1 := by omega
  rw [Int.tdiv_eq_ediv ht1 (Int.ofNat_nonneg t2)]
  exact (Int.le_ediv_iff_mul_le (by exact_mod_cast hpos)).2 (by omega)

/-- The shutdown duration is rejected exactly when it is under 60 seconds. -/
theorem minutes_lt_one_iff (d : Int) :
    (Duration.Minutes d).toInt < 1 ↔ d < 60000000000 := by
  constructor
  · intro h
    by_contra hc
    obtain ⟨n, rfl⟩ : ∃ n : Nat, d = (n : Int) := ⟨d.toNat, by omega⟩
    have := minutes_ge_one n (by omega)
    omega
  · intro h
    by_cases h0 : d ≤ 0
    · have := minutes_nonpos d h0
      omega
    · obtain ⟨n, rfl⟩ : ∃ n : Nat, d = (n : Int) := ⟨d.toNat, by omega⟩
      have hn : n < 60000000000 := by omega
      have hq : n / 60000000000 = 0 := Nat.div_eq_of_lt hn
      rw [minutes_trunc_nat n (by omega), hq]
      decide

/-- Below `2 ^ 18 = 262144` minutes, `int(d.Minutes())` is the duration truncated toward
zero to whole minutes. -/
theorem minutes_trunc (d : Int) (h0 : 0 ≤ d) (h1 : d < 262144 * 60000000000) :
    (Duration.Minutes d).toInt = Int.tdiv d Minute := by
  obtain ⟨n, rfl⟩ : ∃ n : Nat, d = (n : Int) := ⟨d.toNat, by omega⟩
  have hq : n / 60000000000 < 2 ^ 18 := (Nat.div_lt_iff_lt_mul (by decide)).2 (by omega)
  rw [minutes_trunc_nat n hq, minute_eq, ← Int.ofNat_tdiv]


/-! ## The shutdown duration -/

section AvoidRules

variable {σ α β : Type}

theorem avoids_handle {m : M σ α} {onErr : GoError → M σ β} {onOk : α → M σ β}
    (herr : ∀ e, AvoidsDurationError (onErr e)) (hok : ∀ a, AvoidsDurationError (onOk a)) :
    AvoidsDurationError (M.handle m onErr onOk) := by
  intro w
  unfold M.handle
  rcases m w with ⟨r, w1⟩
  cases r with
  | ok a => exact hok a w1
  | error e => exact herr e w1

theorem avoids_fail {e : GoError} (h : e ≠ .new "duration must be at least 1 minute") :
    AvoidsDurationError (fail e : M σ α) := by
  intro w h1
  simp only [fail, Except.error.injEq] at h1
  exact h h1

theorem avoids_fail_wrapErr {pfx : String} {e : GoError} :
    AvoidsDurationError (fail (wrapErr pfx e) : M σ α) :=
  avoids_fail (by cases e <;> simp [wrapErr])

theorem avoids_ret {a : α} : AvoidsDurationError (ret a : M σ α) := by
  intro w h
  simp [ret] at h

theorem avoids_pure {a : α} : AvoidsDurationError (pure a : M σ α) := avoids_ret

theorem avoids_emit {e : Event} : AvoidsDurationError (emit e : M σ Unit) := by
  intro w h
  simp [emit] at h

theorem avoids_peek {f : σ → α} {ev : α → Event} : AvoidsDurationError (peek f ev) := by
  intro w h
  simp [peek] at h

theorem avoids_wrap {pfx : String} {m : M σ α} : AvoidsDurationError (wrap pfx m) :=
  avoids_handle (fun _ => avoids_fail_wrapErr) (fun _ => avoids_ret)

theorem avoids_bind {m : M σ α} {k : α → M σ β} (hm : AvoidsDurationError m)
    (hk : ∀ a, AvoidsDurationError (k a)) : AvoidsDurationError (m >>= k) := by
  intro w
  show (M.handle m fail k w).1 ≠ _
  unfold M.handle
  have h := hm w
  rcases hmw : m w with ⟨r, w1⟩
  rw [hmw] at h
  cases r with
  | ok a => exact hk a w1
  | error e =>
    intro h1
    exact h (by simpa [fail] using h1)

theorem avoids_ite {c : Prop} [Decidable c] {m1 m2 : M σ α}
    (h1 : AvoidsDurationError m1) (h2 : AvoidsDurationError m2) :
    AvoidsDurationError (if c then m1 else m2) := by
  by_cases hc : c
  · simpa [hc] using h1
  · simpa [hc] using h2

end AvoidRules

theorem launch_avoids {σ : Type} (api : Env σ) (config : Config) (apiClient : TsClient)
    (key : String) (duration : Int) (cfg : AwsConfig) (runInput : RunInstancesInput) :
    AvoidsDurationError (Create.launch api config apiClient key duration cfg runInput) := by
  unfold Create.launch
  refine avoids_bind avoids_emit (fun _ => ?_)
  refine avoids_bind avoids_wrap (fun inst => ?_)
  refine avoids_bind avoids_emit (fun _ => ?_)
  refine avoids_bind avoids_wrap (fun _ => ?_)
  refine avoids_bind avoids_emit (fun _ => ?_)
  refine avoids_bind avoids_wrap (fun nodes => ?_)
  unfold Create.found
  refine avoids_ite ?_ (avoids_fail (by decide))
  refine avoids_bind avoids_emit (fun _ => ?_)
  refine avoids_bind avoids_emit (fun _ => ?_)
  refine avoids_bind avoids_peek (fun _ => ?_)
  unfold Create.connect
  exact avoids_ite (avoids_bind avoids_emit (fun _ => avoids_wrap)) avoids_pure

theorem afterDuration_avoids {σ : Type} (api : Env σ) (config : Config) (apiClient : TsClient)
    (key : String) (duration : Int) (h : ¬ (Duration.Minutes duration).toInt < 1) :
    AvoidsDurationError (Create.withDuration api config apiClient key duration) := by
  unfold Create.withDuration
  rw [if_neg h]
  refine avoids_bind ?_ (fun region => ?_)
  · unfold Create.region
    exact avoids_ite avoids_wrap (avoids_ite (avoids_fail (by decide)) avoids_pure)
  · refine avoids_bind avoids_wrap (fun cfg => ?_)
    refine avoids_handle (fun e => ?_) (fun x => ?_)
    · unfold Create.prepareFailed
      exact avoids_ite avoids_emit avoids_fail_wrapErr
    · cases x with
      | none => exact avoids_emit
      | some runInput => exact launch_avoids api config apiClient key duration cfg runInput

theorem requestsSatisfy_of_kinds {P : RunInstancesInput → Prop} {evs : List Event}
    {K : List Kind} (hK : Kind.launch ∉ K) (h : ∀ e ∈ evs, e.kind ∈ K) :
    RequestsSatisfy P evs := by
  intro cfg ri resp hmem
  exact absurd (h _ hmem) hK

theorem requestsSatisfy_append {P : RunInstancesInput → Prop} {evs1 evs2 : List Event}
    (h1 : RequestsSatisfy P evs1) (h2 : RequestsSatisfy P evs2) :
    RequestsSatisfy P (evs1 ++ evs2) := by
  intro cfg ri resp hmem
  rcases List.mem_append.1 hmem with h | h
  · exact h1 cfg ri resp h
  · exact h2 cfg ri resp h

theorem sat_bind_frame {σ α β : Type} {m : M σ α} {k : α → M σ β}
    {P : RunInstancesInput → Prop} (hm : Emits m [Kind.other])
    (hk : ∀ a, Sat (k a) (fun _ evs => RequestsSatisfy P evs)) :
    Sat (m >>= k) (fun _ evs => RequestsSatisfy P evs) :=
  sat_bind hm
    (fun a evs1 h1 => sat_mono (hk a) (fun _ evs2 h2 =>
      requestsSatisfy_append (requestsSatisfy_of_kinds (by decide) h1) h2))
    (fun e evs1 h1 => requestsSatisfy_of_kinds (by decide) h1)

theorem prepareInstance_request_sat {σ : Type} (api : Env σ) (cfg : AwsConfig) (dryRun : Bool)
    (shutdownDuration : String) :
    Sat (prepareInstance api cfg dryRun shutdownDuration) (fun r evs =>
      (∀ e ∈ evs, e.kind ∈ [Kind.confirm, Kind.other])
      ∧ ∀ x, r = .ok x →
          ∃ imageId, x = some (prepareInstance.runInput api imageId dryRun shutdownDuration)) := by
  refine sat_mono (Q := fun r evs => PrepPost r evs ∧ ∀ x, r = .ok x →
      ∃ imageId, x = some (prepareInstance.runInput api imageId dryRun shutdownDuration))
    ?_ (fun r evs h => ⟨h.1.1, h.2⟩)
  unfold prepareInstance
  refine sat_bind_wrap_call (fun images => ?_)
    (fun e => ⟨⟨by simp [Event.kind], by simp, by simp⟩, by simp⟩)
  refine sat_ite (fun _ => sat_fail ⟨⟨by simp [Event.kind], by simp, by simp⟩, by simp⟩)
    (fun _ => ?_)
  cases api.sortSlice prepareInstance.less images with
  | nil => exact sat_fail ⟨⟨by simp [Event.kind], by simp, by simp⟩, by simp⟩
  | cons latestAMI rest =>
    refine sat_mono (withImages_sat api cfg dryRun shutdownDuration latestAMI rest) ?_
    rintro r evs ⟨h1, h2, h3⟩
    refine ⟨⟨?_, ?_, ?_⟩, fun x hx => ⟨_, (h3 x hx).1⟩⟩
    · intro e he
      rcases List.mem_cons.1 he with rfl | he
      · simp [Event.kind]
      · exact h1 e he
    · intro q hq
      rcases List.mem_cons.1 hq with hq | hq
      · cases hq
      · exact h2 q hq
    · intro x hx
      refine ⟨⟨_, (h3 x hx).1⟩, fun q hq => ?_⟩
      rcases List.mem_cons.1 hq with hq | hq
      · cases hq
      · exact (h3 x hx).2 q hq

theorem launch_request_sat {σ : Type} (api : Env σ) (config : Config) (apiClient : TsClient)
    (key : String) (duration : Int) (cfg : AwsConfig) (runInput : RunInstancesInput) :
    Sat (Create.launch api config apiClient key duration cfg runInput)
      (fun _ evs => RequestsSatisfy (fun ri => ri = runInput) evs) := by
  unfold Create.launch
  refine sat_bind_emit ?_
  refine sat_bind_wrap (checked_sat api cfg runInput) (fun inst evs1 h => ?_)
    (fun e evs1 h => ?_)
  · obtain ⟨resp, rest, rfl, hk, -⟩ := h
    have htail : Emits (do
        emit (.spinTitle "Installing Tailscale...")
        wrap "failed to install Tailscale: "
          (installTailScale api cfg key inst.Name inst.InstanceID)
        emit (.print "Tailscale installed.\n")
        let nodes ← wrap "failed to get devices: "
          (call (api.devicesList apiClient) (Event.devicesList apiClient))
        Create.found api config duration inst nodes) [Kind.install, Kind.other] := by
      refine emits_bind (emits_emit (by simp [Event.kind])) (fun _ => ?_)
      refine emits_bind (emits_wrap (installTailScale_emits api cfg _ _ _)) (fun _ => ?_)
      refine emits_bind (emits_emit (by simp [Event.kind])) (fun _ => ?_)
      refine emits_bind (emits_wrap (emits_call fun _ => by simp [Event.kind])) (fun _ => ?_)
      exact emits_mono (Create_found_emits api config duration inst _) (by simp)
    refine sat_mono htail ?_
    intro r evs2 h2 cfg1 ri1 resp1 hmem
    simp only [List.mem_cons, List.cons_append, List.mem_append] at hmem
    rcases hmem with hmem | hmem | hmem | hmem
    · cases hmem
    · cases hmem
      rfl
    · have := hk _ hmem
      simp [Event.kind] at this
    · have := h2 _ hmem
      simp [Event.kind] at this
  · obtain ⟨resp, rest, rfl, hk, -⟩ := h
    intro cfg1 ri1 resp1 hmem
    simp only [List.mem_cons] at hmem
    rcases hmem with hmem | hmem | hmem
    · cases hmem
    · cases hmem
      rfl
    · have := hk _ hmem
      simp [Event.kind] at this

theorem withDuration_request_sat {σ : Type} (api : Env σ) (config : Config)
    (apiClient : TsClient) (key : String) (duration : Int) :
    Sat (Create.withDuration api config apiClient key duration)
      (fun _ evs => RequestsSatisfy (fun ri => ri.UserData = api.base64
        (prepareInstance.userDataScript (toString (Duration.Minutes duration).toInt))) evs) := by
  unfold Create.withDuration
  refine sat_ite (fun _ => sat_fail (requestsSatisfy_of_kinds (K := []) (by simp) (by simp)))
    (fun _ => ?_)
  refine sat_bind_frame (Create_region_emits api config) (fun region => ?_)
  refine sat_bind_frame (emits_wrap (emits_call fun _ => by simp [Event.kind])) (fun cfg => ?_)
  refine sat_handle (prepareInstance_request_sat api cfg config.DryRun _)
    (fun x evs1 h => ?_) (fun e evs1 h => ?_)
  · obtain ⟨hk, hx⟩ := h
    obtain ⟨imageId, rfl⟩ := hx x rfl
    simp only [Create.prepared]
    refine sat_mono (launch_request_sat api config apiClient key duration cfg _) ?_
    intro r evs2 h2
    refine requestsSatisfy_append (requestsSatisfy_of_kinds (by decide) hk) ?_
    intro cfg1 ri1 resp1 hmem
    rw [h2 cfg1 ri1 resp1 hmem]
    rfl
  · unfold Create.prepareFailed
    refine sat_ite (fun _ => sat_emit ?_) (fun _ => sat_fail ?_)
    · refine requestsSatisfy_append (requestsSatisfy_of_kinds (by decide) h.1) ?_
      exact requestsSatisfy_of_kinds (K := [Kind.other]) (by decide) (by simp [Event.kind])
    · refine requestsSatisfy_append (requestsSatisfy_of_kinds (by decide) h.1) ?_
      exact requestsSatisfy_of_kinds (K := []) (by simp) (by simp)

theorem tdiv_minute_lt_one_iff (d : Int) : Int.tdiv d Minute < 1 ↔ d < 60000000000 := by
  rw [minute_eq]
  by_cases h : 0 ≤ d
  · rw [Int.tdiv_eq_ediv h (Int.ofNat_nonneg _)]
    constructor <;> intro h1 <;> omega
  · have := tdiv_nonpos_of_nonpos d 60000000000 (by omega)
    constructor <;> intro h1 <;> omega

/-- C11 as stated fails: for the shutdown duration `262144m59.999999999s` the truncated
whole-minute count is 262144, but the delay in the user-data script of the launch request
is 262145 (`float64(262144) + 59999999999 / 6e10` rounds to `262145.0`). -/
theorem Create_delay_not_truncated :
    durationEnv.parseDuration (shutdownConfig "262144m59.999999999s").Shutdown
      = .ok longDuration
    ∧ Int.tdiv longDuration Minute = 262144
    ∧ (∃ cfg runInput resp,
        Event.runInstances cfg runInput resp
          ∈ (Create durationEnv (shutdownConfig "262144m59.999999999s") (World.init ())).2.log
        ∧ runInput.UserData = prepareInstance.userDataScript "262145")
    ∧ prepareInstance.userDataScript "262145" ≠ prepareInstance.userDataScript "262144" :=
  ⟨rfl, by decide,
    ⟨⟨"us-east-1"⟩, prepareInstance.runInput durationEnv "ami-1" false "262145",
      .ok [⟨"i-0abc", none⟩], List.get?_mem (n := 7) rfl, rfl⟩,
    by decide⟩

/-- C11, amended. When the base URL parses, the auth key is issued and the shutdown
duration parses to `d` nanoseconds: `Create` returns the error
`duration must be at least 1 minute` if and only if the duration truncated toward zero to
whole minutes is less than 1, that is if and only if `d` is under 60 seconds (zero and
negative durations included), and the run then ends right after the key was issued, before
any configuration is loaded or any compute call is made; otherwise, for every duration
below 262144 minutes, every launch request carries the user-data script whose shutdown delay
is that truncated whole-minute count. -/
theorem Create_duration_check {σ : Type} (api : Env σ) (config : Config) (s s1 : σ)
    (baseURL key : String) (d : Int)
    (hu : api.urlParse config.BaseURL = .ok baseURL)
    (hk : api.keysCreate ⟨config.APIKey, config.Tailnet, baseURL⟩ Create.keyRequest s
      = (.ok key, s1))
    (hp : api.parseDuration config.Shutdown = .ok d) :
    (Int.tdiv d Minute < 1 ↔ d < 60000000000)
    ∧ ((Create api config (World.init s)).1
        = .error (.new "duration must be at least 1 minute") ↔ Int.tdiv d Minute < 1)
    ∧ (Int.tdiv d Minute < 1 →
        Create api config (World.init s)
          = (.error (.new "duration must be at least 1 minute"),
              ⟨s1, [Event.keysCreate ⟨config.APIKey, config.Tailnet, baseURL⟩
                Create.keyRequest (.ok key)]⟩))
    ∧ (1 ≤ Int.tdiv d Minute → Int.tdiv d Minute < 262144 →
        ∀ cfg runInput resp,
          Event.runInstances cfg runInput resp ∈ (Create api config (World.init s)).2.log →
          runInput.UserData
            = api.base64 (prepareInstance.userDataScript (toString (Int.tdiv d Minute)))) := by
  have hrun : Create api config (World.init s)
      = Create.withDuration api config ⟨config.APIKey, config.Tailnet, baseURL⟩ key d
          ⟨s1, [Event.keysCreate ⟨config.APIKey, config.Tailnet, baseURL⟩
            Create.keyRequest (.ok key)]⟩ := by
    simp [Create, Create.withClient, Create.withKey, bind, M.bind, M.handle, wrap, call, ret,
      World.init, hu, hk, hp]
  have hiff := tdiv_minute_lt_one_iff d
  have hrej : Int.tdiv d Minute < 1 →
      Create.withDuration api config ⟨config.APIKey, config.Tailnet, baseURL⟩ key d
          ⟨s1, [Event.keysCreate ⟨config.APIKey, config.Tailnet, baseURL⟩
            Create.keyRequest (.ok key)]⟩
        = (.error (.new "duration must be at least 1 minute"),
            ⟨s1, [Event.keysCreate ⟨config.APIKey, config.Tailnet, baseURL⟩
              Create.keyRequest (.ok key)]⟩) := by
    intro h
    have hm : (Duration.Minutes d).toInt < 1 := (minutes_lt_one_iff d).2 (hiff.1 h)
    unfold Create.withDuration
    rw [if_pos hm]
    rfl
  refine ⟨hiff, ⟨fun h => ?_, fun h => ?_⟩, fun h => ?_, fun h1 h2 cfg runInput resp hmem => ?_⟩
  · by_contra hc
    have hm : ¬ (Duration.Minutes d).toInt < 1 := fun hm =>
      hc (hiff.2 ((minutes_lt_one_iff d).1 hm))
    rw [hrun] at h
    exact afterDuration_avoids api config _ key d hm _ h
  · rw [hrun, hrej h]
  · rw [hrun, hrej h]
  · have hd0 : 0 ≤ d := by
      by_contra hc
      have := tdiv_nonpos_of_nonpos d 60000000000 (by omega)
      rw [minute_eq] at h1
      omega
    have hd1 : d < 262144 * 60000000000 := by
      rw [minute_eq, Int.tdiv_eq_ediv hd0 (Int.ofNat_nonneg _)] at h2
      omega
    rw [hrun] at hmem
    obtain ⟨evs, hlog, hreq⟩ := withDuration_request_sat api config
      ⟨config.APIKey, config.Tailnet, baseURL⟩ key d
      ⟨s1, [Event.keysCreate ⟨config.APIKey, config.Tailnet, baseURL⟩
        Create.keyRequest (.ok key)]⟩
    rw [hlog] at hmem
    simp only [List.mem_append, List.mem_singleton] at hmem
    rcases hmem with hmem | hmem
    · cases hmem
    · rw [← minutes_trunc d hd0 hd1]
      exact hreq cfg runInput resp hmem

/-- C11, worked examples: `30s` is rejected right after the key was issued; `90s` gives the
shutdown delay 1 in the user-data script of the launch request. -/
theorem Create_duration_check_witness :
    Create durationEnv (shutdownConfig "30s") (World.init ())
        = (.error (.new "duration must be at least 1 minute"),
            ⟨(), [Event.keysCreate demoClient Create.keyRequest (.ok "tskey-auth-demo")]⟩)
    ∧ Event.runInstances ⟨"us-east-1"⟩ (prepareInstance.runInput durationEnv "ami-1" false "1")
          (.ok [⟨"i-0abc", none⟩])
        ∈ (Create durationEnv (shutdownConfig "90s") (World.init ())).2.log
    ∧ ∀ cfg runInput resp,
        Event.runInstances cfg runInput resp
          ∈ (Create durationEnv (shutdownConfig "90s") (World.init ())).2.log →
        runInput.UserData = prepareInstance.userDataScript "1" :=
  ⟨(Create_duration_check durationEnv (shutdownConfig "30s") () ()
      "https://api.tailscale.com" "tskey-auth-demo" (30 * 1000000000) rfl rfl rfl).2.2.1
      (by decide),
    List.get?_mem (n := 7) rfl,
    (Create_duration_check durationEnv (shutdownConfig "90s") () ()
      "https://api.tailscale.com" "tskey-auth-demo" (90 * 1000000000) rfl rfl rfl).2.2.2
      (by decide) (by decide)⟩


/-! ## What the active-node filter computes -/

theorem minute_range (t : Time) : 0 ≤ t.Minute ∧ t.Minute ≤ 59 := by
  unfold Time.Minute
  have h1 : 0 ≤ Int.emod (t.unix + t.offset) 3600 := Int.emod_nonneg _ (by decide)
  have h2 : Int.emod (t.unix + t.offset) 3600 < 3600 := Int.emod_lt_of_pos _ (by decide)
  generalize Int.emod (t.unix + t.offset) 3600 = r at h1 h2
  show 0 ≤ r / 60 ∧ r / 60 ≤ 59
  omega

theorem minute_recent (t : Time) : t.Minute < 10 * Minute := by
  have h := minute_range t
  have : (10 : Int) * Minute = 600000000000 := by decide
  omega

theorem perDevice_foldl (device : Device) (tags : List String) (acc : List Device) :
    tags.foldl (fun acc tag =>
      if tag = "tag:tailout" then
        if device.LastSeen.Minute < 10 * Minute then acc ++ [device] else acc
      else acc) acc
      = acc ++ List.replicate (tags.count "tag:tailout") device := by
  induction tags generalizing acc with
  | nil => simp
  | cons tag tags ih =>
    rw [List.foldl_cons, ih]
    by_cases h : tag = "tag:tailout"
    · subst h
      simp [minute_recent device.LastSeen, List.replicate_succ]
    · simp [h, List.count_cons]

theorem perDevice_eq (acc : List Device) (device : Device) :
    GetActiveNodes.perDevice acc device
      = acc ++ List.replicate (device.Tags.count "tag:tailout") device :=
  perDevice_foldl device device.Tags acc

theorem loop_foldl (devices : List Device) (acc : List Device)
    (h : ∀ d ∈ devices, d.Tags.count "tag:tailout" ≤ 1) :
    devices.foldl GetActiveNodes.perDevice acc
      = acc ++ devices.filter (fun d => decide ("tag:tailout" ∈ d.Tags)) := by
  induction devices generalizing acc with
  | nil => simp
  | cons d devices ih =>
    rw [List.foldl_cons, ih _ (fun x hx => h x (List.mem_cons_of_mem _ hx)), perDevice_eq]
    have hd := h d (List.mem_cons_self _ _)
    by_cases hm : "tag:tailout" ∈ d.Tags
    · have h1 : d.Tags.count "tag:tailout" = 1 := by
        have := List.count_pos_iff.2 hm
        omega
      simp [h1, hm, List.filter_cons]
    · have h0 : d.Tags.count "tag:tailout" = 0 := List.count_eq_zero_of_not_mem hm
      simp [h0, hm, List.filter_cons]

/-- C12. The comparison `time.Duration(lastSeen.Minute()) < 10*time.Minute` holds for every
last-seen timestamp: the minute-of-hour is between 0 and 59 and is compared, as a number of
nanoseconds, with 600,000,000,000.  Hence, for every device list the coordination service
returns in which no tag list holds `tag:tailout` more than once, `GetActiveNodes` makes the
one listing call and returns exactly the devices carrying `tag:tailout`, in input order,
whatever their last-seen times (no clock is read). -/
theorem GetActiveNodes_returns_tagged {σ : Type} (api : Env σ) (c : TsClient) (s s1 : σ)
    (devices : List Device) (hd : api.devicesList c s = (.ok devices, s1))
    (hrep : ∀ d ∈ devices, d.Tags.count "tag:tailout" ≤ 1) :
    (∀ t : Time, 0 ≤ t.Minute ∧ t.Minute ≤ 59 ∧ 10 * Minute = 600000000000
      ∧ t.Minute < 10 * Minute)
    ∧ GetActiveNodes api c (World.init s)
      = (.ok (devices.filter (fun d => decide ("tag:tailout" ∈ d.Tags))),
          ⟨s1, [Event.devicesList c (.ok devices)]⟩) := by
  constructor
  · intro t
    exact ⟨(minute_range t).1, (minute_range t).2, by decide, minute_recent t⟩
  · have hl : GetActiveNodes.loop devices
        = devices.filter (fun d => decide ("tag:tailout" ∈ d.Tags)) := by
      unfold GetActiveNodes.loop
      rw [loop_foldl devices [] hrep]
      simp
    simp [GetActiveNodes, bind, M.bind, M.handle, wrap, call, ret, pure, World.init, hd, hl]

/-- C12, worked example: the scenario of the specification; the device last seen 15 minutes
ago is returned with the one last seen 3 minutes ago. -/
theorem GetActiveNodes_returns_tagged_witness :
    (∀ d ∈ scenarioDevices, d.Tags.count "tag:tailout" ≤ 1)
    ∧ GetActiveNodes (listingEnv scenarioDevices) demoClient (World.init ())
      = (.ok [taggedDevice "a" 180, taggedDevice "b" 900],
          ⟨(), [Event.devicesList demoClient (.ok scenarioDevices)]⟩) :=
  ⟨by decide,
    (GetActiveNodes_returns_tagged (listingEnv scenarioDevices) demoClient () ()
      scenarioDevices rfl (by decide)).2⟩

end Tailout
